import Mathlib

/-!
# Nano wire-protocol dissector (`packet-nano.c`): shallow embedding and verified properties

The embedding follows `src/packet-nano.c` function by function and keeps the C names. It
covers `dissect_nano_tcp`, `dissect_nano`, `get_nano_message_len`, every function they call,
and the two Asc Pull decoders, which no function of the file calls.

Modelling conventions

* A `tvbuff_t` is the list of its bytes; it is fully captured, so its captured and its
  reported length are both the length of the list.
* Every tvbuff accessor of the host library is bounds checked and throws when the bytes it
  needs are missing. A thrown exception is the outcome `none`; state written before the
  throw persists, as it does through the C pointers.
* `Dissect α` is a computation over the three objects a dissector receives by pointer:
  the session state (`data`), the packet information (`pinfo`) and the protocol tree
  (`tree`). The tree and the info column are kept as flat logs in creation order.
* Offsets are the non-negative `int` offsets the callers pass; `guint` subtraction wraps
  modulo `2 ^ 32`.
* A C `switch` is the chain of its case tests; a loop is a recursive function over the
  iterations that remain.

The file has three parts: the embedding, lemmas on the return value (`Dissect.returns`) and
on the effect on the session state (`Dissect.frames`, `Dissect.preserves`) of every decoder,
and the properties of the specification, numbered C1, C2, ... as in the list they come from.
-/

namespace Nano

/-! ## Bytes and buffers -/

abbrev guint8 := Fin 256

abbrev tvbuff_t := List guint8

def tvb_captured_length (tvb : tvbuff_t) : Nat := tvb.length

def tvb_reported_length (tvb : tvbuff_t) : Nat := tvb.length

/-- Unsigned 32-bit subtraction `a - b` of the C code (`guint` minus `int`). -/
def guint_sub (a b : Nat) : Nat := (a % 2 ^ 32 + 2 ^ 32 - b % 2 ^ 32) % 2 ^ 32

def tvb_get_guint8 (tvb : tvbuff_t) (offset : Nat) : Option guint8 := tvb[offset]?

/-- The `length` bytes starting at `offset`, when they are all present. -/
def tvb_get_bytes (tvb : tvbuff_t) (offset length : Nat) : Option (List guint8) :=
  if offset + length ≤ tvb.length then some ((tvb.drop offset).take length) else none

/-- Little-endian value of a byte string. -/
def letoh : List guint8 → Nat
  | [] => 0
  | b :: bs => b.val + 256 * letoh bs

/-- Big-endian (network order) value of a byte string. -/
def ntoh (bs : List guint8) : Nat := letoh bs.reverse

/-- The accessor `tvb_get_guint16(tvb, offset, ENC_LITTLE_ENDIAN)`. -/
def tvb_get_letohs (tvb : tvbuff_t) (offset : Nat) : Option Nat :=
  (tvb_get_bytes tvb offset 2).map letoh

/-- The accessor `tvb_get_guint32(tvb, offset, ENC_NA)`: `ENC_NA` is big endian. -/
def tvb_get_ntohl (tvb : tvbuff_t) (offset : Nat) : Option Nat :=
  (tvb_get_bytes tvb offset 4).map ntoh

/-! ## Constants -/

def NANO_PACKET_TYPE_INVALID : Nat := 0
def NANO_PACKET_TYPE_NOT_A_TYPE : Nat := 1
def NANO_PACKET_TYPE_KEEPALIVE : Nat := 2
def NANO_PACKET_TYPE_PUBLISH : Nat := 3
def NANO_PACKET_TYPE_CONFIRM_REQ : Nat := 4
def NANO_PACKET_TYPE_CONFIRM_ACK : Nat := 5
def NANO_PACKET_TYPE_BULK_PULL : Nat := 6
def NANO_PACKET_TYPE_BULK_PUSH : Nat := 7
def NANO_PACKET_TYPE_FRONTIER_REQ : Nat := 8
def NANO_PACKET_TYPE_BULK_PULL_BLOCKS : Nat := 9
def NANO_PACKET_TYPE_NODE_ID_HANDSHAKE : Nat := 10
def NANO_PACKET_TYPE_BULK_PULL_ACCOUNT : Nat := 11
def NANO_PACKET_TYPE_TELEMETRY_REQ : Nat := 12
def NANO_PACKET_TYPE_TELEMETRY_ACK : Nat := 13
def NANO_PACKET_TYPE_ASC_PULL_REQ : Nat := 14
def NANO_PACKET_TYPE_ASC_PULL_ACK : Nat := 15

def nano_packet_type_strings : List (Int × String) :=
  [ (0, "Invalid"), (1, "Not A Type"), (2, "Keepalive"), (3, "Publish"),
    (4, "Confirm Req"), (5, "Confirm Ack"), (6, "Bulk Pull"), (7, "Bulk Push"),
    (8, "Frontier Req"), (9, "Bulk Pull Blocks [DEPRECATED]"), (10, "Node ID Handshake"),
    (11, "Bulk Pull Account"), (12, "Telemetry Req"), (13, "Telemetry Ack"),
    (14, "Asc Pull Req"), (15, "Asc Pull Ack") ]

def NANO_BLOCK_TYPE_INVALID : Int := 0
def NANO_BLOCK_TYPE_NOT_A_BLOCK : Int := 1
def NANO_BLOCK_TYPE_SEND : Int := 2
def NANO_BLOCK_TYPE_RECEIVE : Int := 3
def NANO_BLOCK_TYPE_OPEN : Int := 4
def NANO_BLOCK_TYPE_CHANGE : Int := 5
def NANO_BLOCK_TYPE_STATE : Int := 6

def nano_block_type_strings : List (Int × String) :=
  [ (0, "Invalid"), (1, "Not A Block"), (2, "Send"), (3, "Receive"), (4, "Open"),
    (5, "Change"), (6, "State") ]

def nano_magic_numbers : List (String × String) :=
  [ ("RA", "Nano Dev Network"), ("RB", "Nano Beta Network"), ("RC", "Nano Live Network"),
    ("RX", "Nano Test Network") ]

def NANO_TCP_PORT : Nat := 17075

def NANO_BLOCK_SIZE_SEND : Nat := 32 + 32 + 16 + 64 + 8
def NANO_BLOCK_SIZE_RECEIVE : Nat := 32 + 32 + 64 + 8
def NANO_BLOCK_SIZE_OPEN : Nat := 32 + 32 + 32 + 64 + 8
def NANO_BLOCK_SIZE_CHANGE : Nat := 32 + 32 + 64 + 8
def NANO_BLOCK_SIZE_STATE : Nat := 32 + 32 + 32 + 16 + 32 + 64 + 8

def NANO_HEADER_LENGTH : Nat := 8

/-- The lookup `val_to_str(val, vs, "Unknown (%d)")`. -/
def val_to_str (val : Int) (vs : List (Int × String)) : String :=
  match vs.find? (fun p => p.1 == val) with
  | some p => p.2
  | none => "Unknown (" ++ toString val ++ ")"

/-- The lookup `str_to_str(s, vs, default)`. -/
def str_to_str (s : String) (vs : List (String × String)) (dflt : String) : String :=
  match vs.find? (fun p => p.1 == s) with
  | some p => p.2
  | none => dflt

/-! ## Session state, packet information and protocol tree -/

structure nano_session_state where
  client_packet_type : Int
  bulk_pull_account_request_flags : guint8
  server_port : Nat
  deriving DecidableEq, Repr

/-- Header fields (`hf_nano_*`) registered by the dissector. -/
inductive hf_id
  | proto_nano
  | magic_number | version_max | version_using | version_min | packet_type
  | extensions_block_type | extensions_item_count | extensions_unused_label
  | extensions_telemetry_size | extensions_is_query | extensions_is_response
  | extensions_confirmed_present | extensions_is_extended
  | keepalive_peer_ip | keepalive_peer_port
  | block_hash_previous | block_hash_source | block_signature | block_work
  | block_destination_account | block_balance | block_account
  | block_representative_account | block_link
  | confirm_ack_vote_common_account | confirm_ack_vote_common_signature
  | confirm_ack_vote_common_sequence | confirm_ack_hash
  | hash_pair_first | hash_pair_second
  | telemetry_ack_signature | telemetry_ack_nodeid | telemetry_ack_blockcount
  | telemetry_ack_cementedcount | telemetry_ack_uncheckedcount
  | telemetry_ack_accountcount | telemetry_ack_bandwidthcap | telemetry_ack_uptime
  | telemetry_ack_peercount | telemetry_ack_protocolversion | telemetry_ack_genesisblock
  | telemetry_ack_majorversion | telemetry_ack_minorversion | telemetry_ack_patchversion
  | telemetry_ack_prereleaseversion | telemetry_ack_maker | telemetry_ack_timestamp
  | telemetry_ack_activedifficulty
  | asc_pull_type | asc_pull_req_ack_id | asc_pull_req_blocks_payload
  | asc_pull_req_account_info_payload | asc_pull_ack_blocks_payload
  | asc_pull_ack_account_info_payload
  | node_id_handshake_is_query | node_id_handshake_is_response
  | node_id_handshake_query_cookie | node_id_handshake_response_account
  | node_id_handshake_response_signature
  | bulk_pull_start | bulk_pull_end | bulk_pull_extended_zero | bulk_pull_extended_count
  | bulk_pull_extended_reserved
  | bulk_pull_account_public_key | bulk_pull_account_minimum_amount
  | bulk_pull_account_flags
  | bulk_pull_account_response_frontier_entry | bulk_pull_account_response_balance
  | bulk_pull_account_response_account_entry_hash
  | bulk_pull_account_response_account_entry_amount
  | bulk_pull_account_response_account_entry_source
  | frontier_req_start_account | frontier_req_age | frontier_req_count
  | frontier_response_account | frontier_response_frontier_hash
  | bulk_pull_response_block_type
  deriving DecidableEq, Repr

/-- Text appended to a keepalive peer entry. -/
inductive peer_text
  | none
  | ipv4 (addr : List guint8) (port : Nat)
  | ipv6 (addr : List guint8) (port : Nat)
  deriving DecidableEq, Repr

/-- One entry of the protocol tree, in the order the dissector creates them. -/
inductive proto_node
  | item (hf : hf_id) (start length : Nat)
  | subtree (label : String) (start length : Nat)
  | str (hf : hf_id) (start length : Nat) (value : String)
  | uint (hf : hf_id) (start length : Nat) (value : Nat)
  | append_text (t : peer_text)
  deriving DecidableEq, Repr

/-- One write to the columns of the packet list. -/
inductive col_event
  | set_protocol (text : String)
  | append_sep (text : String)
  | append (text : String)
  deriving DecidableEq, Repr

structure packet_info where
  destport : Nat
  cinfo : List col_event
  deriving DecidableEq, Repr

/-- The objects a dissector reaches through its pointer arguments. -/
structure dissect_env where
  session_state : nano_session_state
  pinfo : packet_info
  tree : List proto_node
  deriving DecidableEq, Repr

/-- A dissector step: the value it returns (`none` when a tvbuff accessor throws) and the
environment it leaves. -/
def Dissect (α : Type) : Type := dissect_env → Option α × dissect_env

def Dissect.run {α : Type} (x : Dissect α) (e : dissect_env) : Option α × dissect_env := x e

instance : Monad Dissect where
  pure a := fun e => (some a, e)
  bind x f := fun e =>
    match x e with
    | (some a, e1) => f a e1
    | (none, e1) => (none, e1)

/-- The result of a tvbuff accessor, thrown when the bytes are missing. -/
def Dissect.ofOption {α : Type} (o : Option α) : Dissect α := fun e => (o, e)

/-- The computation `x`, run in `e`, returns the value `a`: no accessor throws. -/
def Dissect.returns {α : Type} (x : Dissect α) (e : dissect_env) (a : α) : Prop :=
  (x.run e).1 = some a

/-- The computation `x` writes to the tree and the columns only: whatever its outcome, the
session state and the destination port are left as they were. -/
structure Dissect.frames {α : Type} (x : Dissect α) : Prop where
  session_state : ∀ e, (x.run e).2.session_state = e.session_state
  destport : ∀ e, (x.run e).2.pinfo.destport = e.pinfo.destport

/-- The computation `x` keeps the property `I` of the session state, whatever its outcome. -/
structure Dissect.preserves {α : Type} (x : Dissect α) (I : nano_session_state → Prop) :
    Prop where
  inv : ∀ e, I e.session_state → I (x.run e).2.session_state

def get_session_state : Dissect nano_session_state := fun e => (some e.session_state, e)

def set_client_packet_type (v : Int) : Dissect Unit := fun e =>
  (some (), { e with session_state := { e.session_state with client_packet_type := v } })

def set_bulk_pull_account_request_flags (v : guint8) : Dissect Unit := fun e =>
  (some (),
    { e with session_state := { e.session_state with bulk_pull_account_request_flags := v } })

def get_destport : Dissect Nat := fun e => (some e.pinfo.destport, e)

def add_node (n : proto_node) : Dissect Unit := fun e => (some (), { e with tree := e.tree ++ [n] })

def add_col (c : col_event) : Dissect Unit := fun e =>
  (some (), { e with pinfo := { e.pinfo with cinfo := e.pinfo.cinfo ++ [c] } })

/-- The call `proto_tree_add_item(tree, hf, tvb, start, length, enc)` with a fixed positive
length: throws unless the bytes exist. -/
def proto_tree_add_item (hf : hf_id) (tvb : tvbuff_t) (start length : Nat) : Dissect Unit :=
  fun e =>
    if start + length ≤ tvb.length then add_node (.item hf start length) e else (none, e)

/-- The call `proto_tree_add_subtree`: an interior node, its length is cut short at the end
of the buffer instead of throwing. -/
def proto_tree_add_subtree (tvb : tvbuff_t) (start length : Nat) (label : String) :
    Dissect Unit :=
  add_node (.subtree label start (min length (tvb.length - start)))

def proto_tree_add_string (hf : hf_id) (start length : Nat) (value : String) : Dissect Unit :=
  add_node (.str hf start length value)

def proto_tree_add_uint (hf : hf_id) (start length : Nat) (value : Nat) : Dissect Unit :=
  add_node (.uint hf start length value)

def proto_item_append_text (t : peer_text) : Dissect Unit := add_node (.append_text t)

/-- The helper `append_info_col`: `col_append_sep_fstr` with separator `" | "`. -/
def append_info_col (text : String) : Dissect Unit := add_col (.append_sep text)

def col_append_str (text : String) : Dissect Unit := add_col (.append text)

def col_set_str_protocol (text : String) : Dissect Unit := add_col (.set_protocol text)

/-! ## Blocks -/

def dissect_nano_receive_block (tvb : tvbuff_t) (offset : Nat) : Dissect Nat := do
  proto_tree_add_subtree tvb offset NANO_BLOCK_SIZE_RECEIVE "Receive Block"
  proto_tree_add_item .block_hash_previous tvb offset 32
  let offset := offset + 32
  proto_tree_add_item .block_hash_source tvb offset 32
  let offset := offset + 32
  proto_tree_add_item .block_signature tvb offset 64
  let offset := offset + 64
  proto_tree_add_item .block_work tvb offset 8
  let offset := offset + 8
  return offset

def dissect_nano_send_block (tvb : tvbuff_t) (offset : Nat) : Dissect Nat := do
  proto_tree_add_subtree tvb offset NANO_BLOCK_SIZE_SEND "Send Block"
  proto_tree_add_item .block_hash_previous tvb offset 32
  let offset := offset + 32
  proto_tree_add_item .block_destination_account tvb offset 32
  let offset := offset + 32
  proto_tree_add_item .block_balance tvb offset 16
  let offset := offset + 16
  proto_tree_add_item .block_signature tvb offset 64
  let offset := offset + 64
  proto_tree_add_item .block_work tvb offset 8
  let offset := offset + 8
  return offset

def dissect_nano_open_block (tvb : tvbuff_t) (offset : Nat) : Dissect Nat := do
  proto_tree_add_subtree tvb offset NANO_BLOCK_SIZE_OPEN "Open Block"
  proto_tree_add_item .block_hash_source tvb offset 32
  let offset := offset + 32
  proto_tree_add_item .block_representative_account tvb offset 32
  let offset := offset + 32
  proto_tree_add_item .block_account tvb offset 32
  let offset := offset + 32
  proto_tree_add_item .block_signature tvb offset 64
  let offset := offset + 64
  proto_tree_add_item .block_work tvb offset 8
  let offset := offset + 8
  return offset

def dissect_nano_change_block (tvb : tvbuff_t) (offset : Nat) : Dissect Nat := do
  proto_tree_add_subtree tvb offset NANO_BLOCK_SIZE_CHANGE "Change Block"
  proto_tree_add_item .block_hash_previous tvb offset 32
  let offset := offset + 32
  proto_tree_add_item .block_representative_account tvb offset 32
  let offset := offset + 32
  proto_tree_add_item .block_signature tvb offset 64
  let offset := offset + 64
  proto_tree_add_item .block_work tvb offset 8
  let offset := offset + 8
  return offset

def dissect_nano_state (tvb : tvbuff_t) (offset : Nat) : Dissect Nat := do
  proto_tree_add_subtree tvb offset NANO_BLOCK_SIZE_STATE "State Block"
  proto_tree_add_item .block_account tvb offset 32
  let offset := offset + 32
  proto_tree_add_item .block_hash_previous tvb offset 32
  let offset := offset + 32
  proto_tree_add_item .block_representative_account tvb offset 32
  let offset := offset + 32
  proto_tree_add_item .block_balance tvb offset 16
  let offset := offset + 16
  proto_tree_add_item .block_link tvb offset 32
  let offset := offset + 32
  proto_tree_add_item .block_signature tvb offset 64
  let offset := offset + 64
  proto_tree_add_item .block_work tvb offset 8
  let offset := offset + 8
  return offset

def dissect_nano_block (block_type : Int) (tvb : tvbuff_t) (offset : Nat) : Dissect Nat :=
  if block_type = NANO_BLOCK_TYPE_RECEIVE then dissect_nano_receive_block tvb offset
  else if block_type = NANO_BLOCK_TYPE_OPEN then dissect_nano_open_block tvb offset
  else if block_type = NANO_BLOCK_TYPE_SEND then dissect_nano_send_block tvb offset
  else if block_type = NANO_BLOCK_TYPE_STATE then dissect_nano_state tvb offset
  else if block_type = NANO_BLOCK_TYPE_CHANGE then dissect_nano_change_block tvb offset
  else pure 0

def get_block_type_size (block_type : Int) : Nat :=
  if block_type = NANO_BLOCK_TYPE_RECEIVE then NANO_BLOCK_SIZE_RECEIVE
  else if block_type = NANO_BLOCK_TYPE_OPEN then NANO_BLOCK_SIZE_OPEN
  else if block_type = NANO_BLOCK_TYPE_SEND then NANO_BLOCK_SIZE_SEND
  else if block_type = NANO_BLOCK_TYPE_STATE then NANO_BLOCK_SIZE_STATE
  else if block_type = NANO_BLOCK_TYPE_CHANGE then NANO_BLOCK_SIZE_CHANGE
  else 0

/-! ## Keepalive -/

/-- The call `proto_tree_add_item_ret_uint` for a little-endian (or one-byte) unsigned field:
adds the item and returns its value. -/
def proto_tree_add_item_ret_uint (hf : hf_id) (tvb : tvbuff_t) (start length : Nat) :
    Dissect Nat := do
  let bytes ← Dissect.ofOption (tvb_get_bytes tvb start length)
  add_node (.uint hf start length (letoh bytes))
  return letoh bytes

/-- The text the keepalive decoder appends to a peer entry (the two `memcmp` tests). -/
def keepalive_peer_text (ip_addr : List guint8) (port : Nat) : peer_text :=
  if ip_addr = [0, 0, 0, 0, 0, 0, 0, 0, 0, 0, 0, 0, 0, 0, 0, 0] then .none
  else if ip_addr.take 12 = [0, 0, 0, 0, 0, 0, 0, 0, 0, 0, 0xff, 0xff] then
    .ipv4 (ip_addr.drop 12) port
  else .ipv6 ip_addr port

/-- The body of the loop `for (int i = 0; i < 8; i++)` of `dissect_nano_keepalive`, run for
the `count` iterations that remain. -/
def dissect_nano_keepalive_peers (tvb : tvbuff_t) : Nat → Nat → Dissect Nat
  | 0, offset => pure offset
  | count + 1, offset => do
    proto_tree_add_subtree tvb offset (16 + 2) "Peer"
    let ip_addr ← Dissect.ofOption (tvb_get_bytes tvb offset 16)
    proto_tree_add_item .keepalive_peer_ip tvb offset 16
    let offset := offset + 16
    let port ← proto_tree_add_item_ret_uint .keepalive_peer_port tvb offset 2
    let offset := offset + 2
    proto_item_append_text (keepalive_peer_text ip_addr port)
    dissect_nano_keepalive_peers tvb count offset

def dissect_nano_keepalive (tvb : tvbuff_t) (offset : Nat) : Dissect Nat := do
  proto_tree_add_subtree tvb offset (8 * (16 + 2)) "Peer List"
  let offset ← dissect_nano_keepalive_peers tvb 8 offset
  append_info_col "Keepalive"
  return offset

/-! ## Header and extensions -/

def dissect_nano_header_extensions_unused (offset : Nat) : Dissect Unit :=
  proto_tree_add_string .extensions_unused_label offset 2 "Unused"

def dissect_nano_header_telemetry_ack (extensions : Nat) (offset : Nat) : Dissect Unit :=
  let telemetry_size := extensions &&& 0x3ff
  proto_tree_add_uint .extensions_telemetry_size offset 2 telemetry_size

def dissect_nano_header_publish (extensions : Nat) (offset : Nat) : Dissect Unit :=
  let block_type : Int := ((extensions &&& 0x0f00) >>> 8 : Nat)
  proto_tree_add_string .extensions_block_type offset 2
    (val_to_str block_type nano_block_type_strings)

def dissect_nano_header_confirm_req (extensions : Nat) (offset : Nat) : Dissect Unit := do
  let block_type : Int := ((extensions &&& 0x0f00) >>> 8 : Nat)
  proto_tree_add_string .extensions_block_type offset 2
    (val_to_str block_type nano_block_type_strings)
  if block_type = NANO_BLOCK_TYPE_NOT_A_BLOCK then
    let item_count := (extensions &&& 0xf000) >>> 12
    proto_tree_add_uint .extensions_item_count offset 2 item_count
  else pure ()

def dissect_nano_header_confirm_ack (extensions : Nat) (offset : Nat) : Dissect Unit := do
  let block_type : Int := ((extensions &&& 0x0f00) >>> 8 : Nat)
  proto_tree_add_string .extensions_block_type offset 2
    (val_to_str block_type nano_block_type_strings)
  if block_type = NANO_BLOCK_TYPE_NOT_A_BLOCK then
    let item_count := (extensions &&& 0xf000) >>> 12
    proto_tree_add_uint .extensions_item_count offset 2 item_count
  else pure ()

def dissect_nano_header_node_id_handshake (extensions : Nat) (offset : Nat) : Dissect Unit := do
  let is_query := extensions &&& 0x0001
  let is_response := extensions &&& 0x0002
  proto_tree_add_string .extensions_is_query offset 2 (if is_query ≠ 0 then "True" else "False")
  proto_tree_add_string .extensions_is_response offset 2
    (if is_response ≠ 0 then "True" else "False")

def dissect_nano_header_frontier_req (extensions : Nat) (offset : Nat) : Dissect Unit :=
  let confirmed_present := extensions &&& 0x0002
  proto_tree_add_string .extensions_confirmed_present offset 2
    (if confirmed_present ≠ 0 then "True" else "False")

def dissect_nano_header_bulk_pull (extensions : Nat) (offset : Nat) : Dissect Unit :=
  let is_extended_param_present := extensions &&& 0x0001
  proto_tree_add_uint .extensions_is_extended offset 2 is_extended_param_present

/-- Returns the value stored through the `extensions` pointer. -/
def dissect_nano_extensions (tvb : tvbuff_t) (offset : Nat) (nano_packet_type : Nat) :
    Dissect Nat := do
  proto_tree_add_subtree tvb offset 2 "Extensions"
  let extensions ← Dissect.ofOption (tvb_get_letohs tvb offset)
  (if nano_packet_type = NANO_PACKET_TYPE_TELEMETRY_ACK then
     dissect_nano_header_telemetry_ack extensions offset
   else if nano_packet_type = NANO_PACKET_TYPE_PUBLISH then
     dissect_nano_header_publish extensions offset
   else if nano_packet_type = NANO_PACKET_TYPE_CONFIRM_REQ then
     dissect_nano_header_confirm_req extensions offset
   else if nano_packet_type = NANO_PACKET_TYPE_CONFIRM_ACK then
     dissect_nano_header_confirm_ack extensions offset
   else if nano_packet_type = NANO_PACKET_TYPE_NODE_ID_HANDSHAKE then
     dissect_nano_header_node_id_handshake extensions offset
   else if nano_packet_type = NANO_PACKET_TYPE_FRONTIER_REQ then
     dissect_nano_header_frontier_req extensions offset
   else if nano_packet_type = NANO_PACKET_TYPE_BULK_PULL then
     dissect_nano_header_bulk_pull extensions offset
   else if nano_packet_type = NANO_PACKET_TYPE_KEEPALIVE
       ∨ nano_packet_type = NANO_PACKET_TYPE_BULK_PUSH
       ∨ nano_packet_type = NANO_PACKET_TYPE_BULK_PULL_ACCOUNT
       ∨ nano_packet_type = NANO_PACKET_TYPE_TELEMETRY_REQ then
     dissect_nano_header_extensions_unused offset
   else pure ())
  return extensions

/-- The accessor `tvb_get_string_enc(scope, tvb, offset, length, ENC_ASCII)`: the bytes up to
the first NUL, a byte above 0x7f read as the replacement character. -/
def tvb_get_string_enc (tvb : tvbuff_t) (offset length : Nat) : Option String :=
  (tvb_get_bytes tvb offset length).map fun bytes =>
    String.mk ((bytes.takeWhile (fun b => b ≠ 0)).map
      (fun b => if b.val < 0x80 then Char.ofNat b.val else Char.ofNat 0xfffd))

/-- Returns the final offset together with the values stored through the `nano_packet_type`
and `extensions` pointers. -/
def dissect_nano_header (tvb : tvbuff_t) (offset : Nat) : Dissect (Nat × Nat × Nat) := do
  let nano_magic_number ← Dissect.ofOption (tvb_get_string_enc tvb offset 2)
  proto_tree_add_subtree tvb offset NANO_HEADER_LENGTH "Nano Protocol Header"
  proto_tree_add_string .magic_number 0 2
    (str_to_str nano_magic_number nano_magic_numbers "Unknown" ++ " (" ++ nano_magic_number ++ ")")
  let offset := offset + 2
  proto_tree_add_item .version_max tvb offset 1
  let offset := offset + 1
  proto_tree_add_item .version_using tvb offset 1
  let offset := offset + 1
  proto_tree_add_item .version_min tvb offset 1
  let offset := offset + 1
  let nano_packet_type ← proto_tree_add_item_ret_uint .packet_type tvb offset 1
  let offset := offset + 1
  let extensions ← dissect_nano_extensions tvb offset nano_packet_type
  let offset := offset + 2
  return (offset, nano_packet_type, extensions)

/-! ## Confirm Ack and Confirm Req -/

def dissect_nano_vote_common (tvb : tvbuff_t) (offset : Nat) : Dissect Nat := do
  proto_tree_add_subtree tvb offset (32 + 64 + 8) "Vote Common"
  proto_tree_add_item .confirm_ack_vote_common_account tvb offset 32
  let offset := offset + 32
  proto_tree_add_item .confirm_ack_vote_common_signature tvb offset 64
  let offset := offset + 64
  proto_tree_add_item .confirm_ack_vote_common_sequence tvb offset 8
  let offset := offset + 8
  return offset

/-- The loop `for (int i = 0; i < item_count; i++)` of `dissect_nano_confirm_ack`, run for the
`count` iterations that remain. -/
def dissect_nano_confirm_ack_hashes (tvb : tvbuff_t) : Nat → Nat → Dissect Nat
  | 0, offset => pure offset
  | count + 1, offset => do
    proto_tree_add_item .confirm_ack_hash tvb offset 32
    let offset := offset + 32
    dissect_nano_confirm_ack_hashes tvb count offset

def dissect_nano_confirm_ack (tvb : tvbuff_t) (offset : Nat) (extensions : Nat) :
    Dissect Nat := do
  let total_size := 32 + 64 + 8
  let block_type : Int := ((extensions &&& 0x0f00) >>> 8 : Nat)
  let item_count := (extensions &&& 0xf000) >>> 12
  let total_size :=
    if block_type = NANO_BLOCK_TYPE_NOT_A_BLOCK then total_size + item_count * 32
    else total_size + get_block_type_size block_type
  append_info_col "Confirm Ack"
  proto_tree_add_subtree tvb offset total_size "Confirm Ack"
  let offset ← dissect_nano_vote_common tvb offset
  if block_type = NANO_BLOCK_TYPE_NOT_A_BLOCK then do
    col_append_str (" (" ++ toString item_count ++ " Blocks)")
    proto_tree_add_subtree tvb offset (item_count * 32) "Hashes List"
    let offset ← dissect_nano_confirm_ack_hashes tvb item_count offset
    return offset
  else do
    col_append_str (" (" ++ val_to_str block_type nano_block_type_strings ++ " Block)")
    dissect_nano_block block_type tvb offset

/-- The loop `for (int i = 0; i < item_count; i++)` of `dissect_nano_confirm_req`, run for the
`count` iterations that remain. -/
def dissect_nano_confirm_req_hash_pairs (tvb : tvbuff_t) : Nat → Nat → Dissect Nat
  | 0, offset => pure offset
  | count + 1, offset => do
    proto_tree_add_subtree tvb offset 64 "Hash Pair"
    proto_tree_add_item .hash_pair_first tvb offset 32
    let offset := offset + 32
    proto_tree_add_item .hash_pair_second tvb offset 32
    let offset := offset + 32
    dissect_nano_confirm_req_hash_pairs tvb count offset

def dissect_nano_confirm_req (tvb : tvbuff_t) (offset : Nat) (extensions : Nat) :
    Dissect Nat := do
  let block_type : Int := ((extensions &&& 0x0f00) >>> 8 : Nat)
  append_info_col "Confirm Req"
  if block_type = NANO_BLOCK_TYPE_NOT_A_BLOCK then do
    col_append_str " (ReqByHash)"
    let item_count := (extensions &&& 0xf000) >>> 12
    proto_tree_add_subtree tvb offset (item_count * 64) "Confirm Req"
    proto_tree_add_uint .extensions_item_count offset 0 item_count
    let offset ← dissect_nano_confirm_req_hash_pairs tvb item_count offset
    return offset
  else do
    col_append_str (" (" ++ val_to_str block_type nano_block_type_strings ++ " Block)")
    let block_type_size := get_block_type_size block_type
    proto_tree_add_subtree tvb offset block_type_size "Confirm Req"
    dissect_nano_block block_type tvb offset

/-! ## Telemetry -/

def dissect_nano_telemetry_req : Dissect Nat := do
  append_info_col "Telemetry Req"
  return 0

def dissect_nano_telemetry_ack (tvb : tvbuff_t) (offset : Nat) (extensions : Nat) :
    Dissect Nat := do
  append_info_col "Telemetry Ack"
  let payload_size := extensions &&& 0x3ff
  proto_tree_add_subtree tvb offset payload_size "Telemetry Ack"
  proto_tree_add_item .telemetry_ack_signature tvb offset 64
  let offset := offset + 64
  proto_tree_add_item .telemetry_ack_nodeid tvb offset 32
  let offset := offset + 32
  proto_tree_add_item .telemetry_ack_blockcount tvb offset 8
  let offset := offset + 8
  proto_tree_add_item .telemetry_ack_cementedcount tvb offset 8
  let offset := offset + 8
  proto_tree_add_item .telemetry_ack_uncheckedcount tvb offset 8
  let offset := offset + 8
  proto_tree_add_item .telemetry_ack_accountcount tvb offset 8
  let offset := offset + 8
  proto_tree_add_item .telemetry_ack_bandwidthcap tvb offset 8
  let offset := offset + 8
  proto_tree_add_item .telemetry_ack_peercount tvb offset 4
  let offset := offset + 4
  proto_tree_add_item .telemetry_ack_protocolversion tvb offset 1
  let offset := offset + 1
  proto_tree_add_item .telemetry_ack_uptime tvb offset 8
  let offset := offset + 8
  proto_tree_add_item .telemetry_ack_genesisblock tvb offset 32
  let offset := offset + 32
  proto_tree_add_item .telemetry_ack_majorversion tvb offset 1
  let offset := offset + 1
  proto_tree_add_item .telemetry_ack_minorversion tvb offset 1
  let offset := offset + 1
  proto_tree_add_item .telemetry_ack_patchversion tvb offset 1
  let offset := offset + 1
  proto_tree_add_item .telemetry_ack_prereleaseversion tvb offset 1
  let offset := offset + 1
  proto_tree_add_item .telemetry_ack_maker tvb offset 1
  let offset := offset + 1
  proto_tree_add_item .telemetry_ack_timestamp tvb offset 8
  let offset := offset + 8
  proto_tree_add_item .telemetry_ack_activedifficulty tvb offset 8
  let offset := offset + 8
  return offset

/-! ## Asc Pull Req and Asc Pull Ack -/

def dissect_nano_asc_pull_req (tvb : tvbuff_t) (offset : Nat) : Dissect Nat := do
  proto_tree_add_item .asc_pull_type tvb offset 1
  let offset := offset + 1
  proto_tree_add_item .asc_pull_req_ack_id tvb offset 8
  let offset := offset + 8
  let asc_pull_type ← Dissect.ofOption (tvb_get_guint8 tvb (offset - 9))
  (if asc_pull_type.val = 1 then
     proto_tree_add_item .asc_pull_req_blocks_payload tvb offset 33
   else if asc_pull_type.val = 2 then
     proto_tree_add_item .asc_pull_req_account_info_payload tvb offset 32
   else pure ())
  return offset

/-- The loop `while (tvb_get_guint8(tvb, offset) != 1)` of
`dissect_nano_asc_pull_ack_blocks_payload`, run for at most `fuel` iterations. -/
def dissect_nano_asc_pull_ack_blocks_payload_loop (tvb : tvbuff_t) :
    Nat → Nat → Dissect Unit
  | 0, _ => pure ()
  | fuel + 1, offset => do
    if (← Dissect.ofOption (tvb_get_guint8 tvb offset)).val ≠ 1 then
      let block_type : Int := ((← Dissect.ofOption (tvb_get_guint8 tvb offset)).val : Nat)
      if block_type = NANO_BLOCK_TYPE_SEND then do
        let _ ← dissect_nano_send_block tvb offset
        dissect_nano_asc_pull_ack_blocks_payload_loop tvb fuel (offset + NANO_BLOCK_SIZE_SEND)
      else if block_type = NANO_BLOCK_TYPE_RECEIVE then do
        let _ ← dissect_nano_receive_block tvb offset
        dissect_nano_asc_pull_ack_blocks_payload_loop tvb fuel
          (offset + NANO_BLOCK_SIZE_RECEIVE)
      else if block_type = NANO_BLOCK_TYPE_OPEN then do
        let _ ← dissect_nano_open_block tvb offset
        dissect_nano_asc_pull_ack_blocks_payload_loop tvb fuel (offset + NANO_BLOCK_SIZE_OPEN)
      else if block_type = NANO_BLOCK_TYPE_CHANGE then do
        let _ ← dissect_nano_change_block tvb offset
        dissect_nano_asc_pull_ack_blocks_payload_loop tvb fuel
          (offset + NANO_BLOCK_SIZE_CHANGE)
      else if block_type = NANO_BLOCK_TYPE_STATE then do
        let _ ← dissect_nano_state tvb offset
        dissect_nano_asc_pull_ack_blocks_payload_loop tvb fuel (offset + NANO_BLOCK_SIZE_STATE)
      else
        pure ()
    else
      pure ()

/-- Every iteration that goes on reads a byte of the buffer and advances the offset by a
block size, so `tvb.length + 1` iterations are never used up. -/
def dissect_nano_asc_pull_ack_blocks_payload (tvb : tvbuff_t) (offset : Nat) : Dissect Unit :=
  dissect_nano_asc_pull_ack_blocks_payload_loop tvb (tvb.length + 1) offset

def dissect_nano_node_id_handshake (tvb : tvbuff_t) (offset : Nat) (extensions : Nat) :
    Dissect Nat := do
  let total_body_size := 0
  let is_query := extensions &&& 0x0001
  let is_response := extensions &&& 0x0002
  append_info_col "Node ID Handshake"
  (if is_query ≠ 0 then col_append_str " (Query)" else pure ())
  let total_body_size := if is_query ≠ 0 then total_body_size + 32 else total_body_size
  (if is_response ≠ 0 then col_append_str " (Response)" else pure ())
  let total_body_size :=
    if is_response ≠ 0 then total_body_size + (32 + 64) else total_body_size
  proto_tree_add_subtree tvb offset total_body_size "Node ID Handshake"
  proto_tree_add_uint .node_id_handshake_is_query offset 0 is_query
  proto_tree_add_uint .node_id_handshake_is_response offset 0 is_response
  let offset ←
    if is_query ≠ 0 then do
      proto_tree_add_item .node_id_handshake_query_cookie tvb offset 32
      pure (offset + 32)
    else pure offset
  let offset ←
    if is_response ≠ 0 then do
      proto_tree_add_item .node_id_handshake_response_account tvb offset 32
      let offset := offset + 32
      proto_tree_add_item .node_id_handshake_response_signature tvb offset 64
      pure (offset + 64)
    else pure offset
  return offset

def dissect_nano_publish (tvb : tvbuff_t) (offset : Nat) (extensions : Nat) : Dissect Nat := do
  let block_type : Int := ((extensions &&& 0x0f00) >>> 8 : Nat)
  append_info_col "Publish"
  col_append_str (" (" ++ val_to_str block_type nano_block_type_strings ++ ")")
  let block_type_size := get_block_type_size block_type
  proto_tree_add_subtree tvb offset block_type_size "Publish"
  dissect_nano_block block_type tvb offset

def dissect_nano_bulk_pull_request (tvb : tvbuff_t) (offset : Nat) (extensions : Nat) :
    Dissect Nat := do
  append_info_col "Bulk Pull Request"
  let total_body_size := 32 + 32
  let is_extended_param_present := extensions &&& 0x0001
  let total_body_size :=
    if is_extended_param_present ≠ 0 then total_body_size + (1 + 4 + 3) else total_body_size
  proto_tree_add_subtree tvb offset total_body_size "Bulk Pull Request"
  proto_tree_add_item .bulk_pull_start tvb offset 32
  let offset := offset + 32
  proto_tree_add_item .bulk_pull_end tvb offset 32
  let offset := offset + 32
  if is_extended_param_present ≠ 0 then do
    proto_tree_add_item .bulk_pull_extended_zero tvb offset 1
    let offset := offset + 1
    proto_tree_add_item .bulk_pull_extended_count tvb offset 4
    let offset := offset + 4
    proto_tree_add_item .bulk_pull_extended_reserved tvb offset 3
    let offset := offset + 3
    return offset
  else
    return offset

def dissect_nano_bulk_pull_account_request (tvb : tvbuff_t) (offset : Nat) : Dissect Nat := do
  append_info_col "Bulk Pull Account Request"
  proto_tree_add_subtree tvb offset (32 + 16 + 1) "Bulk Pull Account Request"
  proto_tree_add_item .bulk_pull_account_public_key tvb offset 32
  let offset := offset + 32
  proto_tree_add_item .bulk_pull_account_minimum_amount tvb offset 16
  let offset := offset + 16
  let flags ← Dissect.ofOption (tvb_get_guint8 tvb offset)
  set_bulk_pull_account_request_flags flags
  proto_tree_add_item .bulk_pull_account_flags tvb offset 1
  let offset := offset + 1
  return offset

def dissect_nano_headerless_bulk_pull_account_response (tvb : tvbuff_t) : Dissect Nat := do
  let session_state ← get_session_state
  let offset := 0
  let total_size := 32 + 16
  let flags := session_state.bulk_pull_account_request_flags
  let pending_address_only : Bool := flags = 0x01
  let pending_include_address : Bool := flags = 0x02
  let total_size := if !pending_address_only then total_size + (32 + 16) else total_size
  let total_size :=
    if pending_address_only || pending_include_address then total_size + 32 else total_size
  append_info_col "Bulk Pull Account Response"
  proto_tree_add_subtree tvb 0 total_size "Bulk Pull Account Response"
  proto_tree_add_item .bulk_pull_account_response_frontier_entry tvb offset 32
  let offset := offset + 32
  proto_tree_add_item .bulk_pull_account_response_balance tvb offset 16
  let offset := offset + 16
  let offset ←
    if !pending_address_only then do
      let frontier_hash ← Dissect.ofOption (tvb_get_ntohl tvb offset)
      proto_tree_add_item .bulk_pull_account_response_account_entry_hash tvb offset 32
      let offset := offset + 32
      proto_tree_add_item .bulk_pull_account_response_account_entry_amount tvb offset 16
      let offset := offset + 16
      (if frontier_hash = 0 then set_client_packet_type NANO_PACKET_TYPE_INVALID else pure ())
      pure offset
    else pure offset
  if pending_address_only || pending_include_address then do
    proto_tree_add_item .bulk_pull_account_response_account_entry_source tvb offset 32
    let offset := offset + 32
    return offset
  else
    return offset

def dissect_nano_frontier_req (tvb : tvbuff_t) (offset : Nat) : Dissect Nat := do
  append_info_col "Frontier Req"
  proto_tree_add_subtree tvb offset (32 + 4 + 4) "Frontier Req"
  proto_tree_add_item .frontier_req_start_account tvb offset 32
  let offset := offset + 32
  proto_tree_add_item .frontier_req_age tvb offset 4
  let offset := offset + 4
  proto_tree_add_item .frontier_req_count tvb offset 4
  let offset := offset + 4
  return offset

/-! ## Headerless packets -/

def dissect_nano_headerless_frontier_response (tvb : tvbuff_t) : Dissect Nat := do
  append_info_col "Frontier Response"
  let offset := 0
  proto_tree_add_subtree tvb 0 (32 + 32) "Frontier Response"
  let account ← Dissect.ofOption (tvb_get_ntohl tvb offset)
  proto_tree_add_item .frontier_response_account tvb offset 32
  let offset := offset + 32
  let frontier_hash ← Dissect.ofOption (tvb_get_ntohl tvb offset)
  proto_tree_add_item .frontier_response_frontier_hash tvb offset 32
  let offset := offset + 32
  (if account = 0 ∧ frontier_hash = 0 then
    set_client_packet_type NANO_PACKET_TYPE_INVALID
  else pure ())
  return offset

def dissect_nano_headerless_bulk_pull_response (tvb : tvbuff_t) : Dissect Nat := do
  append_info_col "Bulk Pull Response"
  let block_type : Int := ((← Dissect.ofOption (tvb_get_guint8 tvb 0)).val : Nat)
  let total_size := 1
  let total_size :=
    if block_type ≠ NANO_BLOCK_TYPE_NOT_A_BLOCK then total_size + get_block_type_size block_type
    else total_size
  let offset := 0
  proto_tree_add_subtree tvb 0 total_size "Bulk Pull Response"
  proto_tree_add_item .bulk_pull_response_block_type tvb offset 1
  let offset := offset + 1
  if block_type = NANO_BLOCK_TYPE_NOT_A_BLOCK then do
    col_append_str " [BULK PULL RESPONSE END]"
    set_client_packet_type NANO_PACKET_TYPE_NOT_A_TYPE
    return offset
  else do
    let offset := offset + (← dissect_nano_block block_type tvb offset)
    col_append_str (" (" ++ val_to_str block_type nano_block_type_strings ++ " Block)")
    return offset

def dissect_nano_headerless_bulk_push_body (tvb : tvbuff_t) : Dissect Nat := do
  append_info_col "Bulk Push Data"
  let block_type : Int := ((← Dissect.ofOption (tvb_get_guint8 tvb 0)).val : Nat)
  let total_size := 1
  let total_size :=
    if block_type ≠ NANO_BLOCK_TYPE_NOT_A_BLOCK then total_size + get_block_type_size block_type
    else total_size
  let offset := 0
  proto_tree_add_subtree tvb 0 total_size "Bulk Push Data"
  proto_tree_add_item .bulk_pull_response_block_type tvb offset 1
  let offset := offset + 1
  if block_type = NANO_BLOCK_TYPE_NOT_A_BLOCK then do
    col_append_str " [BULK PUSH END]"
    set_client_packet_type NANO_PACKET_TYPE_NOT_A_TYPE
    return offset
  else do
    let offset := offset + (← dissect_nano_block block_type tvb offset)
    col_append_str (" (" ++ val_to_str block_type nano_block_type_strings ++ " Block)")
    return offset

def dissect_headerless_packet_client (tvb : tvbuff_t) : Dissect Nat := do
  let session_state ← get_session_state
  if session_state.client_packet_type = NANO_PACKET_TYPE_BULK_PUSH then
    dissect_nano_headerless_bulk_push_body tvb
  else do
    append_info_col "UNKNOWN HEADERLESS [CLIENT] Packet"
    return 0

def dissect_headerless_packet_server (tvb : tvbuff_t) : Dissect Nat := do
  let session_state ← get_session_state
  if session_state.client_packet_type = NANO_PACKET_TYPE_FRONTIER_REQ then
    dissect_nano_headerless_frontier_response tvb
  else if session_state.client_packet_type = NANO_PACKET_TYPE_BULK_PULL then
    dissect_nano_headerless_bulk_pull_response tvb
  else if session_state.client_packet_type = NANO_PACKET_TYPE_BULK_PULL_ACCOUNT then
    dissect_nano_headerless_bulk_pull_account_response tvb
  else do
    append_info_col "UNKNOWN HEADERLESS [SERVER] Packet"
    return 0

def dissect_headerless_packet (tvb : tvbuff_t) : Dissect Nat := do
  let session_state ← get_session_state
  if (← get_destport) = session_state.server_port then
    dissect_headerless_packet_client tvb
  else
    dissect_headerless_packet_server tvb

/-! ## Nano messages -/

def does_prev_packet_expect_headerless_response (session_state : nano_session_state) : Nat :=
  if session_state.client_packet_type = NANO_PACKET_TYPE_BULK_PULL
      ∨ session_state.client_packet_type = NANO_PACKET_TYPE_BULK_PUSH
      ∨ session_state.client_packet_type = NANO_PACKET_TYPE_FRONTIER_REQ
      ∨ session_state.client_packet_type = NANO_PACKET_TYPE_BULK_PULL_ACCOUNT then 1
  else 0

/-- The dissector of one message. `NANO_STRICT_MAGIC_BYTE` is not defined in the source, so
the magic-byte test is compiled out. -/
def dissect_nano (tvb : tvbuff_t) : Dissect Nat := do
  col_set_str_protocol "Nano"
  add_node (.item .proto_nano 0 tvb.length)
  if does_prev_packet_expect_headerless_response (← get_session_state) ≠ 0 then
    dissect_headerless_packet tvb
  else if tvb_reported_length tvb < NANO_HEADER_LENGTH then do
    append_info_col "[DEBUG] ENCOUNTERED SMALL HEADER SIZE IN PACKET"
    return 0
  else do
    let (offset, nano_packet_type, extensions) ← dissect_nano_header tvb 0
    set_client_packet_type nano_packet_type
    if nano_packet_type = NANO_PACKET_TYPE_TELEMETRY_ACK then
      dissect_nano_telemetry_ack tvb offset extensions
    else if nano_packet_type = NANO_PACKET_TYPE_TELEMETRY_REQ then
      dissect_nano_telemetry_req
    else if nano_packet_type = NANO_PACKET_TYPE_NODE_ID_HANDSHAKE then
      dissect_nano_node_id_handshake tvb offset extensions
    else if nano_packet_type = NANO_PACKET_TYPE_KEEPALIVE then
      dissect_nano_keepalive tvb offset
    else if nano_packet_type = NANO_PACKET_TYPE_CONFIRM_REQ then
      dissect_nano_confirm_req tvb offset extensions
    else if nano_packet_type = NANO_PACKET_TYPE_CONFIRM_ACK then
      dissect_nano_confirm_ack tvb offset extensions
    else if nano_packet_type = NANO_PACKET_TYPE_PUBLISH then
      dissect_nano_publish tvb offset extensions
    else if nano_packet_type = NANO_PACKET_TYPE_BULK_PULL_ACCOUNT then
      dissect_nano_bulk_pull_account_request tvb offset
    else if nano_packet_type = NANO_PACKET_TYPE_FRONTIER_REQ then
      dissect_nano_frontier_req tvb offset
    else if nano_packet_type = NANO_PACKET_TYPE_BULK_PULL then
      dissect_nano_bulk_pull_request tvb offset extensions
    else do
      append_info_col (val_to_str nano_packet_type nano_packet_type_strings)
      return tvb_captured_length tvb

/-- The framer handed to `tcp_dissect_pdus`: the length of the message starting at `offset`,
`none` when a tvbuff accessor throws. -/
def get_nano_message_len (session_state : nano_session_state) (tvb : tvbuff_t) (offset : Nat) :
    Option Nat :=
  if session_state.client_packet_type = NANO_PACKET_TYPE_BULK_PULL then do
    let nano_block_type : Int := ((← tvb_get_guint8 tvb offset).val : Nat)
    if nano_block_type = NANO_BLOCK_TYPE_NOT_A_BLOCK then
      return 1
    else
      return 1 + get_block_type_size nano_block_type
  else if session_state.client_packet_type = NANO_PACKET_TYPE_FRONTIER_REQ then
    return 32 + 32
  else if session_state.client_packet_type = NANO_PACKET_TYPE_BULK_PUSH then do
    let nano_block_type : Int := ((← tvb_get_guint8 tvb offset).val : Nat)
    if nano_block_type = NANO_BLOCK_TYPE_NOT_A_BLOCK then
      return 1
    else
      let block_size := get_block_type_size nano_block_type
      if block_size = 0 then
        return guint_sub (tvb_captured_length tvb) offset
      else
        return 1 + block_size
  else if session_state.client_packet_type = NANO_PACKET_TYPE_BULK_PULL_ACCOUNT then
    let size := 32 + 16
    let flags := session_state.bulk_pull_account_request_flags
    let pending_address_only : Bool := flags = 0x01
    let pending_include_address : Bool := flags = 0x02
    let size := if !pending_address_only then size + (32 + 16) else size
    let size := if pending_address_only || pending_include_address then size + 32 else size
    return size
  else if guint_sub (tvb_captured_length tvb) offset < NANO_HEADER_LENGTH then
    return 0
  else do
    let nano_packet_type := (← tvb_get_guint8 tvb (offset + 5)).val
    let extensions ← tvb_get_letohs tvb (offset + 6)
    if nano_packet_type = NANO_PACKET_TYPE_TELEMETRY_ACK then
      return NANO_HEADER_LENGTH + 64 + 32 + 8 + 8 + 8 + 8 + 8 + 8 + 4 + 1 + 32 + 1 + 1 + 1 + 1
        + 1 + 8 + 8
    else if nano_packet_type = NANO_PACKET_TYPE_TELEMETRY_REQ then
      return NANO_HEADER_LENGTH + 0
    else if nano_packet_type = NANO_PACKET_TYPE_NODE_ID_HANDSHAKE then
      let is_query := extensions &&& 0x0001
      let is_response := extensions &&& 0x0002
      let message_len := 0
      let message_len := if is_query ≠ 0 then message_len + 32 else message_len
      let message_len := if is_response ≠ 0 then message_len + (32 + 64) else message_len
      return NANO_HEADER_LENGTH + message_len
    else if nano_packet_type = NANO_PACKET_TYPE_KEEPALIVE then
      return NANO_HEADER_LENGTH + (16 + 2) * 8
    else if nano_packet_type = NANO_PACKET_TYPE_CONFIRM_REQ then
      let block_type : Int := ((extensions &&& 0x0f00) >>> 8 : Nat)
      if block_type = NANO_BLOCK_TYPE_NOT_A_BLOCK then
        let item_count := (extensions &&& 0xf000) >>> 12
        return NANO_HEADER_LENGTH + item_count * 64
      else if block_type = NANO_BLOCK_TYPE_SEND then
        return NANO_HEADER_LENGTH + NANO_BLOCK_SIZE_SEND
      else if block_type = NANO_BLOCK_TYPE_RECEIVE then
        return NANO_HEADER_LENGTH + NANO_BLOCK_SIZE_RECEIVE
      else if block_type = NANO_BLOCK_TYPE_OPEN then
        return NANO_HEADER_LENGTH + NANO_BLOCK_SIZE_OPEN
      else if block_type = NANO_BLOCK_TYPE_CHANGE then
        return NANO_HEADER_LENGTH + NANO_BLOCK_SIZE_CHANGE
      else if block_type = NANO_BLOCK_TYPE_STATE then
        return NANO_HEADER_LENGTH + NANO_BLOCK_SIZE_STATE
      else
        return 0
    else if nano_packet_type = NANO_PACKET_TYPE_CONFIRM_ACK then
      let total_size := 32 + 64 + 8
      let block_type : Int := ((extensions &&& 0x0f00) >>> 8 : Nat)
      let item_count := (extensions &&& 0xf000) >>> 12
      let total_size :=
        if block_type = NANO_BLOCK_TYPE_NOT_A_BLOCK then total_size + item_count * 32
        else total_size + get_block_type_size block_type
      return NANO_HEADER_LENGTH + total_size
    else if nano_packet_type = NANO_PACKET_TYPE_PUBLISH then
      let block_type : Int := ((extensions &&& 0x0f00) >>> 8 : Nat)
      return NANO_HEADER_LENGTH + get_block_type_size block_type
    else if nano_packet_type = NANO_PACKET_TYPE_BULK_PULL_ACCOUNT then
      return NANO_HEADER_LENGTH + 32 + 16 + 1
    else
      return guint_sub (tvb_captured_length tvb) offset

/-! ## Predicates and measures used in the statements -/

/-- The five block types a block decoder exists for. -/
def is_block_type (block_type : Int) : Prop :=
  block_type = NANO_BLOCK_TYPE_SEND ∨ block_type = NANO_BLOCK_TYPE_RECEIVE
    ∨ block_type = NANO_BLOCK_TYPE_OPEN ∨ block_type = NANO_BLOCK_TYPE_CHANGE
    ∨ block_type = NANO_BLOCK_TYPE_STATE

instance (block_type : Int) : Decidable (is_block_type block_type) :=
  inferInstanceAs (Decidable (block_type = NANO_BLOCK_TYPE_SEND
    ∨ block_type = NANO_BLOCK_TYPE_RECEIVE ∨ block_type = NANO_BLOCK_TYPE_OPEN
    ∨ block_type = NANO_BLOCK_TYPE_CHANGE ∨ block_type = NANO_BLOCK_TYPE_STATE))

/-- The bytes a tree entry reads from the buffer: the width of a field added with
`proto_tree_add_item`, nothing for an interior node or a text. -/
def proto_node.item_length : proto_node → Nat
  | .item _ _ length => length
  | _ => 0

/-- The sum of the field widths of the `proto_tree_add_item` entries of a tree. -/
def tree_item_bytes (tree : List proto_node) : Nat := (tree.map proto_node.item_length).sum

/-- The tree entry is a `proto_tree_add_item` entry of the field `hf`. -/
def proto_node.is_item (hf : hf_id) : proto_node → Bool
  | .item h _ _ => h = hf
  | _ => false

/-- The number of `proto_tree_add_item` entries of the field `hf` in a tree. -/
def tree_item_count (hf : hf_id) (tree : List proto_node) : Nat :=
  tree.countP (proto_node.is_item hf)

/-- The value of a tree entry added with `proto_tree_add_item` for a byte-string field
(`FT_BYTES`, as all block fields are registered): the field and the bytes of the buffer the
entry covers. -/
def proto_node.field (tvb : tvbuff_t) : proto_node → Option (hf_id × List guint8)
  | .item hf start length => some (hf, (tvb.drop start).take length)
  | _ => none

/-- The field values a tree shows, in the order they were added. -/
def tree_fields (tvb : tvbuff_t) (tree : List proto_node) : List (hf_id × List guint8) :=
  tree.filterMap (proto_node.field tvb)

/-- The text a tree entry appends to a peer entry, if it is one. -/
def proto_node.appended_text : proto_node → Option peer_text
  | .append_text t => some t
  | _ => none

/-- The texts appended to the peer entries of a tree, in order. -/
def tree_appended_texts (tree : List proto_node) : List peer_text :=
  tree.filterMap proto_node.appended_text

/-- The tree entry is an interior node added with `proto_tree_add_subtree`. -/
def proto_node.is_subtree : proto_node → Bool
  | .subtree _ _ _ => true
  | _ => false

/-- The number of interior nodes of a tree. Every block decoder starts with one, so in the
block loop of an Asc Pull Ack this counts the blocks the loop decodes. -/
def tree_subtree_count (tree : List proto_node) : Nat := tree.countP proto_node.is_subtree

/-- The computation adds no interior node to the tree, whatever its outcome. -/
def Dissect.adds_no_subtree {α : Type} (x : Dissect α) : Prop :=
  ∀ e, tree_subtree_count (x.run e).2.tree = tree_subtree_count e.tree

/-- The packet type recorded in the session state is a value a one-byte header field can
hold. -/
def client_packet_type_in_range (session_state : nano_session_state) : Prop :=
  0 ≤ session_state.client_packet_type ∧ session_state.client_packet_type < 256

/-! ## Sessions -/

/-- The session state `dissect_nano_tcp` creates for a new conversation. -/
def new_session_state (match_uint : Nat) : nano_session_state :=
  { client_packet_type := NANO_PACKET_TYPE_INVALID
    bulk_pull_account_request_flags := 0
    server_port := match_uint }

/-- One message handed to `dissect_nano`: the destination port of its packet and its bytes. -/
structure nano_message where
  destport : Nat
  tvb : tvbuff_t
  deriving DecidableEq, Repr

/-- The environment of one `dissect_nano` call: the session state reached so far, an empty
tree and an empty info column. -/
def message_env (session_state : nano_session_state) (destport : Nat) : dissect_env :=
  { session_state := session_state, pinfo := { destport := destport, cinfo := [] }, tree := [] }

/-- The session state after `dissect_nano` has run on one message. -/
def dissect_nano_next_state (session_state : nano_session_state) (msg : nano_message) :
    nano_session_state :=
  ((dissect_nano msg.tvb).run (message_env session_state msg.destport)).2.session_state

/-- The session state after a sequence of `dissect_nano` calls. -/
def dissect_nano_messages (session_state : nano_session_state) (msgs : List nano_message) :
    nano_session_state :=
  msgs.foldl dissect_nano_next_state session_state

/-! ## TCP segments -/

/-- What `dissect_nano_tcp` reads of a packet: the frame its per-packet data is attached to,
the port the dissector was matched on, the destination port and the bytes of the segment. -/
structure tcp_segment where
  frame : Nat
  match_uint : Nat
  destport : Nat
  tvb : tvbuff_t
  deriving DecidableEq, Repr

/-- The data `dissect_nano_tcp` keeps between its calls: the session state attached to the
conversation (`conversation_add_proto_data`) and the copies attached to the frames
(`p_add_proto_data`), both of file scope. -/
structure nano_tcp_data where
  conversation : Option nano_session_state
  packet : Nat → Option nano_session_state

/-- The outcome of one `dissect_nano_tcp` call: the session state of the conversation when
`tcp_dissect_pdus` is entered, which is the state the framer and the decoder see at the start
of the segment; the data the call leaves; and the value it returns. -/
structure dissect_nano_tcp_result where
  start_state : nano_session_state
  data : nano_tcp_data
  ret : Nat

/-- The dissector of one TCP segment. `tcp_dissect_pdus` belongs to Wireshark: it calls
`get_nano_message_len` and `dissect_nano` on the messages of the segment, with the session
state of the conversation as their data, and is taken here as any function of the segment
and that state. -/
def dissect_nano_tcp
    (tcp_dissect_pdus : tcp_segment → nano_session_state → nano_session_state)
    (pinfo : tcp_segment) (data : nano_tcp_data) : dissect_nano_tcp_result :=
  let session_state :=
    match data.conversation with
    | some session_state => session_state
    | none => new_session_state pinfo.match_uint
  match data.packet pinfo.frame with
  | none =>
    { start_state := session_state
      data :=
        { conversation := some (tcp_dissect_pdus pinfo session_state)
          packet := Function.update data.packet pinfo.frame (some session_state) }
      ret := tvb_captured_length pinfo.tvb }
  | some packet_session_state =>
    { start_state := packet_session_state
      data :=
        { conversation := some (tcp_dissect_pdus pinfo packet_session_state)
          packet := data.packet }
      ret := tvb_captured_length pinfo.tvb }

/-- The data left by a sequence of `dissect_nano_tcp` calls. -/
def dissect_nano_tcp_segments
    (tcp_dissect_pdus : tcp_segment → nano_session_state → nano_session_state)
    (data : nano_tcp_data) (segments : List tcp_segment) : nano_tcp_data :=
  segments.foldl (fun d pinfo => (dissect_nano_tcp tcp_dissect_pdus pinfo d).data) data

/-! ## Concrete messages and sessions -/

/-- An 8-byte header of the live network with the given packet type and extensions bytes. -/
def nano_header (packet_type extensions_low extensions_high : guint8) : tvbuff_t :=
  [0x52, 0x43, 0x12, 0x12, 0x12, packet_type, extensions_low, extensions_high]

/-- A session in which the client request `client_packet_type` is pending, with server port
7075. -/
def pending_session (client_packet_type : Int) : nano_session_state :=
  { client_packet_type := client_packet_type
    bulk_pull_account_request_flags := 0
    server_port := 7075 }

/-- A Keepalive message: the header and eight empty peer entries. -/
def keepalive_message : tvbuff_t := nano_header 2 0 0 ++ List.replicate 144 0

/-- A headerless Bulk Pull Response / Bulk Push Data message carrying a Send block: the type
byte 2 and 152 block bytes. -/
def send_block_message : tvbuff_t := [2] ++ List.replicate 152 0

/-- A session in which a Bulk Pull Account request with the given flags byte is pending,
with server port 7075. -/
def pending_bulk_pull_account (flags : guint8) : nano_session_state :=
  { client_packet_type := NANO_PACKET_TYPE_BULK_PULL_ACCOUNT
    bulk_pull_account_request_flags := flags
    server_port := 7075 }

/-- A Frontier Response that ends the list: 64 zero bytes. -/
def frontier_response_end : tvbuff_t := List.replicate 64 0

/-- A Frontier Response whose account has four leading zero bytes and a non-zero fifth byte;
the frontier hash is all zero. -/
def frontier_response_low_account : tvbuff_t :=
  List.replicate 4 0 ++ [1] ++ List.replicate 59 0

/-- A 96-byte Bulk Pull Account Response whose pending-entry hash (bytes 48..79) has four
leading zero bytes and a non-zero fifth byte (byte 52). -/
def bulk_pull_account_response_low_hash : tvbuff_t :=
  List.replicate 52 0 ++ [1] ++ List.replicate 43 0

/-- A Confirm Req by hash with two hash pairs: extensions 0x2100. -/
def confirm_req_two_pairs : tvbuff_t := nano_header 4 0x00 0x21 ++ List.replicate 128 0

/-- A Confirm Ack by hash with two hashes: extensions 0x2100. -/
def confirm_ack_two_hashes : tvbuff_t := nano_header 5 0x00 0x21 ++ List.replicate 168 0

/-- A Node ID Handshake with a query and a response: extensions 0x0003 and 128 body bytes. -/
def node_id_handshake_message : tvbuff_t := nano_header 10 0x03 0x00 ++ List.replicate 128 0

/-- A Send block behind its one-byte block type, the fields previous, destination, balance,
signature and work filled with the bytes 1, 2, 3, 4 and 5. -/
def send_block_example : tvbuff_t :=
  [2] ++ List.replicate 32 1 ++ List.replicate 32 2 ++ List.replicate 16 3
    ++ List.replicate 64 4 ++ List.replicate 8 5

/-- A Receive block behind its block type, the fields filled with the bytes 1, 2, 3, 4. -/
def receive_block_example : tvbuff_t :=
  [3] ++ List.replicate 32 1 ++ List.replicate 32 2 ++ List.replicate 64 3
    ++ List.replicate 8 4

/-- An Open block behind its block type, the fields filled with the bytes 1, 2, 3, 4, 5. -/
def open_block_example : tvbuff_t :=
  [4] ++ List.replicate 32 1 ++ List.replicate 32 2 ++ List.replicate 32 3
    ++ List.replicate 64 4 ++ List.replicate 8 5

/-- A Change block behind its block type, the fields filled with the bytes 1, 2, 3, 4. -/
def change_block_example : tvbuff_t :=
  [5] ++ List.replicate 32 1 ++ List.replicate 32 2 ++ List.replicate 64 3
    ++ List.replicate 8 4

/-- A State block behind its block type, the fields filled with the bytes 1 to 7. -/
def state_block_example : tvbuff_t :=
  [6] ++ List.replicate 32 1 ++ List.replicate 32 2 ++ List.replicate 32 3
    ++ List.replicate 16 4 ++ List.replicate 32 5 ++ List.replicate 64 6
    ++ List.replicate 8 7

/-- A Bulk Pull request: header with extensions 0x0000, start and end of 32 zero bytes. -/
def bulk_pull_message : tvbuff_t := nano_header 6 0 0 ++ List.replicate 64 0

/-- A keepalive peer entry for the IPv4-mapped address 127.0.0.1 with port bytes 1b 42. -/
def keepalive_peer_localhost : tvbuff_t :=
  [0, 0, 0, 0, 0, 0, 0, 0, 0, 0, 0xff, 0xff, 0x7f, 0x00, 0x00, 0x01, 0x1b, 0x42]

/-- A Keepalive whose first peer entry is empty, whose second is 127.0.0.1 port 16923 and
whose third is the IPv6 address 20 01 0d b8 00 .. 00 01 with port 7075; five empty entries
follow. -/
def keepalive_peers_message : tvbuff_t :=
  nano_header 2 0 0 ++ List.replicate 18 0 ++ keepalive_peer_localhost
    ++ ([0x20, 0x01, 0x0d, 0xb8] ++ List.replicate 11 0 ++ [0x01, 0xa3, 0x1b])
    ++ List.replicate 90 0

/-- An Asc Pull Req body of pull-type 1: the type byte, an 8-byte id and 33 payload bytes. -/
def asc_pull_req_blocks_body : tvbuff_t := [1] ++ List.replicate 8 0 ++ List.replicate 33 0

/-- An Asc Pull Ack blocks payload: a Send block read from its type byte 2 on (152 bytes)
and the end marker 1. -/
def asc_pull_ack_blocks_example : tvbuff_t := [2] ++ List.replicate 151 0 ++ [1]

/-- A Bulk Pull Account request with public key and amount zero and flags byte 0x02. -/
def bulk_pull_account_message : tvbuff_t := nano_header 11 0 0 ++ List.replicate 48 0 ++ [2]

/-- A Telemetry Ack whose extensions declare a payload of 0x3ff bytes, with a body of 202
zero bytes. -/
def telemetry_ack_message : tvbuff_t := nano_header 13 0xff 0x03 ++ List.replicate 202 0

/-- A header of packet type Asc Pull Req and 42 further bytes. -/
def asc_pull_req_message : tvbuff_t := nano_header 14 0 0 ++ asc_pull_req_blocks_body

/-- The data of a capture before any segment is dissected. -/
def new_nano_tcp_data : nano_tcp_data := { conversation := none, packet := fun _ => none }

/-- The effect of `tcp_dissect_pdus` on a segment that holds one complete message:
`dissect_nano` runs once, on the whole segment. -/
def tcp_dissect_pdus_one_message (pinfo : tcp_segment) (session_state : nano_session_state) :
    nano_session_state :=
  dissect_nano_next_state session_state { destport := pinfo.destport, tvb := pinfo.tvb }

/-- Frame 1: a Bulk Pull request sent to the server port 7075. -/
def bulk_pull_segment : tcp_segment :=
  { frame := 1, match_uint := 7075, destport := 7075, tvb := bulk_pull_message }

/-- Frame 2: a Bulk Pull Response with a Send block, sent by the server. -/
def send_block_segment : tcp_segment :=
  { frame := 2, match_uint := 7075, destport := 50000, tvb := send_block_message }

/-- An Asc Pull Req of pull-type 1 (50 bytes) with a Telemetry Req header behind it in the
same segment. -/
def asc_pull_req_segment : tvbuff_t := asc_pull_req_message ++ nano_header 12 0 0

@[simp] theorem Dissect.run_pure {α : Type} (a : α) (e : dissect_env) :
    (pure a : Dissect α).run e = (some a, e) := rfl

theorem Dissect.run_bind {α β : Type} (x : Dissect α) (f : α → Dissect β) (e : dissect_env) :
    (x >>= f).run e = match x.run e with
      | (some a, e1) => (f a).run e1
      | (none, e1) => (none, e1) := rfl

@[simp] theorem Dissect.run_ofOption {α : Type} (o : Option α) (e : dissect_env) :
    (Dissect.ofOption o).run e = (o, e) := rfl

@[simp] theorem add_node_run (n : proto_node) (e : dissect_env) :
    (add_node n).run e = (some (), { e with tree := e.tree ++ [n] }) := rfl

@[simp] theorem add_col_run (c : col_event) (e : dissect_env) :
    (add_col c).run e
      = (some (), { e with pinfo := { e.pinfo with cinfo := e.pinfo.cinfo ++ [c] } }) := rfl

@[simp] theorem get_session_state_run (e : dissect_env) :
    get_session_state.run e = (some e.session_state, e) := rfl

@[simp] theorem get_destport_run (e : dissect_env) :
    get_destport.run e = (some e.pinfo.destport, e) := rfl

@[simp] theorem set_client_packet_type_run (v : Int) (e : dissect_env) :
    (set_client_packet_type v).run e
      = (some (), { e with session_state := { e.session_state with client_packet_type := v } }) :=
  rfl

@[simp] theorem set_bulk_pull_account_request_flags_run (v : guint8) (e : dissect_env) :
    (set_bulk_pull_account_request_flags v).run e
      = (some (), { e with session_state :=
          { e.session_state with bulk_pull_account_request_flags := v } }) :=
  rfl

theorem proto_tree_add_item_run (hf : hf_id) (tvb : tvbuff_t) (start length : Nat)
    (e : dissect_env) (h : start + length ≤ tvb.length) :
    (proto_tree_add_item hf tvb start length).run e
      = (some (), { e with tree := e.tree ++ [.item hf start length] }) := by
  simp [proto_tree_add_item, Dissect.run, h, add_node]

theorem proto_tree_add_item_run_throw (hf : hf_id) (tvb : tvbuff_t) (start length : Nat)
    (e : dissect_env) (h : tvb.length < start + length) :
    (proto_tree_add_item hf tvb start length).run e = (none, e) := by
  simp [proto_tree_add_item, Dissect.run, Nat.not_le.mpr h]

theorem Dissect.run_bind_of_returns {α β : Type} {x : Dissect α} {f : α → Dissect β}
    {e : dissect_env} {a : α} (h : x.returns e a) :
    (x >>= f).run e = (f a).run (x.run e).2 := by
  unfold Dissect.returns at h
  rw [Dissect.run_bind]
  rcases hx : x.run e with ⟨o, e1⟩
  rw [hx] at h
  simp only at h
  subst h
  rfl

theorem Dissect.returns_bind {α β : Type} {x : Dissect α} {f : α → Dissect β}
    {e : dissect_env} {a : α} {b : β} (h : x.returns e a) (hf : (f a).returns (x.run e).2 b) :
    (x >>= f).returns e b := by
  unfold Dissect.returns
  rw [Dissect.run_bind_of_returns h]
  exact hf

theorem Dissect.frames_pure {α : Type} (a : α) : (pure a : Dissect α).frames :=
  ⟨fun _ => rfl, fun _ => rfl⟩

theorem Dissect.frames_bind {α β : Type} {x : Dissect α} {f : α → Dissect β}
    (hx : x.frames) (hf : ∀ a, (f a).frames) : (x >>= f).frames := by
  have key : ∀ e, ((x >>= f).run e).2.session_state = e.session_state
      ∧ ((x >>= f).run e).2.pinfo.destport = e.pinfo.destport := by
    intro e
    rw [Dissect.run_bind]
    rcases h : x.run e with ⟨o, e1⟩
    have h1 := hx.session_state e
    have h2 := hx.destport e
    rw [h] at h1 h2
    cases o with
    | none => exact ⟨h1, h2⟩
    | some a => exact ⟨((hf a).session_state e1).trans h1, ((hf a).destport e1).trans h2⟩
  exact ⟨fun e => (key e).1, fun e => (key e).2⟩

theorem Dissect.frames_ite {α : Type} {c : Prop} [Decidable c] {x y : Dissect α}
    (hx : x.frames) (hy : y.frames) : (if c then x else y).frames := by
  split
  · exact hx
  · exact hy

theorem Dissect.frames_ofOption {α : Type} (o : Option α) : (Dissect.ofOption o).frames :=
  ⟨fun _ => rfl, fun _ => rfl⟩

theorem add_node_frames (n : proto_node) : (add_node n).frames := ⟨fun _ => rfl, fun _ => rfl⟩

theorem add_col_frames (c : col_event) : (add_col c).frames := ⟨fun _ => rfl, fun _ => rfl⟩

theorem get_session_state_frames : get_session_state.frames := ⟨fun _ => rfl, fun _ => rfl⟩

theorem get_destport_frames : get_destport.frames := ⟨fun _ => rfl, fun _ => rfl⟩

theorem proto_tree_add_item_frames (hf : hf_id) (tvb : tvbuff_t) (start length : Nat) :
    (proto_tree_add_item hf tvb start length).frames := by
  constructor <;>
  · intro e
    unfold proto_tree_add_item Dissect.run
    split <;> rfl

theorem proto_tree_add_subtree_frames (tvb : tvbuff_t) (start length : Nat) (label : String) :
    (proto_tree_add_subtree tvb start length label).frames := add_node_frames _

theorem proto_tree_add_string_frames (hf : hf_id) (start length : Nat) (value : String) :
    (proto_tree_add_string hf start length value).frames := add_node_frames _

theorem proto_tree_add_uint_frames (hf : hf_id) (start length : Nat) (value : Nat) :
    (proto_tree_add_uint hf start length value).frames := add_node_frames _

theorem proto_item_append_text_frames (t : peer_text) : (proto_item_append_text t).frames :=
  add_node_frames _

theorem append_info_col_frames (text : String) : (append_info_col text).frames :=
  add_col_frames _

theorem col_append_str_frames (text : String) : (col_append_str text).frames :=
  add_col_frames _

theorem col_set_str_protocol_frames (text : String) : (col_set_str_protocol text).frames :=
  add_col_frames _

theorem proto_tree_add_item_ret_uint_frames (hf : hf_id) (tvb : tvbuff_t) (start length : Nat) :
    (proto_tree_add_item_ret_uint hf tvb start length).frames :=
  Dissect.frames_bind (Dissect.frames_ofOption _) fun _ =>
    Dissect.frames_bind (add_node_frames _) fun _ => Dissect.frames_pure _

/-! ## Return values of the decoders -/

theorem dissect_nano_send_block_returns (tvb : tvbuff_t) (offset : Nat) (e : dissect_env)
    (h : offset + 152 ≤ tvb.length) :
    (dissect_nano_send_block tvb offset).returns e (offset + 152) := by
  simp (disch := omega) [dissect_nano_send_block, Dissect.returns, Dissect.run_bind,
    proto_tree_add_item_run, proto_tree_add_subtree]

theorem dissect_nano_send_block_frames (tvb : tvbuff_t) (offset : Nat) :
    (dissect_nano_send_block tvb offset).frames := by
  unfold dissect_nano_send_block
  repeat (first
    | exact Dissect.frames_pure _
    | exact proto_tree_add_item_frames _ _ _ _
    | exact proto_tree_add_subtree_frames _ _ _ _
    | exact proto_tree_add_string_frames _ _ _ _
    | exact proto_tree_add_uint_frames _ _ _ _
    | exact proto_tree_add_item_ret_uint_frames _ _ _ _
    | exact proto_item_append_text_frames _
    | exact append_info_col_frames _
    | exact col_append_str_frames _
    | exact Dissect.frames_ofOption _
    | (refine Dissect.frames_bind ?_ ?_; rotate_left; intro _)
    | refine Dissect.frames_ite ?_ ?_)

theorem dissect_nano_receive_block_returns (tvb : tvbuff_t) (offset : Nat) (e : dissect_env)
    (h : offset + 136 ≤ tvb.length) :
    (dissect_nano_receive_block tvb offset).returns e (offset + 136) := by
  simp (disch := omega) [dissect_nano_receive_block, Dissect.returns, Dissect.run_bind,
    proto_tree_add_item_run, proto_tree_add_subtree]

theorem dissect_nano_open_block_returns (tvb : tvbuff_t) (offset : Nat) (e : dissect_env)
    (h : offset + 168 ≤ tvb.length) :
    (dissect_nano_open_block tvb offset).returns e (offset + 168) := by
  simp (disch := omega) [dissect_nano_open_block, Dissect.returns, Dissect.run_bind,
    proto_tree_add_item_run, proto_tree_add_subtree]

theorem dissect_nano_change_block_returns (tvb : tvbuff_t) (offset : Nat) (e : dissect_env)
    (h : offset + 136 ≤ tvb.length) :
    (dissect_nano_change_block tvb offset).returns e (offset + 136) := by
  simp (disch := omega) [dissect_nano_change_block, Dissect.returns, Dissect.run_bind,
    proto_tree_add_item_run, proto_tree_add_subtree]

theorem dissect_nano_state_returns (tvb : tvbuff_t) (offset : Nat) (e : dissect_env)
    (h : offset + 216 ≤ tvb.length) :
    (dissect_nano_state tvb offset).returns e (offset + 216) := by
  simp (disch := omega) [dissect_nano_state, Dissect.returns, Dissect.run_bind,
    proto_tree_add_item_run, proto_tree_add_subtree]

theorem dissect_nano_block_returns (block_type : Int) (tvb : tvbuff_t) (offset : Nat)
    (e : dissect_env) (hb : is_block_type block_type)
    (h : offset + get_block_type_size block_type ≤ tvb.length) :
    (dissect_nano_block block_type tvb offset).returns e
      (offset + get_block_type_size block_type) := by
  rcases hb with hb | hb | hb | hb | hb <;> subst hb
  · exact dissect_nano_send_block_returns tvb offset e h
  · exact dissect_nano_receive_block_returns tvb offset e h
  · exact dissect_nano_open_block_returns tvb offset e h
  · exact dissect_nano_change_block_returns tvb offset e h
  · exact dissect_nano_state_returns tvb offset e h

theorem dissect_nano_block_returns_zero (block_type : Int) (tvb : tvbuff_t) (offset : Nat)
    (e : dissect_env) (hb : ¬ is_block_type block_type) :
    (dissect_nano_block block_type tvb offset).returns e 0 := by
  unfold is_block_type at hb
  simp only [not_or] at hb
  simp [dissect_nano_block, hb, Dissect.returns]

theorem get_block_type_size_eq_zero (block_type : Int) (hb : ¬ is_block_type block_type) :
    get_block_type_size block_type = 0 := by
  unfold is_block_type at hb
  simp only [not_or] at hb
  simp [get_block_type_size, hb]

theorem tvb_get_bytes_eq_some (tvb : tvbuff_t) (offset length : Nat)
    (h : offset + length ≤ tvb.length) :
    tvb_get_bytes tvb offset length = some ((tvb.drop offset).take length) := by
  simp [tvb_get_bytes, h]

theorem proto_tree_add_item_ret_uint_run (hf : hf_id) (tvb : tvbuff_t) (start length : Nat)
    (e : dissect_env) (h : start + length ≤ tvb.length) :
    (proto_tree_add_item_ret_uint hf tvb start length).run e
      = (some (letoh ((tvb.drop start).take length)),
          { e with tree := e.tree ++ [.uint hf start length (letoh ((tvb.drop start).take length))] }) := by
  simp [proto_tree_add_item_ret_uint, Dissect.run_bind, tvb_get_bytes_eq_some _ _ _ h]

theorem dissect_nano_keepalive_peers_returns (tvb : tvbuff_t) (count : Nat) :
    ∀ (offset : Nat) (e : dissect_env), offset + 18 * count ≤ tvb.length →
      (dissect_nano_keepalive_peers tvb count offset).returns e (offset + 18 * count) := by
  induction count with
  | zero => intro offset e _; simp [dissect_nano_keepalive_peers, Dissect.returns]
  | succ n ih =>
    intro offset e h
    have h16 : offset + 16 ≤ tvb.length := by omega
    have h18 : offset + 16 + 2 ≤ tvb.length := by omega
    have hrec := ih (offset + 16 + 2)
    simp only [Dissect.returns] at hrec ⊢
    simp only [dissect_nano_keepalive_peers, Dissect.run_bind, proto_tree_add_subtree,
      add_node_run, Dissect.run_ofOption, tvb_get_bytes_eq_some _ _ _ h16,
      proto_tree_add_item_run _ _ _ _ _ h16, proto_tree_add_item_ret_uint_run _ _ _ _ _ h18,
      proto_item_append_text]
    rw [hrec _ (by omega)]
    congr 1
    omega

theorem dissect_nano_keepalive_returns (tvb : tvbuff_t) (offset : Nat) (e : dissect_env)
    (h : offset + 144 ≤ tvb.length) :
    (dissect_nano_keepalive tvb offset).returns e (offset + 144) := by
  unfold dissect_nano_keepalive
  simp only [proto_tree_add_subtree]
  refine Dissect.returns_bind (a := ()) rfl ?_
  refine Dissect.returns_bind (dissect_nano_keepalive_peers_returns tvb 8 offset _ (by omega)) ?_
  rfl

theorem dissect_nano_vote_common_returns (tvb : tvbuff_t) (offset : Nat) (e : dissect_env)
    (h : offset + 104 ≤ tvb.length) :
    (dissect_nano_vote_common tvb offset).returns e (offset + 104) := by
  simp (disch := omega) [dissect_nano_vote_common, Dissect.returns, Dissect.run_bind,
    proto_tree_add_item_run, proto_tree_add_subtree]

theorem dissect_nano_confirm_ack_hashes_returns (tvb : tvbuff_t) (count : Nat) :
    ∀ (offset : Nat) (e : dissect_env), offset + count * 32 ≤ tvb.length →
      (dissect_nano_confirm_ack_hashes tvb count offset).returns e (offset + count * 32) := by
  induction count with
  | zero => intro offset e _; simp [dissect_nano_confirm_ack_hashes, Dissect.returns]
  | succ n ih =>
    intro offset e h
    have h32 : offset + 32 ≤ tvb.length := by omega
    have hrec := ih (offset + 32)
    simp only [Dissect.returns] at hrec ⊢
    simp only [dissect_nano_confirm_ack_hashes, Dissect.run_bind,
      proto_tree_add_item_run _ _ _ _ _ h32]
    rw [hrec _ (by omega)]
    congr 1
    omega

theorem dissect_nano_confirm_req_hash_pairs_returns (tvb : tvbuff_t) (count : Nat) :
    ∀ (offset : Nat) (e : dissect_env), offset + count * 64 ≤ tvb.length →
      (dissect_nano_confirm_req_hash_pairs tvb count offset).returns e (offset + count * 64) := by
  induction count with
  | zero => intro offset e _; simp [dissect_nano_confirm_req_hash_pairs, Dissect.returns]
  | succ n ih =>
    intro offset e h
    have h32 : offset + 32 ≤ tvb.length := by omega
    have h64 : offset + 32 + 32 ≤ tvb.length := by omega
    have hrec := ih (offset + 32 + 32)
    simp only [Dissect.returns] at hrec ⊢
    simp only [dissect_nano_confirm_req_hash_pairs, Dissect.run_bind, proto_tree_add_subtree,
      add_node_run, proto_tree_add_item_run _ _ _ _ _ h32,
      proto_tree_add_item_run _ _ _ _ _ h64]
    rw [hrec _ (by omega)]
    congr 1
    omega

theorem dissect_nano_telemetry_ack_returns (tvb : tvbuff_t) (offset extensions : Nat)
    (e : dissect_env) (h : offset + 202 ≤ tvb.length) :
    (dissect_nano_telemetry_ack tvb offset extensions).returns e (offset + 202) := by
  simp (disch := omega) [dissect_nano_telemetry_ack, Dissect.returns, Dissect.run_bind,
    proto_tree_add_item_run, proto_tree_add_subtree, append_info_col]

theorem dissect_nano_frontier_req_returns (tvb : tvbuff_t) (offset : Nat)
    (e : dissect_env) (h : offset + 40 ≤ tvb.length) :
    (dissect_nano_frontier_req tvb offset).returns e (offset + 40) := by
  simp (disch := omega) [dissect_nano_frontier_req, Dissect.returns, Dissect.run_bind,
    proto_tree_add_item_run, proto_tree_add_subtree, append_info_col]

theorem dissect_nano_node_id_handshake_returns (tvb : tvbuff_t) (offset extensions : Nat)
    (e : dissect_env)
    (h : offset + ((if extensions &&& 0x0001 ≠ 0 then 32 else 0)
          + (if extensions &&& 0x0002 ≠ 0 then 96 else 0)) ≤ tvb.length) :
    (dissect_nano_node_id_handshake tvb offset extensions).returns e
      (offset + ((if extensions &&& 0x0001 ≠ 0 then 32 else 0)
          + (if extensions &&& 0x0002 ≠ 0 then 96 else 0))) := by
  by_cases hq : extensions &&& 0x0001 = 0 <;> by_cases hr : extensions &&& 0x0002 = 0 <;>
    simp only [hq, hr, ne_eq, not_true_eq_false, not_false_eq_true, if_true, if_false]
      at h ⊢ <;>
    simp (disch := omega) only [dissect_nano_node_id_handshake, Dissect.returns,
      Dissect.run_bind, proto_tree_add_item_run, proto_tree_add_subtree, append_info_col,
      col_append_str, proto_tree_add_uint, add_node_run, add_col_run, Dissect.run_pure, hq, hr,
      ne_eq, not_true_eq_false, not_false_eq_true, if_true, if_false]
  simp only [Option.some.injEq]
  omega

theorem dissect_nano_bulk_pull_request_returns (tvb : tvbuff_t) (offset extensions : Nat)
    (e : dissect_env)
    (h : offset + (if extensions &&& 0x0001 ≠ 0 then 72 else 64) ≤ tvb.length) :
    (dissect_nano_bulk_pull_request tvb offset extensions).returns e
      (offset + (if extensions &&& 0x0001 ≠ 0 then 72 else 64)) := by
  by_cases hq : extensions &&& 0x0001 = 0 <;>
    simp only [hq, ne_eq, not_true_eq_false, not_false_eq_true, if_true, if_false] at h ⊢ <;>
    simp (disch := omega) only [dissect_nano_bulk_pull_request, Dissect.returns,
      Dissect.run_bind, proto_tree_add_item_run, proto_tree_add_subtree, append_info_col,
      add_node_run, add_col_run, Dissect.run_pure, hq,
      ne_eq, not_true_eq_false, not_false_eq_true, if_true, if_false]

theorem tvb_get_guint8_isSome (tvb : tvbuff_t) (offset : Nat) (h : offset < tvb.length) :
    ∃ b, tvb_get_guint8 tvb offset = some b := by
  refine ⟨tvb[offset], ?_⟩
  simp [tvb_get_guint8, h]

theorem dissect_nano_bulk_pull_account_request_returns (tvb : tvbuff_t) (offset : Nat)
    (e : dissect_env) (h : offset + 49 ≤ tvb.length) :
    (dissect_nano_bulk_pull_account_request tvb offset).returns e (offset + 49) := by
  obtain ⟨b, hb⟩ := tvb_get_guint8_isSome tvb (offset + 32 + 16) (by omega)
  simp (disch := omega) [dissect_nano_bulk_pull_account_request, Dissect.returns,
    Dissect.run_bind, proto_tree_add_item_run, proto_tree_add_subtree, append_info_col, hb]

theorem dissect_nano_publish_returns (tvb : tvbuff_t) (offset extensions : Nat)
    (e : dissect_env) (hb : is_block_type (((extensions &&& 0x0f00) >>> 8 : Nat) : Int))
    (h : offset + get_block_type_size (((extensions &&& 0x0f00) >>> 8 : Nat) : Int)
      ≤ tvb.length) :
    (dissect_nano_publish tvb offset extensions).returns e
      (offset + get_block_type_size (((extensions &&& 0x0f00) >>> 8 : Nat) : Int)) := by
  unfold dissect_nano_publish
  simp only [append_info_col, col_append_str, proto_tree_add_subtree]
  refine Dissect.returns_bind (a := ()) rfl ?_
  refine Dissect.returns_bind (a := ()) rfl ?_
  refine Dissect.returns_bind (a := ()) rfl ?_
  exact dissect_nano_block_returns _ tvb offset _ hb h

theorem dissect_nano_publish_returns_zero (tvb : tvbuff_t) (offset extensions : Nat)
    (e : dissect_env) (hb : ¬ is_block_type (((extensions &&& 0x0f00) >>> 8 : Nat) : Int)) :
    (dissect_nano_publish tvb offset extensions).returns e 0 := by
  unfold dissect_nano_publish
  simp only [append_info_col, col_append_str, proto_tree_add_subtree]
  refine Dissect.returns_bind (a := ()) rfl ?_
  refine Dissect.returns_bind (a := ()) rfl ?_
  refine Dissect.returns_bind (a := ()) rfl ?_
  exact dissect_nano_block_returns_zero _ tvb offset _ hb

theorem dissect_nano_confirm_req_returns_block (tvb : tvbuff_t) (offset extensions : Nat)
    (e : dissect_env) (hb : is_block_type (((extensions &&& 0x0f00) >>> 8 : Nat) : Int))
    (h : offset + get_block_type_size (((extensions &&& 0x0f00) >>> 8 : Nat) : Int)
      ≤ tvb.length) :
    (dissect_nano_confirm_req tvb offset extensions).returns e
      (offset + get_block_type_size (((extensions &&& 0x0f00) >>> 8 : Nat) : Int)) := by
  have hne : (((extensions &&& 0x0f00) >>> 8 : Nat) : Int) ≠ NANO_BLOCK_TYPE_NOT_A_BLOCK := by
    intro h1
    rw [h1] at hb
    revert hb
    decide
  unfold dissect_nano_confirm_req
  simp only [append_info_col, col_append_str, proto_tree_add_subtree, if_neg hne]
  refine Dissect.returns_bind (a := ()) rfl ?_
  refine Dissect.returns_bind (a := ()) rfl ?_
  refine Dissect.returns_bind (a := ()) rfl ?_
  exact dissect_nano_block_returns _ tvb offset _ hb h

theorem dissect_nano_confirm_req_returns_zero (tvb : tvbuff_t) (offset extensions : Nat)
    (e : dissect_env) (hb : ¬ is_block_type (((extensions &&& 0x0f00) >>> 8 : Nat) : Int))
    (hne : (((extensions &&& 0x0f00) >>> 8 : Nat) : Int) ≠ NANO_BLOCK_TYPE_NOT_A_BLOCK) :
    (dissect_nano_confirm_req tvb offset extensions).returns e 0 := by
  unfold dissect_nano_confirm_req
  simp only [append_info_col, col_append_str, proto_tree_add_subtree, if_neg hne]
  refine Dissect.returns_bind (a := ()) rfl ?_
  refine Dissect.returns_bind (a := ()) rfl ?_
  refine Dissect.returns_bind (a := ()) rfl ?_
  exact dissect_nano_block_returns_zero _ tvb offset _ hb

theorem dissect_nano_confirm_req_returns_hashes (tvb : tvbuff_t) (offset extensions : Nat)
    (e : dissect_env)
    (hb : (((extensions &&& 0x0f00) >>> 8 : Nat) : Int) = NANO_BLOCK_TYPE_NOT_A_BLOCK)
    (h : offset + ((extensions &&& 0xf000) >>> 12) * 64 ≤ tvb.length) :
    (dissect_nano_confirm_req tvb offset extensions).returns e
      (offset + ((extensions &&& 0xf000) >>> 12) * 64) := by
  unfold dissect_nano_confirm_req
  simp only [append_info_col, col_append_str, proto_tree_add_subtree, proto_tree_add_uint,
    if_pos hb]
  refine Dissect.returns_bind (a := ()) rfl ?_
  refine Dissect.returns_bind (a := ()) rfl ?_
  refine Dissect.returns_bind (a := ()) rfl ?_
  refine Dissect.returns_bind (a := ()) rfl ?_
  refine Dissect.returns_bind
    (dissect_nano_confirm_req_hash_pairs_returns tvb _ offset _ h) ?_
  rfl

theorem dissect_nano_confirm_ack_returns_block (tvb : tvbuff_t) (offset extensions : Nat)
    (e : dissect_env) (hb : is_block_type (((extensions &&& 0x0f00) >>> 8 : Nat) : Int))
    (h : offset + 104 + get_block_type_size (((extensions &&& 0x0f00) >>> 8 : Nat) : Int)
      ≤ tvb.length) :
    (dissect_nano_confirm_ack tvb offset extensions).returns e
      (offset + 104 + get_block_type_size (((extensions &&& 0x0f00) >>> 8 : Nat) : Int)) := by
  have hne : (((extensions &&& 0x0f00) >>> 8 : Nat) : Int) ≠ NANO_BLOCK_TYPE_NOT_A_BLOCK := by
    intro h1
    rw [h1] at hb
    revert hb
    decide
  unfold dissect_nano_confirm_ack
  simp only [append_info_col, col_append_str, proto_tree_add_subtree, if_neg hne]
  refine Dissect.returns_bind (a := ()) rfl ?_
  refine Dissect.returns_bind (a := ()) rfl ?_
  refine Dissect.returns_bind (dissect_nano_vote_common_returns tvb offset _ (by omega)) ?_
  refine Dissect.returns_bind (a := ()) rfl ?_
  exact dissect_nano_block_returns _ tvb (offset + 104) _ hb h

theorem dissect_nano_confirm_ack_returns_zero (tvb : tvbuff_t) (offset extensions : Nat)
    (e : dissect_env) (hb : ¬ is_block_type (((extensions &&& 0x0f00) >>> 8 : Nat) : Int))
    (hne : (((extensions &&& 0x0f00) >>> 8 : Nat) : Int) ≠ NANO_BLOCK_TYPE_NOT_A_BLOCK)
    (h : offset + 104 ≤ tvb.length) :
    (dissect_nano_confirm_ack tvb offset extensions).returns e 0 := by
  unfold dissect_nano_confirm_ack
  simp only [append_info_col, col_append_str, proto_tree_add_subtree, if_neg hne]
  refine Dissect.returns_bind (a := ()) rfl ?_
  refine Dissect.returns_bind (a := ()) rfl ?_
  refine Dissect.returns_bind (dissect_nano_vote_common_returns tvb offset _ (by omega)) ?_
  refine Dissect.returns_bind (a := ()) rfl ?_
  exact dissect_nano_block_returns_zero _ tvb (offset + 104) _ hb

theorem dissect_nano_confirm_ack_returns_hashes (tvb : tvbuff_t) (offset extensions : Nat)
    (e : dissect_env)
    (hb : (((extensions &&& 0x0f00) >>> 8 : Nat) : Int) = NANO_BLOCK_TYPE_NOT_A_BLOCK)
    (h : offset + 104 + ((extensions &&& 0xf000) >>> 12) * 32 ≤ tvb.length) :
    (dissect_nano_confirm_ack tvb offset extensions).returns e
      (offset + 104 + ((extensions &&& 0xf000) >>> 12) * 32) := by
  unfold dissect_nano_confirm_ack
  simp only [append_info_col, col_append_str, proto_tree_add_subtree, if_pos hb]
  refine Dissect.returns_bind (a := ()) rfl ?_
  refine Dissect.returns_bind (a := ()) rfl ?_
  refine Dissect.returns_bind (dissect_nano_vote_common_returns tvb offset _ (by omega)) ?_
  refine Dissect.returns_bind (a := ()) rfl ?_
  refine Dissect.returns_bind (a := ()) rfl ?_
  refine Dissect.returns_bind
    (dissect_nano_confirm_ack_hashes_returns tvb _ (offset + 104) _ h) ?_
  rfl

theorem take_one_drop_of_getElem? (tvb : tvbuff_t) (offset : Nat) (b : guint8)
    (h : tvb_get_guint8 tvb offset = some b) : (tvb.drop offset).take 1 = [b] := by
  unfold tvb_get_guint8 at h
  have hlt : offset < tvb.length := by
    by_contra hc
    rw [List.getElem?_eq_none (by omega)] at h
    exact Option.noConfusion h
  rw [List.getElem?_eq_getElem hlt] at h
  rw [List.drop_eq_getElem_cons hlt]
  simp only [Option.some.injEq] at h
  simp [h]

theorem dissect_nano_extensions_returns (tvb : tvbuff_t) (offset nano_packet_type : Nat)
    (e : dissect_env) (extensions : Nat) (h : tvb_get_letohs tvb offset = some extensions) :
    (dissect_nano_extensions tvb offset nano_packet_type).returns e extensions := by
  unfold dissect_nano_extensions
  simp only [proto_tree_add_subtree, h]
  refine Dissect.returns_bind (a := ()) rfl ?_
  refine Dissect.returns_bind (a := extensions) rfl ?_
  unfold Dissect.returns
  split_ifs <;>
    simp only [dissect_nano_header_telemetry_ack, dissect_nano_header_publish,
      dissect_nano_header_confirm_req, dissect_nano_header_confirm_ack,
      dissect_nano_header_node_id_handshake, dissect_nano_header_frontier_req,
      dissect_nano_header_bulk_pull, dissect_nano_header_extensions_unused,
      proto_tree_add_string, proto_tree_add_uint, Dissect.run_bind, add_node_run,
      Dissect.run_pure] <;>
    first
      | rfl
      | (split_ifs <;> rfl)

theorem dissect_nano_header_returns (tvb : tvbuff_t) (e : dissect_env) (t : guint8)
    (extensions : Nat) (h8 : 8 ≤ tvb.length) (ht : tvb_get_guint8 tvb 5 = some t)
    (hext : tvb_get_letohs tvb 6 = some extensions) :
    (dissect_nano_header tvb 0).returns e (8, t.val, extensions) := by
  have hs : ∃ s, tvb_get_string_enc tvb 0 2 = some s := by
    unfold tvb_get_string_enc
    rw [tvb_get_bytes_eq_some _ _ _ (by omega)]
    exact ⟨_, rfl⟩
  obtain ⟨s, hs⟩ := hs
  have ht1 : letoh ((tvb.drop 5).take 1) = t.val := by
    rw [take_one_drop_of_getElem? tvb 5 t ht]
    simp [letoh]
  unfold dissect_nano_header
  simp only [proto_tree_add_subtree, proto_tree_add_string, hs, Nat.zero_add, Nat.reduceAdd]
  refine Dissect.returns_bind (a := s) rfl ?_
  refine Dissect.returns_bind (a := ()) rfl ?_
  refine Dissect.returns_bind (a := ()) rfl ?_
  refine Dissect.returns_bind (a := ())
    (by rw [Dissect.returns, proto_tree_add_item_run _ _ _ _ _ (by omega)]) ?_
  refine Dissect.returns_bind (a := ())
    (by rw [Dissect.returns, proto_tree_add_item_run _ _ _ _ _ (by omega)]) ?_
  refine Dissect.returns_bind (a := ())
    (by rw [Dissect.returns, proto_tree_add_item_run _ _ _ _ _ (by omega)]) ?_
  refine Dissect.returns_bind (a := t.val)
    (by rw [Dissect.returns, proto_tree_add_item_ret_uint_run _ _ _ _ _ (by omega), ht1]) ?_
  refine Dissect.returns_bind (dissect_nano_extensions_returns tvb 6 _ _ extensions hext) ?_
  rfl

/-! ## Decoders that leave the session state alone -/

theorem dissect_nano_receive_block_frames (tvb : tvbuff_t) (offset : Nat) :
    (dissect_nano_receive_block tvb offset).frames := by
  unfold dissect_nano_receive_block
  repeat (first
    | exact Dissect.frames_pure _
    | exact proto_tree_add_item_frames _ _ _ _
    | exact proto_tree_add_subtree_frames _ _ _ _
    | exact proto_tree_add_string_frames _ _ _ _
    | exact proto_tree_add_uint_frames _ _ _ _
    | exact proto_tree_add_item_ret_uint_frames _ _ _ _
    | exact proto_item_append_text_frames _
    | exact append_info_col_frames _
    | exact col_append_str_frames _
    | exact Dissect.frames_ofOption _
    | (refine Dissect.frames_bind ?_ ?_; rotate_left; intro _)
    | refine Dissect.frames_ite ?_ ?_)

theorem dissect_nano_open_block_frames (tvb : tvbuff_t) (offset : Nat) :
    (dissect_nano_open_block tvb offset).frames := by
  unfold dissect_nano_open_block
  repeat (first
    | exact Dissect.frames_pure _
    | exact proto_tree_add_item_frames _ _ _ _
    | exact proto_tree_add_subtree_frames _ _ _ _
    | exact proto_tree_add_string_frames _ _ _ _
    | exact proto_tree_add_uint_frames _ _ _ _
    | exact proto_tree_add_item_ret_uint_frames _ _ _ _
    | exact proto_item_append_text_frames _
    | exact append_info_col_frames _
    | exact col_append_str_frames _
    | exact Dissect.frames_ofOption _
    | (refine Dissect.frames_bind ?_ ?_; rotate_left; intro _)
    | refine Dissect.frames_ite ?_ ?_)

theorem dissect_nano_change_block_frames (tvb : tvbuff_t) (offset : Nat) :
    (dissect_nano_change_block tvb offset).frames := by
  unfold dissect_nano_change_block
  repeat (first
    | exact Dissect.frames_pure _
    | exact proto_tree_add_item_frames _ _ _ _
    | exact proto_tree_add_subtree_frames _ _ _ _
    | exact proto_tree_add_string_frames _ _ _ _
    | exact proto_tree_add_uint_frames _ _ _ _
    | exact proto_tree_add_item_ret_uint_frames _ _ _ _
    | exact proto_item_append_text_frames _
    | exact append_info_col_frames _
    | exact col_append_str_frames _
    | exact Dissect.frames_ofOption _
    | (refine Dissect.frames_bind ?_ ?_; rotate_left; intro _)
    | refine Dissect.frames_ite ?_ ?_)

theorem dissect_nano_state_frames (tvb : tvbuff_t) (offset : Nat) :
    (dissect_nano_state tvb offset).frames := by
  unfold dissect_nano_state
  repeat (first
    | exact Dissect.frames_pure _
    | exact proto_tree_add_item_frames _ _ _ _
    | exact proto_tree_add_subtree_frames _ _ _ _
    | exact proto_tree_add_string_frames _ _ _ _
    | exact proto_tree_add_uint_frames _ _ _ _
    | exact proto_tree_add_item_ret_uint_frames _ _ _ _
    | exact proto_item_append_text_frames _
    | exact append_info_col_frames _
    | exact col_append_str_frames _
    | exact Dissect.frames_ofOption _
    | (refine Dissect.frames_bind ?_ ?_; rotate_left; intro _)
    | refine Dissect.frames_ite ?_ ?_)

theorem dissect_nano_block_frames (block_type : Int) (tvb : tvbuff_t) (offset : Nat) :
    (dissect_nano_block block_type tvb offset).frames := by
  unfold dissect_nano_block
  repeat (first
    | exact Dissect.frames_pure _
    | exact proto_tree_add_item_frames _ _ _ _
    | exact proto_tree_add_subtree_frames _ _ _ _
    | exact proto_tree_add_string_frames _ _ _ _
    | exact proto_tree_add_uint_frames _ _ _ _
    | exact proto_tree_add_item_ret_uint_frames _ _ _ _
    | exact proto_item_append_text_frames _
    | exact append_info_col_frames _
    | exact col_append_str_frames _
    | exact Dissect.frames_ofOption _
    | (refine Dissect.frames_bind ?_ ?_; rotate_left; intro _)
    | refine Dissect.frames_ite ?_ ?_
    | apply dissect_nano_receive_block_frames
    | apply dissect_nano_open_block_frames
    | apply dissect_nano_send_block_frames
    | apply dissect_nano_state_frames
    | apply dissect_nano_change_block_frames)

theorem dissect_nano_keepalive_peers_frames (tvb : tvbuff_t) (count : Nat) :
    ∀ offset, (dissect_nano_keepalive_peers tvb count offset).frames := by
  induction count with
  | zero => intro offset; exact Dissect.frames_pure _
  | succ n ih =>
    intro offset
    unfold dissect_nano_keepalive_peers
    repeat (first
      | exact Dissect.frames_pure _
      | exact proto_tree_add_item_frames _ _ _ _
      | exact proto_tree_add_subtree_frames _ _ _ _
      | exact proto_tree_add_string_frames _ _ _ _
      | exact proto_tree_add_uint_frames _ _ _ _
      | exact proto_tree_add_item_ret_uint_frames _ _ _ _
      | exact proto_item_append_text_frames _
      | exact append_info_col_frames _
      | exact col_append_str_frames _
      | exact Dissect.frames_ofOption _
      | (refine Dissect.frames_bind ?_ ?_; rotate_left; intro _)
      | refine Dissect.frames_ite ?_ ?_
      | apply ih)

theorem dissect_nano_keepalive_frames (tvb : tvbuff_t) (offset : Nat) :
    (dissect_nano_keepalive tvb offset).frames := by
  unfold dissect_nano_keepalive
  repeat (first
    | exact Dissect.frames_pure _
    | exact proto_tree_add_item_frames _ _ _ _
    | exact proto_tree_add_subtree_frames _ _ _ _
    | exact proto_tree_add_string_frames _ _ _ _
    | exact proto_tree_add_uint_frames _ _ _ _
    | exact proto_tree_add_item_ret_uint_frames _ _ _ _
    | exact proto_item_append_text_frames _
    | exact append_info_col_frames _
    | exact col_append_str_frames _
    | exact Dissect.frames_ofOption _
    | (refine Dissect.frames_bind ?_ ?_; rotate_left; intro _)
    | refine Dissect.frames_ite ?_ ?_
    | apply dissect_nano_keepalive_peers_frames)

theorem dissect_nano_extensions_frames (tvb : tvbuff_t) (offset nano_packet_type : Nat) :
    (dissect_nano_extensions tvb offset nano_packet_type).frames := by
  unfold dissect_nano_extensions dissect_nano_header_telemetry_ack dissect_nano_header_publish
    dissect_nano_header_confirm_req dissect_nano_header_confirm_ack
    dissect_nano_header_node_id_handshake dissect_nano_header_frontier_req
    dissect_nano_header_bulk_pull dissect_nano_header_extensions_unused
  repeat (first
    | exact Dissect.frames_pure _
    | exact proto_tree_add_item_frames _ _ _ _
    | exact proto_tree_add_subtree_frames _ _ _ _
    | exact proto_tree_add_string_frames _ _ _ _
    | exact proto_tree_add_uint_frames _ _ _ _
    | exact proto_tree_add_item_ret_uint_frames _ _ _ _
    | exact proto_item_append_text_frames _
    | exact append_info_col_frames _
    | exact col_append_str_frames _
    | exact Dissect.frames_ofOption _
    | (refine Dissect.frames_bind ?_ ?_; rotate_left; intro _)
    | refine Dissect.frames_ite ?_ ?_)

theorem dissect_nano_header_frames (tvb : tvbuff_t) (offset : Nat) :
    (dissect_nano_header tvb offset).frames := by
  unfold dissect_nano_header
  repeat (first
    | exact Dissect.frames_pure _
    | exact proto_tree_add_item_frames _ _ _ _
    | exact proto_tree_add_subtree_frames _ _ _ _
    | exact proto_tree_add_string_frames _ _ _ _
    | exact proto_tree_add_uint_frames _ _ _ _
    | exact proto_tree_add_item_ret_uint_frames _ _ _ _
    | exact proto_item_append_text_frames _
    | exact append_info_col_frames _
    | exact col_append_str_frames _
    | exact Dissect.frames_ofOption _
    | (refine Dissect.frames_bind ?_ ?_; rotate_left; intro _)
    | refine Dissect.frames_ite ?_ ?_
    | apply dissect_nano_extensions_frames)

theorem dissect_nano_vote_common_frames (tvb : tvbuff_t) (offset : Nat) :
    (dissect_nano_vote_common tvb offset).frames := by
  unfold dissect_nano_vote_common
  repeat (first
    | exact Dissect.frames_pure _
    | exact proto_tree_add_item_frames _ _ _ _
    | exact proto_tree_add_subtree_frames _ _ _ _
    | exact proto_tree_add_string_frames _ _ _ _
    | exact proto_tree_add_uint_frames _ _ _ _
    | exact proto_tree_add_item_ret_uint_frames _ _ _ _
    | exact proto_item_append_text_frames _
    | exact append_info_col_frames _
    | exact col_append_str_frames _
    | exact Dissect.frames_ofOption _
    | (refine Dissect.frames_bind ?_ ?_; rotate_left; intro _)
    | refine Dissect.frames_ite ?_ ?_)

theorem dissect_nano_confirm_ack_hashes_frames (tvb : tvbuff_t) (count : Nat) :
    ∀ offset, (dissect_nano_confirm_ack_hashes tvb count offset).frames := by
  induction count with
  | zero => intro offset; exact Dissect.frames_pure _
  | succ n ih =>
    intro offset
    unfold dissect_nano_confirm_ack_hashes
    repeat (first
      | exact Dissect.frames_pure _
      | exact proto_tree_add_item_frames _ _ _ _
      | exact proto_tree_add_subtree_frames _ _ _ _
      | exact proto_tree_add_string_frames _ _ _ _
      | exact proto_tree_add_uint_frames _ _ _ _
      | exact proto_tree_add_item_ret_uint_frames _ _ _ _
      | exact proto_item_append_text_frames _
      | exact append_info_col_frames _
      | exact col_append_str_frames _
      | exact Dissect.frames_ofOption _
      | (refine Dissect.frames_bind ?_ ?_; rotate_left; intro _)
      | refine Dissect.frames_ite ?_ ?_
      | apply ih)

theorem dissect_nano_confirm_req_hash_pairs_frames (tvb : tvbuff_t) (count : Nat) :
    ∀ offset, (dissect_nano_confirm_req_hash_pairs tvb count offset).frames := by
  induction count with
  | zero => intro offset; exact Dissect.frames_pure _
  | succ n ih =>
    intro offset
    unfold dissect_nano_confirm_req_hash_pairs
    repeat (first
      | exact Dissect.frames_pure _
      | exact proto_tree_add_item_frames _ _ _ _
      | exact proto_tree_add_subtree_frames _ _ _ _
      | exact proto_tree_add_string_frames _ _ _ _
      | exact proto_tree_add_uint_frames _ _ _ _
      | exact proto_tree_add_item_ret_uint_frames _ _ _ _
      | exact proto_item_append_text_frames _
      | exact append_info_col_frames _
      | exact col_append_str_frames _
      | exact Dissect.frames_ofOption _
      | (refine Dissect.frames_bind ?_ ?_; rotate_left; intro _)
      | refine Dissect.frames_ite ?_ ?_
      | apply ih)

theorem dissect_nano_confirm_ack_frames (tvb : tvbuff_t) (offset extensions : Nat) :
    (dissect_nano_confirm_ack tvb offset extensions).frames := by
  unfold dissect_nano_confirm_ack
  repeat (first
    | exact Dissect.frames_pure _
    | exact proto_tree_add_item_frames _ _ _ _
    | exact proto_tree_add_subtree_frames _ _ _ _
    | exact proto_tree_add_string_frames _ _ _ _
    | exact proto_tree_add_uint_frames _ _ _ _
    | exact proto_tree_add_item_ret_uint_frames _ _ _ _
    | exact proto_item_append_text_frames _
    | exact append_info_col_frames _
    | exact col_append_str_frames _
    | exact Dissect.frames_ofOption _
    | (refine Dissect.frames_bind ?_ ?_; rotate_left; intro _)
    | refine Dissect.frames_ite ?_ ?_
    | apply dissect_nano_vote_common_frames
    | apply dissect_nano_confirm_ack_hashes_frames
    | apply dissect_nano_block_frames)

theorem dissect_nano_confirm_req_frames (tvb : tvbuff_t) (offset extensions : Nat) :
    (dissect_nano_confirm_req tvb offset extensions).frames := by
  unfold dissect_nano_confirm_req
  repeat (first
    | exact Dissect.frames_pure _
    | exact proto_tree_add_item_frames _ _ _ _
    | exact proto_tree_add_subtree_frames _ _ _ _
    | exact proto_tree_add_string_frames _ _ _ _
    | exact proto_tree_add_uint_frames _ _ _ _
    | exact proto_tree_add_item_ret_uint_frames _ _ _ _
    | exact proto_item_append_text_frames _
    | exact append_info_col_frames _
    | exact col_append_str_frames _
    | exact Dissect.frames_ofOption _
    | (refine Dissect.frames_bind ?_ ?_; rotate_left; intro _)
    | refine Dissect.frames_ite ?_ ?_
    | apply dissect_nano_confirm_req_hash_pairs_frames
    | apply dissect_nano_block_frames)

theorem dissect_nano_telemetry_req_frames : dissect_nano_telemetry_req.frames := by
  unfold dissect_nano_telemetry_req
  repeat (first
    | exact Dissect.frames_pure _
    | exact proto_tree_add_item_frames _ _ _ _
    | exact proto_tree_add_subtree_frames _ _ _ _
    | exact proto_tree_add_string_frames _ _ _ _
    | exact proto_tree_add_uint_frames _ _ _ _
    | exact proto_tree_add_item_ret_uint_frames _ _ _ _
    | exact proto_item_append_text_frames _
    | exact append_info_col_frames _
    | exact col_append_str_frames _
    | exact Dissect.frames_ofOption _
    | (refine Dissect.frames_bind ?_ ?_; rotate_left; intro _)
    | refine Dissect.frames_ite ?_ ?_)

theorem dissect_nano_telemetry_ack_frames (tvb : tvbuff_t) (offset extensions : Nat) :
    (dissect_nano_telemetry_ack tvb offset extensions).frames := by
  unfold dissect_nano_telemetry_ack
  repeat (first
    | exact Dissect.frames_pure _
    | exact proto_tree_add_item_frames _ _ _ _
    | exact proto_tree_add_subtree_frames _ _ _ _
    | exact proto_tree_add_string_frames _ _ _ _
    | exact proto_tree_add_uint_frames _ _ _ _
    | exact proto_tree_add_item_ret_uint_frames _ _ _ _
    | exact proto_item_append_text_frames _
    | exact append_info_col_frames _
    | exact col_append_str_frames _
    | exact Dissect.frames_ofOption _
    | (refine Dissect.frames_bind ?_ ?_; rotate_left; intro _)
    | refine Dissect.frames_ite ?_ ?_)

theorem dissect_nano_node_id_handshake_frames (tvb : tvbuff_t) (offset extensions : Nat) :
    (dissect_nano_node_id_handshake tvb offset extensions).frames := by
  unfold dissect_nano_node_id_handshake
  repeat (first
    | exact Dissect.frames_pure _
    | exact proto_tree_add_item_frames _ _ _ _
    | exact proto_tree_add_subtree_frames _ _ _ _
    | exact proto_tree_add_string_frames _ _ _ _
    | exact proto_tree_add_uint_frames _ _ _ _
    | exact proto_tree_add_item_ret_uint_frames _ _ _ _
    | exact proto_item_append_text_frames _
    | exact append_info_col_frames _
    | exact col_append_str_frames _
    | exact Dissect.frames_ofOption _
    | (refine Dissect.frames_bind ?_ ?_; rotate_left; intro _)
    | refine Dissect.frames_ite ?_ ?_)

theorem dissect_nano_publish_frames (tvb : tvbuff_t) (offset extensions : Nat) :
    (dissect_nano_publish tvb offset extensions).frames := by
  unfold dissect_nano_publish
  repeat (first
    | exact Dissect.frames_pure _
    | exact proto_tree_add_item_frames _ _ _ _
    | exact proto_tree_add_subtree_frames _ _ _ _
    | exact proto_tree_add_string_frames _ _ _ _
    | exact proto_tree_add_uint_frames _ _ _ _
    | exact proto_tree_add_item_ret_uint_frames _ _ _ _
    | exact proto_item_append_text_frames _
    | exact append_info_col_frames _
    | exact col_append_str_frames _
    | exact Dissect.frames_ofOption _
    | (refine Dissect.frames_bind ?_ ?_; rotate_left; intro _)
    | refine Dissect.frames_ite ?_ ?_
    | apply dissect_nano_block_frames)

theorem dissect_nano_bulk_pull_request_frames (tvb : tvbuff_t) (offset extensions : Nat) :
    (dissect_nano_bulk_pull_request tvb offset extensions).frames := by
  unfold dissect_nano_bulk_pull_request
  repeat (first
    | exact Dissect.frames_pure _
    | exact proto_tree_add_item_frames _ _ _ _
    | exact proto_tree_add_subtree_frames _ _ _ _
    | exact proto_tree_add_string_frames _ _ _ _
    | exact proto_tree_add_uint_frames _ _ _ _
    | exact proto_tree_add_item_ret_uint_frames _ _ _ _
    | exact proto_item_append_text_frames _
    | exact append_info_col_frames _
    | exact col_append_str_frames _
    | exact Dissect.frames_ofOption _
    | (refine Dissect.frames_bind ?_ ?_; rotate_left; intro _)
    | refine Dissect.frames_ite ?_ ?_)

theorem dissect_nano_frontier_req_frames (tvb : tvbuff_t) (offset : Nat) :
    (dissect_nano_frontier_req tvb offset).frames := by
  unfold dissect_nano_frontier_req
  repeat (first
    | exact Dissect.frames_pure _
    | exact proto_tree_add_item_frames _ _ _ _
    | exact proto_tree_add_subtree_frames _ _ _ _
    | exact proto_tree_add_string_frames _ _ _ _
    | exact proto_tree_add_uint_frames _ _ _ _
    | exact proto_tree_add_item_ret_uint_frames _ _ _ _
    | exact proto_item_append_text_frames _
    | exact append_info_col_frames _
    | exact col_append_str_frames _
    | exact Dissect.frames_ofOption _
    | (refine Dissect.frames_bind ?_ ?_; rotate_left; intro _)
    | refine Dissect.frames_ite ?_ ?_)

/-! ## Headerless decoders -/

theorem tvb_get_ntohl_isSome (tvb : tvbuff_t) (offset : Nat) (h : offset + 4 ≤ tvb.length) :
    ∃ v, tvb_get_ntohl tvb offset = some v := by
  unfold tvb_get_ntohl
  rw [tvb_get_bytes_eq_some _ _ _ h]
  exact ⟨_, rfl⟩

theorem tvb_get_guint8_lt (tvb : tvbuff_t) (offset : Nat) (b : guint8)
    (h : tvb_get_guint8 tvb offset = some b) : offset < tvb.length := by
  unfold tvb_get_guint8 at h
  by_contra hc
  rw [List.getElem?_eq_none (by omega)] at h
  exact Option.noConfusion h

theorem dissect_nano_headerless_frontier_response_returns (tvb : tvbuff_t) (e : dissect_env)
    (h : 64 ≤ tvb.length) :
    (dissect_nano_headerless_frontier_response tvb).returns e 64 := by
  obtain ⟨a, ha⟩ := tvb_get_ntohl_isSome tvb 0 (by omega)
  obtain ⟨f, hf⟩ := tvb_get_ntohl_isSome tvb (0 + 32) (by omega)
  unfold dissect_nano_headerless_frontier_response
  simp (disch := omega) only [Dissect.returns, Dissect.run_bind, proto_tree_add_item_run,
    proto_tree_add_subtree, append_info_col, add_node_run, add_col_run, Dissect.run_ofOption,
    ha, hf]
  split_ifs <;> rfl

theorem dissect_nano_headerless_bulk_pull_response_returns_end (tvb : tvbuff_t)
    (e : dissect_env) (b : guint8) (hb : tvb_get_guint8 tvb 0 = some b)
    (h1 : ((b.val : Nat) : Int) = NANO_BLOCK_TYPE_NOT_A_BLOCK) :
    (dissect_nano_headerless_bulk_pull_response tvb).returns e 1 := by
  have hlen := tvb_get_guint8_lt tvb 0 b hb
  unfold dissect_nano_headerless_bulk_pull_response
  simp (disch := omega) only [Dissect.returns, Dissect.run_bind, proto_tree_add_item_run,
    proto_tree_add_subtree, append_info_col, col_append_str, add_node_run, add_col_run,
    Dissect.run_ofOption, hb, h1, if_true, set_client_packet_type_run, Dissect.run_pure]

theorem dissect_nano_headerless_bulk_pull_response_returns_block (tvb : tvbuff_t)
    (e : dissect_env) (b : guint8) (hb : tvb_get_guint8 tvb 0 = some b)
    (hbt : is_block_type ((b.val : Nat) : Int))
    (h : 1 + get_block_type_size ((b.val : Nat) : Int) ≤ tvb.length) :
    (dissect_nano_headerless_bulk_pull_response tvb).returns e
      (1 + (1 + get_block_type_size ((b.val : Nat) : Int))) := by
  have hne : ((b.val : Nat) : Int) ≠ NANO_BLOCK_TYPE_NOT_A_BLOCK := by
    intro h1
    rw [h1] at hbt
    revert hbt
    decide
  unfold dissect_nano_headerless_bulk_pull_response
  simp only [proto_tree_add_subtree, append_info_col, col_append_str, hb, if_neg hne,
    Nat.zero_add]
  refine Dissect.returns_bind (a := ()) rfl ?_
  refine Dissect.returns_bind (a := b) rfl ?_
  refine Dissect.returns_bind (a := ()) rfl ?_
  refine Dissect.returns_bind (a := ())
    (by rw [Dissect.returns, proto_tree_add_item_run _ _ _ _ _ (by omega)]) ?_
  rw [if_neg hne]
  refine Dissect.returns_bind (dissect_nano_block_returns _ tvb 1 _ hbt h) ?_
  rfl

theorem dissect_nano_headerless_bulk_pull_response_returns_other (tvb : tvbuff_t)
    (e : dissect_env) (b : guint8) (hb : tvb_get_guint8 tvb 0 = some b)
    (hbt : ¬ is_block_type ((b.val : Nat) : Int))
    (hne : ((b.val : Nat) : Int) ≠ NANO_BLOCK_TYPE_NOT_A_BLOCK) :
    (dissect_nano_headerless_bulk_pull_response tvb).returns e 1 := by
  have hlen := tvb_get_guint8_lt tvb 0 b hb
  unfold dissect_nano_headerless_bulk_pull_response
  simp only [proto_tree_add_subtree, append_info_col, col_append_str, hb, if_neg hne,
    Nat.zero_add]
  refine Dissect.returns_bind (a := ()) rfl ?_
  refine Dissect.returns_bind (a := b) rfl ?_
  refine Dissect.returns_bind (a := ()) rfl ?_
  refine Dissect.returns_bind (a := ())
    (by rw [Dissect.returns, proto_tree_add_item_run _ _ _ _ _ (by omega)]) ?_
  rw [if_neg hne]
  refine Dissect.returns_bind (dissect_nano_block_returns_zero _ tvb 1 _ hbt) ?_
  rfl

theorem dissect_nano_headerless_bulk_push_body_returns_end (tvb : tvbuff_t)
    (e : dissect_env) (b : guint8) (hb : tvb_get_guint8 tvb 0 = some b)
    (h1 : ((b.val : Nat) : Int) = NANO_BLOCK_TYPE_NOT_A_BLOCK) :
    (dissect_nano_headerless_bulk_push_body tvb).returns e 1 := by
  have hlen := tvb_get_guint8_lt tvb 0 b hb
  unfold dissect_nano_headerless_bulk_push_body
  simp (disch := omega) only [Dissect.returns, Dissect.run_bind, proto_tree_add_item_run,
    proto_tree_add_subtree, append_info_col, col_append_str, add_node_run, add_col_run,
    Dissect.run_ofOption, hb, h1, if_true, set_client_packet_type_run, Dissect.run_pure]

theorem dissect_nano_headerless_bulk_push_body_returns_block (tvb : tvbuff_t)
    (e : dissect_env) (b : guint8) (hb : tvb_get_guint8 tvb 0 = some b)
    (hbt : is_block_type ((b.val : Nat) : Int))
    (h : 1 + get_block_type_size ((b.val : Nat) : Int) ≤ tvb.length) :
    (dissect_nano_headerless_bulk_push_body tvb).returns e
      (1 + (1 + get_block_type_size ((b.val : Nat) : Int))) := by
  have hne : ((b.val : Nat) : Int) ≠ NANO_BLOCK_TYPE_NOT_A_BLOCK := by
    intro h1
    rw [h1] at hbt
    revert hbt
    decide
  unfold dissect_nano_headerless_bulk_push_body
  simp only [proto_tree_add_subtree, append_info_col, col_append_str, hb, if_neg hne,
    Nat.zero_add]
  refine Dissect.returns_bind (a := ()) rfl ?_
  refine Dissect.returns_bind (a := b) rfl ?_
  refine Dissect.returns_bind (a := ()) rfl ?_
  refine Dissect.returns_bind (a := ())
    (by rw [Dissect.returns, proto_tree_add_item_run _ _ _ _ _ (by omega)]) ?_
  rw [if_neg hne]
  refine Dissect.returns_bind (dissect_nano_block_returns _ tvb 1 _ hbt h) ?_
  rfl

theorem dissect_nano_headerless_bulk_push_body_returns_other (tvb : tvbuff_t)
    (e : dissect_env) (b : guint8) (hb : tvb_get_guint8 tvb 0 = some b)
    (hbt : ¬ is_block_type ((b.val : Nat) : Int))
    (hne : ((b.val : Nat) : Int) ≠ NANO_BLOCK_TYPE_NOT_A_BLOCK) :
    (dissect_nano_headerless_bulk_push_body tvb).returns e 1 := by
  have hlen := tvb_get_guint8_lt tvb 0 b hb
  unfold dissect_nano_headerless_bulk_push_body
  simp only [proto_tree_add_subtree, append_info_col, col_append_str, hb, if_neg hne,
    Nat.zero_add]
  refine Dissect.returns_bind (a := ()) rfl ?_
  refine Dissect.returns_bind (a := b) rfl ?_
  refine Dissect.returns_bind (a := ()) rfl ?_
  refine Dissect.returns_bind (a := ())
    (by rw [Dissect.returns, proto_tree_add_item_run _ _ _ _ _ (by omega)]) ?_
  rw [if_neg hne]
  refine Dissect.returns_bind (dissect_nano_block_returns_zero _ tvb 1 _ hbt) ?_
  rfl

theorem dissect_nano_headerless_bulk_pull_account_response_returns (tvb : tvbuff_t)
    (e : dissect_env)
    (h : (if e.session_state.bulk_pull_account_request_flags = 0x01 then 80
          else if e.session_state.bulk_pull_account_request_flags = 0x02 then 128 else 96)
        ≤ tvb.length) :
    (dissect_nano_headerless_bulk_pull_account_response tvb).returns e
      (if e.session_state.bulk_pull_account_request_flags = 0x01 then 80
        else if e.session_state.bulk_pull_account_request_flags = 0x02 then 128 else 96) := by
  unfold dissect_nano_headerless_bulk_pull_account_response
  by_cases h1 : e.session_state.bulk_pull_account_request_flags = 0x01
  · simp only [h1, if_true] at h ⊢
    simp (disch := omega) only [Dissect.returns, Dissect.run_bind, proto_tree_add_item_run,
      proto_tree_add_subtree, append_info_col, add_node_run, add_col_run,
      get_session_state_run, h1, Dissect.run_pure, decide_True, Bool.not_true,
      Bool.true_or, if_true, Bool.false_eq_true, if_false, Nat.zero_add]
  · by_cases h2 : e.session_state.bulk_pull_account_request_flags = 0x02
    · have h21 : ¬ ((2 : guint8) = 1) := by decide
      simp only [h2, h21, if_true, if_false] at h ⊢
      obtain ⟨v, hv⟩ := tvb_get_ntohl_isSome tvb (32 + 16) (by omega)
      simp (disch := omega) only [Dissect.returns, Dissect.run_bind, proto_tree_add_item_run,
        proto_tree_add_subtree, append_info_col, add_node_run, add_col_run,
        get_session_state_run, h2, h21, Dissect.run_pure, decide_True, decide_False,
        Bool.not_true, Bool.not_false, Bool.false_or,
        Bool.true_or, if_true, Bool.false_eq_true, if_false, Nat.zero_add,
        Dissect.run_ofOption, hv]
      split_ifs <;> rfl
    · simp only [h1, h2, if_false] at h ⊢
      obtain ⟨v, hv⟩ := tvb_get_ntohl_isSome tvb (32 + 16) (by omega)
      simp (disch := omega) only [Dissect.returns, Dissect.run_bind, proto_tree_add_item_run,
        proto_tree_add_subtree, append_info_col, add_node_run, add_col_run,
        get_session_state_run, h1, h2, Dissect.run_pure, decide_True, decide_False,
        Bool.not_true, Bool.not_false, Bool.false_or, Bool.or_false,
        Bool.true_or, if_true, Bool.false_eq_true, if_false, Nat.zero_add,
        Dissect.run_ofOption, hv]
      split_ifs <;> rfl

theorem does_prev_packet_expect_headerless_response_eq_zero (st : nano_session_state) :
    does_prev_packet_expect_headerless_response st = 0 ↔
      st.client_packet_type ≠ NANO_PACKET_TYPE_BULK_PULL
        ∧ st.client_packet_type ≠ NANO_PACKET_TYPE_BULK_PUSH
        ∧ st.client_packet_type ≠ NANO_PACKET_TYPE_FRONTIER_REQ
        ∧ st.client_packet_type ≠ NANO_PACKET_TYPE_BULK_PULL_ACCOUNT := by
  unfold does_prev_packet_expect_headerless_response
  split_ifs with h
  · simp only [one_ne_zero, false_iff, not_and_or, not_not]
    tauto
  · simp only [true_iff]
    tauto

theorem Dissect.run_bind_add_col {β : Type} (c : col_event) (f : Unit → Dissect β)
    (e : dissect_env) :
    (add_col c >>= f).run e
      = (f ()).run { e with pinfo := { e.pinfo with cinfo := e.pinfo.cinfo ++ [c] } } := rfl

theorem Dissect.run_bind_add_node {β : Type} (n : proto_node) (f : Unit → Dissect β)
    (e : dissect_env) :
    (add_node n >>= f).run e = (f ()).run { e with tree := e.tree ++ [n] } := rfl

theorem Dissect.run_bind_get_session_state {β : Type} (f : nano_session_state → Dissect β)
    (e : dissect_env) :
    (get_session_state >>= f).run e = (f e.session_state).run e := rfl

theorem Dissect.run_bind_get_destport {β : Type} (f : Nat → Dissect β) (e : dissect_env) :
    (get_destport >>= f).run e = (f e.pinfo.destport).run e := rfl

theorem Dissect.run_bind_set_client_packet_type {β : Type} (v : Int) (f : Unit → Dissect β)
    (e : dissect_env) :
    (set_client_packet_type v >>= f).run e
      = (f ()).run
          { e with session_state := { e.session_state with client_packet_type := v } } := rfl

/-- With no continuation pending and a full header in the buffer, `dissect_nano` decodes the
header, records the packet type and runs the decoder of that type. -/
theorem dissect_nano_run_headered (tvb : tvbuff_t) (e : dissect_env) (t : guint8)
    (extensions : Nat) (hp : does_prev_packet_expect_headerless_response e.session_state = 0)
    (h8 : 8 ≤ tvb.length) (ht : tvb_get_guint8 tvb 5 = some t)
    (hext : tvb_get_letohs tvb 6 = some extensions) :
    ∃ e1, e1.session_state = { e.session_state with client_packet_type := (t.val : Nat) }
      ∧ e1.pinfo.destport = e.pinfo.destport
      ∧ (dissect_nano tvb).run e =
        (if t.val = NANO_PACKET_TYPE_TELEMETRY_ACK then
          dissect_nano_telemetry_ack tvb 8 extensions
        else if t.val = NANO_PACKET_TYPE_TELEMETRY_REQ then
          dissect_nano_telemetry_req
        else if t.val = NANO_PACKET_TYPE_NODE_ID_HANDSHAKE then
          dissect_nano_node_id_handshake tvb 8 extensions
        else if t.val = NANO_PACKET_TYPE_KEEPALIVE then
          dissect_nano_keepalive tvb 8
        else if t.val = NANO_PACKET_TYPE_CONFIRM_REQ then
          dissect_nano_confirm_req tvb 8 extensions
        else if t.val = NANO_PACKET_TYPE_CONFIRM_ACK then
          dissect_nano_confirm_ack tvb 8 extensions
        else if t.val = NANO_PACKET_TYPE_PUBLISH then
          dissect_nano_publish tvb 8 extensions
        else if t.val = NANO_PACKET_TYPE_BULK_PULL_ACCOUNT then
          dissect_nano_bulk_pull_account_request tvb 8
        else if t.val = NANO_PACKET_TYPE_FRONTIER_REQ then
          dissect_nano_frontier_req tvb 8
        else if t.val = NANO_PACKET_TYPE_BULK_PULL then
          dissect_nano_bulk_pull_request tvb 8 extensions
        else do
          append_info_col (val_to_str (t.val : Nat) nano_packet_type_strings)
          return tvb_captured_length tvb).run e1 := by
  have hlen : ¬ tvb_reported_length tvb < NANO_HEADER_LENGTH := by
    unfold tvb_reported_length NANO_HEADER_LENGTH
    omega
  unfold dissect_nano
  simp only [col_set_str_protocol, Dissect.run_bind_add_col, Dissect.run_bind_add_node,
    Dissect.run_bind_get_session_state, hp, ne_eq, not_true_eq_false, if_false, hlen]
  rw [Dissect.run_bind_of_returns (dissect_nano_header_returns tvb _ t extensions h8 ht hext)]
  simp only [Dissect.run_bind_set_client_packet_type]
  refine ⟨_, ?_, ?_, rfl⟩
  · simp only [(dissect_nano_header_frames tvb 0).session_state]
  · simp only [(dissect_nano_header_frames tvb 0).destport]

theorem guint_sub_eq (a b : Nat) (hb : b ≤ a) (ha : a < 2 ^ 32) : guint_sub a b = a - b := by
  unfold guint_sub
  omega

theorem tvb_get_letohs_isSome (tvb : tvbuff_t) (offset : Nat) (h : offset + 2 ≤ tvb.length) :
    ∃ v, tvb_get_letohs tvb offset = some v := by
  unfold tvb_get_letohs
  rw [tvb_get_bytes_eq_some _ _ _ h]
  exact ⟨_, rfl⟩

/-- With no continuation pending and a full header at `offset`, the framer reads the packet
type and the extensions and sizes the message from them. -/
theorem get_nano_message_len_headered (st : nano_session_state) (tvb : tvbuff_t)
    (offset : Nat) (t : guint8) (extensions : Nat)
    (hp : does_prev_packet_expect_headerless_response st = 0)
    (hlen : offset + 8 ≤ tvb.length) (h32 : tvb.length < 2 ^ 32)
    (ht : tvb_get_guint8 tvb (offset + 5) = some t)
    (hext : tvb_get_letohs tvb (offset + 6) = some extensions) :
    get_nano_message_len st tvb offset =
      if t.val = NANO_PACKET_TYPE_TELEMETRY_ACK then some 210
      else if t.val = NANO_PACKET_TYPE_TELEMETRY_REQ then some 8
      else if t.val = NANO_PACKET_TYPE_NODE_ID_HANDSHAKE then
        some (8 + ((if extensions &&& 0x0001 ≠ 0 then 32 else 0)
          + (if extensions &&& 0x0002 ≠ 0 then 96 else 0)))
      else if t.val = NANO_PACKET_TYPE_KEEPALIVE then some 152
      else if t.val = NANO_PACKET_TYPE_CONFIRM_REQ then
        (if (((extensions &&& 0x0f00) >>> 8 : Nat) : Int) = NANO_BLOCK_TYPE_NOT_A_BLOCK then
          some (8 + ((extensions &&& 0xf000) >>> 12) * 64)
        else if is_block_type (((extensions &&& 0x0f00) >>> 8 : Nat) : Int) then
          some (8 + get_block_type_size (((extensions &&& 0x0f00) >>> 8 : Nat) : Int))
        else some 0)
      else if t.val = NANO_PACKET_TYPE_CONFIRM_ACK then
        (if (((extensions &&& 0x0f00) >>> 8 : Nat) : Int) = NANO_BLOCK_TYPE_NOT_A_BLOCK then
          some (8 + (104 + ((extensions &&& 0xf000) >>> 12) * 32))
        else some (8 + (104 + get_block_type_size (((extensions &&& 0x0f00) >>> 8 : Nat) : Int))))
      else if t.val = NANO_PACKET_TYPE_PUBLISH then
        some (8 + get_block_type_size (((extensions &&& 0x0f00) >>> 8 : Nat) : Int))
      else if t.val = NANO_PACKET_TYPE_BULK_PULL_ACCOUNT then some 57
      else some (tvb.length - offset) := by
  obtain ⟨h6, h7, h8, h11⟩ := (does_prev_packet_expect_headerless_response_eq_zero st).mp hp
  have hsub : guint_sub (tvb_captured_length tvb) offset = tvb.length - offset :=
    guint_sub_eq _ _ (by unfold tvb_captured_length; omega) h32
  have hnot : ¬ (tvb.length - offset < NANO_HEADER_LENGTH) := by
    unfold NANO_HEADER_LENGTH
    omega
  unfold get_nano_message_len
  simp only [if_neg h6, if_neg h7, if_neg h8, if_neg h11, hsub, hnot, if_false, ht, hext,
    Option.bind_eq_bind, Option.some_bind, Option.pure_def, bind_pure_comp, pure]
  generalize (((extensions &&& 3840) >>> 8 : Nat) : Int) = bt
  generalize (extensions &&& 61440) >>> 12 = ic
  generalize extensions &&& 1 = q
  generalize extensions &&& 2 = r
  by_cases c1 : t.val = NANO_PACKET_TYPE_TELEMETRY_ACK
  · rw [if_pos c1, if_pos c1]; rfl
  rw [if_neg c1, if_neg c1]
  by_cases c2 : t.val = NANO_PACKET_TYPE_TELEMETRY_REQ
  · rw [if_pos c2, if_pos c2]; rfl
  rw [if_neg c2, if_neg c2]
  by_cases c3 : t.val = NANO_PACKET_TYPE_NODE_ID_HANDSHAKE
  · rw [if_pos c3, if_pos c3]
    by_cases hq : q = 0 <;> by_cases hr : r = 0 <;>
      simp only [hq, hr, ne_eq, not_true_eq_false, not_false_eq_true, if_true, if_false] <;> rfl
  rw [if_neg c3, if_neg c3]
  by_cases c4 : t.val = NANO_PACKET_TYPE_KEEPALIVE
  · rw [if_pos c4, if_pos c4]; rfl
  rw [if_neg c4, if_neg c4]
  by_cases c5 : t.val = NANO_PACKET_TYPE_CONFIRM_REQ
  · rw [if_pos c5, if_pos c5]
    by_cases b1 : bt = NANO_BLOCK_TYPE_NOT_A_BLOCK
    · rw [if_pos b1, if_pos b1]; rfl
    rw [if_neg b1, if_neg b1]
    by_cases hb : is_block_type bt
    · rw [if_pos hb]
      rcases hb with hb | hb | hb | hb | hb <;> subst hb <;> rfl
    · rw [if_neg hb]
      unfold is_block_type at hb
      simp only [not_or] at hb
      rw [if_neg hb.1, if_neg hb.2.1, if_neg hb.2.2.1, if_neg hb.2.2.2.1, if_neg hb.2.2.2.2]
  rw [if_neg c5, if_neg c5]
  by_cases c6 : t.val = NANO_PACKET_TYPE_CONFIRM_ACK
  · rw [if_pos c6, if_pos c6]
    by_cases b1 : bt = NANO_BLOCK_TYPE_NOT_A_BLOCK
    · rw [if_pos b1, if_pos b1]; rfl
    · rw [if_neg b1, if_neg b1]; rfl
  rw [if_neg c6, if_neg c6]
  by_cases c7 : t.val = NANO_PACKET_TYPE_PUBLISH
  · rw [if_pos c7, if_pos c7]; rfl
  rw [if_neg c7, if_neg c7]
  by_cases c8 : t.val = NANO_PACKET_TYPE_BULK_PULL_ACCOUNT
  · rw [if_pos c8, if_pos c8]; rfl
  rw [if_neg c8, if_neg c8]

/-! ## The framer and the decoders on continuation messages -/

theorem does_prev_packet_expect_headerless_response_ne_zero (st : nano_session_state) :
    does_prev_packet_expect_headerless_response st ≠ 0 ↔
      (st.client_packet_type = NANO_PACKET_TYPE_BULK_PULL
        ∨ st.client_packet_type = NANO_PACKET_TYPE_BULK_PUSH
        ∨ st.client_packet_type = NANO_PACKET_TYPE_FRONTIER_REQ
        ∨ st.client_packet_type = NANO_PACKET_TYPE_BULK_PULL_ACCOUNT) := by
  rw [ne_eq, does_prev_packet_expect_headerless_response_eq_zero]
  tauto

/-- With a continuation pending, `dissect_nano` hands the message to
`dissect_headerless_packet`. -/
theorem dissect_nano_run_headerless (tvb : tvbuff_t) (e : dissect_env)
    (hp : does_prev_packet_expect_headerless_response e.session_state ≠ 0) :
    ∃ e1, e1.session_state = e.session_state ∧ e1.pinfo.destport = e.pinfo.destport
      ∧ (dissect_nano tvb).run e = (dissect_headerless_packet tvb).run e1 := by
  unfold dissect_nano
  simp only [col_set_str_protocol, Dissect.run_bind_add_col, Dissect.run_bind_add_node,
    Dissect.run_bind_get_session_state, hp, ne_eq, not_false_eq_true, if_true]
  refine ⟨_, ?_, ?_, rfl⟩ <;> rfl

theorem dissect_headerless_packet_run_client (tvb : tvbuff_t) (e : dissect_env)
    (hd : e.pinfo.destport = e.session_state.server_port)
    (h7 : e.session_state.client_packet_type = NANO_PACKET_TYPE_BULK_PUSH) :
    (dissect_headerless_packet tvb).run e
      = (dissect_nano_headerless_bulk_push_body tvb).run e := by
  unfold dissect_headerless_packet dissect_headerless_packet_client
  simp only [Dissect.run_bind_get_session_state, Dissect.run_bind_get_destport, hd, h7,
    if_true]

theorem dissect_headerless_packet_run_client_unknown (tvb : tvbuff_t) (e : dissect_env)
    (hd : e.pinfo.destport = e.session_state.server_port)
    (h7 : e.session_state.client_packet_type ≠ NANO_PACKET_TYPE_BULK_PUSH) :
    (dissect_headerless_packet tvb).run e
      = (some 0, { e with pinfo := { e.pinfo with
          cinfo := e.pinfo.cinfo
            ++ [col_event.append_sep "UNKNOWN HEADERLESS [CLIENT] Packet"] } }) := by
  unfold dissect_headerless_packet dissect_headerless_packet_client
  simp only [Dissect.run_bind_get_session_state, Dissect.run_bind_get_destport, hd, h7,
    if_true, if_false, append_info_col, Dissect.run_bind_add_col, Dissect.run_pure]

theorem dissect_headerless_packet_run_server (tvb : tvbuff_t) (e : dissect_env)
    (hd : e.pinfo.destport ≠ e.session_state.server_port) :
    (dissect_headerless_packet tvb).run e
      = (if e.session_state.client_packet_type = NANO_PACKET_TYPE_FRONTIER_REQ then
          dissect_nano_headerless_frontier_response tvb
        else if e.session_state.client_packet_type = NANO_PACKET_TYPE_BULK_PULL then
          dissect_nano_headerless_bulk_pull_response tvb
        else if e.session_state.client_packet_type = NANO_PACKET_TYPE_BULK_PULL_ACCOUNT then
          dissect_nano_headerless_bulk_pull_account_response tvb
        else do
          append_info_col "UNKNOWN HEADERLESS [SERVER] Packet"
          return 0).run e := by
  unfold dissect_headerless_packet dissect_headerless_packet_server
  simp only [Dissect.run_bind_get_session_state, Dissect.run_bind_get_destport, hd, if_false]

theorem get_nano_message_len_bulk_pull (st : nano_session_state) (tvb : tvbuff_t)
    (offset : Nat) (h6 : st.client_packet_type = NANO_PACKET_TYPE_BULK_PULL) :
    get_nano_message_len st tvb offset =
      (tvb_get_guint8 tvb offset).map fun b =>
        if ((b.val : Nat) : Int) = NANO_BLOCK_TYPE_NOT_A_BLOCK then 1
        else 1 + get_block_type_size ((b.val : Nat) : Int) := by
  unfold get_nano_message_len
  simp only [h6, if_true]
  cases tvb_get_guint8 tvb offset with
  | none => rfl
  | some b =>
    simp only [Option.bind_eq_bind, Option.some_bind, Option.map_some']
    split_ifs <;> rfl

theorem get_nano_message_len_frontier_req (st : nano_session_state) (tvb : tvbuff_t)
    (offset : Nat) (h8 : st.client_packet_type = NANO_PACKET_TYPE_FRONTIER_REQ) :
    get_nano_message_len st tvb offset = some 64 := by
  unfold get_nano_message_len
  simp +decide only [h8, reduceIte]

theorem get_nano_message_len_bulk_push (st : nano_session_state) (tvb : tvbuff_t)
    (offset : Nat) (h7 : st.client_packet_type = NANO_PACKET_TYPE_BULK_PUSH) :
    get_nano_message_len st tvb offset =
      (tvb_get_guint8 tvb offset).map fun b =>
        if ((b.val : Nat) : Int) = NANO_BLOCK_TYPE_NOT_A_BLOCK then 1
        else if get_block_type_size ((b.val : Nat) : Int) = 0 then
          guint_sub (tvb_captured_length tvb) offset
        else 1 + get_block_type_size ((b.val : Nat) : Int) := by
  unfold get_nano_message_len
  simp +decide only [h7, reduceIte]
  cases tvb_get_guint8 tvb offset with
  | none => rfl
  | some b =>
    simp only [Option.bind_eq_bind, Option.some_bind, Option.map_some']
    split_ifs <;> rfl

theorem get_nano_message_len_bulk_pull_account (st : nano_session_state) (tvb : tvbuff_t)
    (offset : Nat) (h11 : st.client_packet_type = NANO_PACKET_TYPE_BULK_PULL_ACCOUNT) :
    get_nano_message_len st tvb offset =
      some (if st.bulk_pull_account_request_flags = 0x01 then 80
        else if st.bulk_pull_account_request_flags = 0x02 then 128 else 96) := by
  unfold get_nano_message_len
  simp +decide only [h11, reduceIte]
  by_cases h1 : st.bulk_pull_account_request_flags = 0x01
  · rw [h1]; rfl
  · by_cases h2 : st.bulk_pull_account_request_flags = 0x02
    · rw [h2]; rfl
    · simp only [h1, h2, decide_False, Bool.not_false, Bool.or_false, if_true, if_false,
        Bool.false_eq_true]
      rfl

theorem get_block_type_size_pos (block_type : Int) (hb : is_block_type block_type) :
    0 < get_block_type_size block_type := by
  rcases hb with hb | hb | hb | hb | hb <;> subst hb <;> decide

/-! ## Invariants of the session state -/

theorem Dissect.preserves_of_frames {α : Type} {x : Dissect α}
    (I : nano_session_state → Prop) (h : x.frames) : x.preserves I :=
  ⟨fun e hI => by rw [h.session_state e]; exact hI⟩

theorem Dissect.preserves_bind {α β : Type} {x : Dissect α} {f : α → Dissect β}
    {I : nano_session_state → Prop} (hx : x.preserves I) (hf : ∀ a, (f a).preserves I) :
    (x >>= f).preserves I := by
  constructor
  intro e hI
  rw [Dissect.run_bind]
  rcases h : x.run e with ⟨o, e1⟩
  have h1 := hx.inv e hI
  rw [h] at h1
  cases o with
  | none => exact h1
  | some a => exact (hf a).inv e1 h1

theorem Dissect.preserves_ite {α : Type} {c : Prop} [Decidable c] {x y : Dissect α}
    {I : nano_session_state → Prop} (hx : x.preserves I) (hy : y.preserves I) :
    (if c then x else y).preserves I := by
  split
  · exact hx
  · exact hy

theorem set_client_packet_type_preserves (v : Int) (I : nano_session_state → Prop)
    (h : ∀ s, I s → I { s with client_packet_type := v }) :
    (set_client_packet_type v).preserves I :=
  ⟨fun e hI => h e.session_state hI⟩

theorem set_bulk_pull_account_request_flags_preserves (v : guint8)
    (I : nano_session_state → Prop)
    (h : ∀ s, I s → I { s with bulk_pull_account_request_flags := v }) :
    (set_bulk_pull_account_request_flags v).preserves I :=
  ⟨fun e hI => h e.session_state hI⟩

theorem set_client_packet_type_preserves_range (v : Int) (h0 : 0 ≤ v) (h1 : v < 256) :
    (set_client_packet_type v).preserves client_packet_type_in_range :=
  set_client_packet_type_preserves v _ fun _ _ => ⟨h0, h1⟩

theorem dissect_nano_bulk_pull_account_request_preserves_range (tvb : tvbuff_t)
    (offset : Nat) :
    (dissect_nano_bulk_pull_account_request tvb offset).preserves
      client_packet_type_in_range := by
  unfold dissect_nano_bulk_pull_account_request
  repeat (first
    | exact Dissect.preserves_of_frames _ (Dissect.frames_pure _)
    | exact Dissect.preserves_of_frames _ (proto_tree_add_item_frames _ _ _ _)
    | exact Dissect.preserves_of_frames _ (proto_tree_add_subtree_frames _ _ _ _)
    | exact Dissect.preserves_of_frames _ (append_info_col_frames _)
    | exact Dissect.preserves_of_frames _ (Dissect.frames_ofOption _)
    | exact set_bulk_pull_account_request_flags_preserves _ _ (fun _ h => h)
    | (refine Dissect.preserves_bind ?_ ?_; rotate_left; intro _))

theorem dissect_nano_headerless_frontier_response_preserves_range (tvb : tvbuff_t) :
    (dissect_nano_headerless_frontier_response tvb).preserves client_packet_type_in_range := by
  unfold dissect_nano_headerless_frontier_response
  repeat (first
    | exact Dissect.preserves_of_frames _ (Dissect.frames_pure _)
    | exact Dissect.preserves_of_frames _ (proto_tree_add_item_frames _ _ _ _)
    | exact Dissect.preserves_of_frames _ (proto_tree_add_subtree_frames _ _ _ _)
    | exact Dissect.preserves_of_frames _ (append_info_col_frames _)
    | exact Dissect.preserves_of_frames _ (Dissect.frames_ofOption _)
    | exact set_client_packet_type_preserves_range _ (by decide) (by decide)
    | (refine Dissect.preserves_bind ?_ ?_; rotate_left; intro _)
    | refine Dissect.preserves_ite ?_ ?_)

theorem dissect_nano_headerless_bulk_pull_response_preserves_range (tvb : tvbuff_t) :
    (dissect_nano_headerless_bulk_pull_response tvb).preserves
      client_packet_type_in_range := by
  unfold dissect_nano_headerless_bulk_pull_response
  repeat (first
    | exact Dissect.preserves_of_frames _ (Dissect.frames_pure _)
    | exact Dissect.preserves_of_frames _ (proto_tree_add_item_frames _ _ _ _)
    | exact Dissect.preserves_of_frames _ (proto_tree_add_subtree_frames _ _ _ _)
    | exact Dissect.preserves_of_frames _ (append_info_col_frames _)
    | exact Dissect.preserves_of_frames _ (col_append_str_frames _)
    | exact Dissect.preserves_of_frames _ (Dissect.frames_ofOption _)
    | exact Dissect.preserves_of_frames _ (dissect_nano_block_frames _ _ _)
    | exact set_client_packet_type_preserves_range _ (by decide) (by decide)
    | (refine Dissect.preserves_bind ?_ ?_; rotate_left; intro _)
    | refine Dissect.preserves_ite ?_ ?_)

theorem dissect_nano_headerless_bulk_push_body_preserves_range (tvb : tvbuff_t) :
    (dissect_nano_headerless_bulk_push_body tvb).preserves client_packet_type_in_range := by
  unfold dissect_nano_headerless_bulk_push_body
  repeat (first
    | exact Dissect.preserves_of_frames _ (Dissect.frames_pure _)
    | exact Dissect.preserves_of_frames _ (proto_tree_add_item_frames _ _ _ _)
    | exact Dissect.preserves_of_frames _ (proto_tree_add_subtree_frames _ _ _ _)
    | exact Dissect.preserves_of_frames _ (append_info_col_frames _)
    | exact Dissect.preserves_of_frames _ (col_append_str_frames _)
    | exact Dissect.preserves_of_frames _ (Dissect.frames_ofOption _)
    | exact Dissect.preserves_of_frames _ (dissect_nano_block_frames _ _ _)
    | exact set_client_packet_type_preserves_range _ (by decide) (by decide)
    | (refine Dissect.preserves_bind ?_ ?_; rotate_left; intro _)
    | refine Dissect.preserves_ite ?_ ?_)

theorem dissect_nano_headerless_bulk_pull_account_response_preserves_range (tvb : tvbuff_t) :
    (dissect_nano_headerless_bulk_pull_account_response tvb).preserves
      client_packet_type_in_range := by
  unfold dissect_nano_headerless_bulk_pull_account_response
  repeat (first
    | exact Dissect.preserves_of_frames _ (Dissect.frames_pure _)
    | exact Dissect.preserves_of_frames _ (proto_tree_add_item_frames _ _ _ _)
    | exact Dissect.preserves_of_frames _ (proto_tree_add_subtree_frames _ _ _ _)
    | exact Dissect.preserves_of_frames _ (append_info_col_frames _)
    | exact Dissect.preserves_of_frames _ (Dissect.frames_ofOption _)
    | exact Dissect.preserves_of_frames _ get_session_state_frames
    | exact set_client_packet_type_preserves_range _ (by decide) (by decide)
    | (refine Dissect.preserves_bind ?_ ?_; rotate_left; intro _)
    | refine Dissect.preserves_ite ?_ ?_)

theorem dissect_headerless_packet_preserves_range (tvb : tvbuff_t) :
    (dissect_headerless_packet tvb).preserves client_packet_type_in_range := by
  unfold dissect_headerless_packet dissect_headerless_packet_client
    dissect_headerless_packet_server
  repeat (first
    | exact Dissect.preserves_of_frames _ (Dissect.frames_pure _)
    | exact Dissect.preserves_of_frames _ (append_info_col_frames _)
    | exact Dissect.preserves_of_frames _ get_session_state_frames
    | exact Dissect.preserves_of_frames _ get_destport_frames
    | exact dissect_nano_headerless_frontier_response_preserves_range _
    | exact dissect_nano_headerless_bulk_pull_response_preserves_range _
    | exact dissect_nano_headerless_bulk_push_body_preserves_range _
    | exact dissect_nano_headerless_bulk_pull_account_response_preserves_range _
    | (refine Dissect.preserves_bind ?_ ?_; rotate_left; intro _)
    | refine Dissect.preserves_ite ?_ ?_)

/-- Every `dissect_nano` call keeps the recorded packet type within the values a one-byte
field can hold. -/
theorem dissect_nano_preserves_range (tvb : tvbuff_t) :
    (dissect_nano tvb).preserves client_packet_type_in_range := by
  constructor
  intro e hI
  by_cases hp : does_prev_packet_expect_headerless_response e.session_state = 0
  · by_cases h8 : 8 ≤ tvb.length
    · obtain ⟨t, ht⟩ := tvb_get_guint8_isSome tvb 5 (by omega)
      obtain ⟨extensions, hext⟩ := tvb_get_letohs_isSome tvb 6 (by omega)
      obtain ⟨e1, hs, -, hrun⟩ := dissect_nano_run_headered tvb e t extensions hp h8 ht hext
      rw [hrun]
      have hI1 : client_packet_type_in_range e1.session_state := by
        rw [hs]
        have := t.isLt
        constructor <;> simp only <;> omega
      revert hI1
      refine Dissect.preserves.inv ?_ e1
      repeat (first
        | exact Dissect.preserves_of_frames _ (Dissect.frames_pure _)
        | exact Dissect.preserves_of_frames _ (append_info_col_frames _)
        | exact Dissect.preserves_of_frames _ (dissect_nano_telemetry_ack_frames _ _ _)
        | exact Dissect.preserves_of_frames _ dissect_nano_telemetry_req_frames
        | exact Dissect.preserves_of_frames _ (dissect_nano_node_id_handshake_frames _ _ _)
        | exact Dissect.preserves_of_frames _ (dissect_nano_keepalive_frames _ _)
        | exact Dissect.preserves_of_frames _ (dissect_nano_confirm_req_frames _ _ _)
        | exact Dissect.preserves_of_frames _ (dissect_nano_confirm_ack_frames _ _ _)
        | exact Dissect.preserves_of_frames _ (dissect_nano_publish_frames _ _ _)
        | exact Dissect.preserves_of_frames _ (dissect_nano_frontier_req_frames _ _)
        | exact Dissect.preserves_of_frames _ (dissect_nano_bulk_pull_request_frames _ _ _)
        | exact dissect_nano_bulk_pull_account_request_preserves_range _ _
        | (refine Dissect.preserves_bind ?_ ?_; rotate_left; intro _)
        | refine Dissect.preserves_ite ?_ ?_)
    · have hshort : tvb_reported_length tvb < NANO_HEADER_LENGTH := by
        unfold tvb_reported_length NANO_HEADER_LENGTH
        omega
      unfold dissect_nano
      simp only [col_set_str_protocol, Dissect.run_bind_add_col, Dissect.run_bind_add_node,
        Dissect.run_bind_get_session_state, hp, ne_eq, not_true_eq_false, if_false, hshort,
        if_true, append_info_col, Dissect.run_pure]
      exact hI
  · unfold dissect_nano
    simp only [col_set_str_protocol, Dissect.run_bind_add_col, Dissect.run_bind_add_node,
      Dissect.run_bind_get_session_state, hp, ne_eq, not_false_eq_true, if_true]
    exact (dissect_headerless_packet_preserves_range tvb).inv _ hI

theorem dissect_nano_messages_in_range (msgs : List nano_message) :
    ∀ st, client_packet_type_in_range st →
      client_packet_type_in_range (dissect_nano_messages st msgs) := by
  induction msgs with
  | nil => intro st h; exact h
  | cons msg rest ih =>
    intro st h
    unfold dissect_nano_messages
    rw [List.foldl_cons]
    exact ih _ ((dissect_nano_preserves_range msg.tvb).inv (message_env st msg.destport) h)

/-! ## Field widths of the blocks -/

theorem tree_item_bytes_append (t1 t2 : List proto_node) :
    tree_item_bytes (t1 ++ t2) = tree_item_bytes t1 + tree_item_bytes t2 := by
  simp [tree_item_bytes]

theorem dissect_nano_send_block_item_bytes (tvb : tvbuff_t) (offset : Nat) (e : dissect_env)
    (h : offset + 152 ≤ tvb.length) :
    tree_item_bytes ((dissect_nano_send_block tvb offset).run e).2.tree
      = tree_item_bytes e.tree + 152 := by
  simp (disch := omega) [dissect_nano_send_block, Dissect.run_bind, proto_tree_add_item_run,
    proto_tree_add_subtree, tree_item_bytes_append, tree_item_bytes, proto_node.item_length]

theorem dissect_nano_receive_block_item_bytes (tvb : tvbuff_t) (offset : Nat)
    (e : dissect_env) (h : offset + 136 ≤ tvb.length) :
    tree_item_bytes ((dissect_nano_receive_block tvb offset).run e).2.tree
      = tree_item_bytes e.tree + 136 := by
  simp (disch := omega) [dissect_nano_receive_block, Dissect.run_bind,
    proto_tree_add_item_run, proto_tree_add_subtree, tree_item_bytes_append, tree_item_bytes,
    proto_node.item_length]

theorem dissect_nano_open_block_item_bytes (tvb : tvbuff_t) (offset : Nat) (e : dissect_env)
    (h : offset + 168 ≤ tvb.length) :
    tree_item_bytes ((dissect_nano_open_block tvb offset).run e).2.tree
      = tree_item_bytes e.tree + 168 := by
  simp (disch := omega) [dissect_nano_open_block, Dissect.run_bind, proto_tree_add_item_run,
    proto_tree_add_subtree, tree_item_bytes_append, tree_item_bytes, proto_node.item_length]

theorem dissect_nano_change_block_item_bytes (tvb : tvbuff_t) (offset : Nat)
    (e : dissect_env) (h : offset + 136 ≤ tvb.length) :
    tree_item_bytes ((dissect_nano_change_block tvb offset).run e).2.tree
      = tree_item_bytes e.tree + 136 := by
  simp (disch := omega) [dissect_nano_change_block, Dissect.run_bind,
    proto_tree_add_item_run, proto_tree_add_subtree, tree_item_bytes_append, tree_item_bytes,
    proto_node.item_length]

theorem dissect_nano_state_item_bytes (tvb : tvbuff_t) (offset : Nat) (e : dissect_env)
    (h : offset + 216 ≤ tvb.length) :
    tree_item_bytes ((dissect_nano_state tvb offset).run e).2.tree
      = tree_item_bytes e.tree + 216 := by
  simp (disch := omega) [dissect_nano_state, Dissect.run_bind, proto_tree_add_item_run,
    proto_tree_add_subtree, tree_item_bytes_append, tree_item_bytes, proto_node.item_length]

/-! ## Agreement of `dissect_nano` and `get_nano_message_len` -/

/-- On a headered message whose decoder mirrors the framer, `dissect_nano` returns the
framed length. -/
theorem dissect_nano_headered_returns (e : dissect_env) (tvb : tvbuff_t) (t : guint8)
    (extensions n : Nat)
    (hp : does_prev_packet_expect_headerless_response e.session_state = 0)
    (h8 : 8 ≤ tvb.length) (h32 : tvb.length < 2 ^ 32)
    (ht : tvb_get_guint8 tvb 5 = some t) (hext : tvb_get_letohs tvb 6 = some extensions)
    (htype : t.val = NANO_PACKET_TYPE_KEEPALIVE ∨ t.val = NANO_PACKET_TYPE_NODE_ID_HANDSHAKE
      ∨ t.val = NANO_PACKET_TYPE_TELEMETRY_ACK ∨ t.val = NANO_PACKET_TYPE_BULK_PULL_ACCOUNT
      ∨ ((t.val = NANO_PACKET_TYPE_PUBLISH ∨ t.val = NANO_PACKET_TYPE_CONFIRM_REQ
            ∨ t.val = NANO_PACKET_TYPE_CONFIRM_ACK)
          ∧ is_block_type (((extensions &&& 0x0f00) >>> 8 : Nat) : Int))
      ∨ ((t.val = NANO_PACKET_TYPE_CONFIRM_REQ ∨ t.val = NANO_PACKET_TYPE_CONFIRM_ACK)
          ∧ (((extensions &&& 0x0f00) >>> 8 : Nat) : Int) = NANO_BLOCK_TYPE_NOT_A_BLOCK))
    (hn : get_nano_message_len e.session_state tvb 0 = some n) (hfit : n ≤ tvb.length) :
    (dissect_nano tvb).returns e n := by
  obtain ⟨e1, -, -, hrun⟩ := dissect_nano_run_headered tvb e t extensions hp h8 ht hext
  rw [get_nano_message_len_headered e.session_state tvb 0 t extensions hp (by omega) h32 ht
    hext] at hn
  unfold Dissect.returns
  rw [hrun]
  have hnot : ∀ b : Int, is_block_type b → b ≠ NANO_BLOCK_TYPE_NOT_A_BLOCK := by
    intro b hb h1
    rw [h1] at hb
    revert hb
    decide
  rcases htype with hk | hk | hk | hk | ⟨hk | hk | hk, hb⟩ | ⟨hk | hk, hb⟩
  · simp +decide only [hk, reduceIte, Option.some.injEq] at hn ⊢
    subst hn
    exact dissect_nano_keepalive_returns tvb 8 e1 hfit
  · simp +decide only [hk, reduceIte, Option.some.injEq] at hn ⊢
    subst hn
    exact dissect_nano_node_id_handshake_returns tvb 8 extensions e1 hfit
  · simp +decide only [hk, reduceIte, Option.some.injEq] at hn ⊢
    subst hn
    exact dissect_nano_telemetry_ack_returns tvb 8 extensions e1 hfit
  · simp +decide only [hk, reduceIte, Option.some.injEq] at hn ⊢
    subst hn
    exact dissect_nano_bulk_pull_account_request_returns tvb 8 e1 hfit
  · simp +decide only [hk, reduceIte, Option.some.injEq] at hn ⊢
    subst hn
    exact dissect_nano_publish_returns tvb 8 extensions e1 hb hfit
  · simp +decide only [hk, reduceIte, if_neg (hnot _ hb), if_pos hb, Option.some.injEq]
      at hn ⊢
    subst hn
    exact dissect_nano_confirm_req_returns_block tvb 8 extensions e1 hb hfit
  · simp +decide only [hk, reduceIte, if_neg (hnot _ hb), Option.some.injEq] at hn ⊢
    subst hn
    have h := dissect_nano_confirm_ack_returns_block tvb 8 extensions e1 hb (by omega)
    rw [Nat.add_assoc] at h
    exact h
  · simp +decide only [hk, reduceIte, if_pos hb, Option.some.injEq] at hn ⊢
    subst hn
    exact dissect_nano_confirm_req_returns_hashes tvb 8 extensions e1 hb hfit
  · simp +decide only [hk, reduceIte, if_pos hb, Option.some.injEq] at hn ⊢
    subst hn
    have h := dissect_nano_confirm_ack_returns_hashes tvb 8 extensions e1 hb (by omega)
    rw [Nat.add_assoc] at h
    exact h

/-- A Confirm Req with an unrecognised block type: the framer declares 0 bytes and
`dissect_nano` returns 0. -/
theorem dissect_nano_confirm_req_unrecognised (e : dissect_env) (tvb : tvbuff_t) (t : guint8)
    (extensions : Nat)
    (hp : does_prev_packet_expect_headerless_response e.session_state = 0)
    (h8 : 8 ≤ tvb.length) (h32 : tvb.length < 2 ^ 32)
    (ht : tvb_get_guint8 tvb 5 = some t) (hext : tvb_get_letohs tvb 6 = some extensions)
    (hk : t.val = NANO_PACKET_TYPE_CONFIRM_REQ)
    (hb : ¬ is_block_type (((extensions &&& 0x0f00) >>> 8 : Nat) : Int))
    (hne : (((extensions &&& 0x0f00) >>> 8 : Nat) : Int) ≠ NANO_BLOCK_TYPE_NOT_A_BLOCK) :
    get_nano_message_len e.session_state tvb 0 = some 0 ∧ (dissect_nano tvb).returns e 0 := by
  obtain ⟨e1, -, -, hrun⟩ := dissect_nano_run_headered tvb e t extensions hp h8 ht hext
  rw [get_nano_message_len_headered e.session_state tvb 0 t extensions hp (by omega) h32 ht
    hext]
  unfold Dissect.returns
  rw [hrun]
  simp +decide only [hk, reduceIte, if_neg hne, if_neg hb, true_and]
  exact dissect_nano_confirm_req_returns_zero tvb 8 extensions e1 hb hne

/-- A header whose packet type has no case in the switch of `dissect_nano`: the framer
declares all the bytes of the buffer and `dissect_nano` returns the captured length. -/
theorem dissect_nano_no_decoder (e : dissect_env) (tvb : tvbuff_t) (t : guint8)
    (extensions : Nat)
    (hp : does_prev_packet_expect_headerless_response e.session_state = 0)
    (h8 : 8 ≤ tvb.length) (h32 : tvb.length < 2 ^ 32)
    (ht : tvb_get_guint8 tvb 5 = some t) (hext : tvb_get_letohs tvb 6 = some extensions)
    (hk : t.val ≠ NANO_PACKET_TYPE_TELEMETRY_ACK ∧ t.val ≠ NANO_PACKET_TYPE_TELEMETRY_REQ
      ∧ t.val ≠ NANO_PACKET_TYPE_NODE_ID_HANDSHAKE ∧ t.val ≠ NANO_PACKET_TYPE_KEEPALIVE
      ∧ t.val ≠ NANO_PACKET_TYPE_CONFIRM_REQ ∧ t.val ≠ NANO_PACKET_TYPE_CONFIRM_ACK
      ∧ t.val ≠ NANO_PACKET_TYPE_PUBLISH ∧ t.val ≠ NANO_PACKET_TYPE_BULK_PULL_ACCOUNT
      ∧ t.val ≠ NANO_PACKET_TYPE_FRONTIER_REQ ∧ t.val ≠ NANO_PACKET_TYPE_BULK_PULL) :
    get_nano_message_len e.session_state tvb 0 = some tvb.length
      ∧ (dissect_nano tvb).returns e tvb.length := by
  obtain ⟨e1, -, -, hrun⟩ := dissect_nano_run_headered tvb e t extensions hp h8 ht hext
  obtain ⟨k1, k2, k3, k4, k5, k6, k7, k8, k9, k10⟩ := hk
  rw [get_nano_message_len_headered e.session_state tvb 0 t extensions hp (by omega) h32 ht
    hext]
  unfold Dissect.returns
  rw [hrun]
  simp only [if_neg k1, if_neg k2, if_neg k3, if_neg k4, if_neg k5, if_neg k6, if_neg k7,
    if_neg k8, if_neg k9, if_neg k10, Nat.sub_zero, true_and]
  rfl

/-- A buffer too short for a header, with no continuation pending: the framer declares 0
bytes and `dissect_nano` returns 0. -/
theorem dissect_nano_short_header (e : dissect_env) (tvb : tvbuff_t)
    (hp : does_prev_packet_expect_headerless_response e.session_state = 0)
    (h8 : tvb.length < 8) :
    get_nano_message_len e.session_state tvb 0 = some 0 ∧ (dissect_nano tvb).returns e 0 := by
  obtain ⟨h6, h7, h8', h11⟩ := (does_prev_packet_expect_headerless_response_eq_zero _).mp hp
  have hsub : guint_sub (tvb_captured_length tvb) 0 = tvb.length :=
    guint_sub_eq _ _ (Nat.zero_le _) (by unfold tvb_captured_length; omega)
  have hshort : tvb_reported_length tvb < NANO_HEADER_LENGTH := h8
  have hshort2 : tvb.length < NANO_HEADER_LENGTH := h8
  constructor
  · unfold get_nano_message_len
    simp only [if_neg h6, if_neg h7, if_neg h8', if_neg h11, hsub, hshort2, if_true]
    rfl
  · unfold Dissect.returns dissect_nano
    simp only [col_set_str_protocol, Dissect.run_bind_add_col, Dissect.run_bind_add_node,
      Dissect.run_bind_get_session_state, hp, ne_eq, not_true_eq_false, if_false, hshort,
      if_true, append_info_col, Dissect.run_pure]

/-- A continuation message from the server, while a Frontier Req, Bulk Pull or Bulk Pull
Account request is pending: `dissect_nano` returns at least the framed length. -/
theorem dissect_nano_headerless_server_returns (e : dissect_env) (tvb : tvbuff_t) (n : Nat)
    (hp : does_prev_packet_expect_headerless_response e.session_state ≠ 0)
    (hd : e.pinfo.destport ≠ e.session_state.server_port)
    (h7 : e.session_state.client_packet_type ≠ NANO_PACKET_TYPE_BULK_PUSH)
    (hn : get_nano_message_len e.session_state tvb 0 = some n) (hfit : n ≤ tvb.length) :
    ∃ r, (dissect_nano tvb).returns e r ∧ n ≤ r := by
  obtain ⟨e1, hs, hport, hrun⟩ := dissect_nano_run_headerless tvb e hp
  have hd1 : e1.pinfo.destport ≠ e1.session_state.server_port := by rw [hs, hport]; exact hd
  unfold Dissect.returns
  rw [hrun, dissect_headerless_packet_run_server tvb e1 hd1, hs]
  rcases (does_prev_packet_expect_headerless_response_ne_zero _).mp hp with h | h | h | h
  · rw [get_nano_message_len_bulk_pull _ _ _ h] at hn
    simp +decide only [h, reduceIte]
    cases hb : tvb_get_guint8 tvb 0 with
    | none => rw [hb] at hn; exact Option.noConfusion hn
    | some b =>
      rw [hb, Option.map_some', Option.some.injEq] at hn
      by_cases h1 : ((b.val : Nat) : Int) = NANO_BLOCK_TYPE_NOT_A_BLOCK
      · rw [if_pos h1] at hn
        exact ⟨1, dissect_nano_headerless_bulk_pull_response_returns_end tvb e1 b hb h1,
          by omega⟩
      · rw [if_neg h1] at hn
        by_cases hbt : is_block_type ((b.val : Nat) : Int)
        · exact ⟨_, dissect_nano_headerless_bulk_pull_response_returns_block tvb e1 b hb hbt
            (by omega), by omega⟩
        · rw [get_block_type_size_eq_zero _ hbt] at hn
          exact ⟨1, dissect_nano_headerless_bulk_pull_response_returns_other tvb e1 b hb hbt
            h1, by omega⟩
  · exact absurd h h7
  · rw [get_nano_message_len_frontier_req _ _ _ h, Option.some.injEq] at hn
    simp +decide only [h, reduceIte]
    exact ⟨64, dissect_nano_headerless_frontier_response_returns tvb e1 (by omega),
      by omega⟩
  · rw [get_nano_message_len_bulk_pull_account _ _ _ h, Option.some.injEq] at hn
    simp +decide only [h, reduceIte]
    refine ⟨_, dissect_nano_headerless_bulk_pull_account_response_returns tvb e1 ?_, ?_⟩
    · rw [hs, hn]; exact hfit
    · rw [hs, hn]

/-- A Bulk Push continuation message from the client whose type byte is Not-A-Block or a
recognised block type: `dissect_nano` returns at least the framed length. -/
theorem dissect_nano_headerless_bulk_push_returns (e : dissect_env) (tvb : tvbuff_t)
    (n : Nat) (b : guint8)
    (h7 : e.session_state.client_packet_type = NANO_PACKET_TYPE_BULK_PUSH)
    (hd : e.pinfo.destport = e.session_state.server_port)
    (hb : tvb_get_guint8 tvb 0 = some b)
    (hbt : ((b.val : Nat) : Int) = NANO_BLOCK_TYPE_NOT_A_BLOCK
      ∨ is_block_type ((b.val : Nat) : Int))
    (hn : get_nano_message_len e.session_state tvb 0 = some n) (hfit : n ≤ tvb.length) :
    ∃ r, (dissect_nano tvb).returns e r ∧ n ≤ r := by
  have hp : does_prev_packet_expect_headerless_response e.session_state ≠ 0 :=
    (does_prev_packet_expect_headerless_response_ne_zero _).mpr (Or.inr (Or.inl h7))
  obtain ⟨e1, hs, hport, hrun⟩ := dissect_nano_run_headerless tvb e hp
  have hd1 : e1.pinfo.destport = e1.session_state.server_port := by rw [hs, hport]; exact hd
  have h71 : e1.session_state.client_packet_type = NANO_PACKET_TYPE_BULK_PUSH := by
    rw [hs]; exact h7
  unfold Dissect.returns
  rw [hrun, dissect_headerless_packet_run_client tvb e1 hd1 h71]
  rw [get_nano_message_len_bulk_push _ _ _ h7, hb, Option.map_some', Option.some.injEq] at hn
  rcases hbt with h1 | hbt
  · rw [if_pos h1] at hn
    exact ⟨1, dissect_nano_headerless_bulk_push_body_returns_end tvb e1 b hb h1, by omega⟩
  · have h1 : ((b.val : Nat) : Int) ≠ NANO_BLOCK_TYPE_NOT_A_BLOCK := by
      intro h1
      rw [h1] at hbt
      revert hbt
      decide
    have hpos := get_block_type_size_pos _ hbt
    rw [if_neg h1, if_neg (by omega)] at hn
    exact ⟨_, dissect_nano_headerless_bulk_push_body_returns_block tvb e1 b hb hbt
      (by omega), by omega⟩

/-! ## Field values of the blocks -/

theorem drop_add_drop {α : Type} (l : List α) (m n : Nat) :
    l.drop (m + n) = (l.drop m).drop n := by
  rw [List.drop_drop, Nat.add_comm]

theorem drop_append_of_length {α : Type} (a l : List α) (n : Nat) (h : a.length = n) :
    (a ++ l).drop n = l := by
  subst h
  exact List.drop_left _ _

theorem take_append_of_length {α : Type} (a l : List α) (n : Nat) (h : a.length = n) :
    (a ++ l).take n = a := by
  subst h
  exact List.take_left _ _

/-- The Send block decoder on a buffer that holds the five fields at the start offset: it
consumes 152 bytes and the field values it adds to the tree are the five fields. -/
theorem dissect_nano_send_block_fields
    (tvb pre previous destination balance signature work post : List guint8) (e : dissect_env)
    (htvb : tvb
      = pre ++ (previous ++ (destination ++ (balance ++ (signature ++ (work ++ post))))))
    (hprevious : previous.length = 32) (hdestination : destination.length = 32)
    (hbalance : balance.length = 16) (hsignature : signature.length = 64)
    (hwork : work.length = 8) :
    ((dissect_nano_send_block tvb pre.length).run e).1 = some (pre.length + 152)
      ∧ tree_fields tvb ((dissect_nano_send_block tvb pre.length).run e).2.tree
        = tree_fields tvb e.tree
          ++ [(.block_hash_previous, previous), (.block_destination_account, destination),
            (.block_balance, balance), (.block_signature, signature), (.block_work, work)] := by
  subst htvb
  unfold dissect_nano_send_block
  simp (disch := simp only [List.length_append]; omega) only [Dissect.run_bind,
    proto_tree_add_subtree, add_node_run, proto_tree_add_item_run, Dissect.run_pure]
  refine ⟨by simp only [Option.some.injEq], ?_⟩
  simp (disch := assumption) only [tree_fields, List.filterMap_append, List.filterMap_cons,
    List.filterMap_nil, proto_node.field, drop_add_drop, List.drop_left,
    drop_append_of_length, take_append_of_length, List.append_assoc, List.nil_append,
    List.cons_append, List.append_nil]

theorem dissect_nano_receive_block_fields
    (tvb pre previous source signature work post : List guint8) (e : dissect_env)
    (htvb : tvb = pre ++ (previous ++ (source ++ (signature ++ (work ++ post)))))
    (hprevious : previous.length = 32) (hsource : source.length = 32)
    (hsignature : signature.length = 64) (hwork : work.length = 8) :
    ((dissect_nano_receive_block tvb pre.length).run e).1 = some (pre.length + 136)
      ∧ tree_fields tvb ((dissect_nano_receive_block tvb pre.length).run e).2.tree
        = tree_fields tvb e.tree
          ++ [(.block_hash_previous, previous), (.block_hash_source, source),
            (.block_signature, signature), (.block_work, work)] := by
  subst htvb
  unfold dissect_nano_receive_block
  simp (disch := simp only [List.length_append]; omega) only [Dissect.run_bind,
    proto_tree_add_subtree, add_node_run, proto_tree_add_item_run, Dissect.run_pure]
  refine ⟨by simp only [Option.some.injEq], ?_⟩
  simp (disch := assumption) only [tree_fields, List.filterMap_append, List.filterMap_cons,
    List.filterMap_nil, proto_node.field, drop_add_drop, List.drop_left,
    drop_append_of_length, take_append_of_length, List.append_assoc, List.nil_append,
    List.cons_append, List.append_nil]

theorem dissect_nano_open_block_fields
    (tvb pre source representative account signature work post : List guint8)
    (e : dissect_env)
    (htvb : tvb
      = pre ++ (source ++ (representative ++ (account ++ (signature ++ (work ++ post))))))
    (hsource : source.length = 32) (hrepresentative : representative.length = 32)
    (haccount : account.length = 32) (hsignature : signature.length = 64)
    (hwork : work.length = 8) :
    ((dissect_nano_open_block tvb pre.length).run e).1 = some (pre.length + 168)
      ∧ tree_fields tvb ((dissect_nano_open_block tvb pre.length).run e).2.tree
        = tree_fields tvb e.tree
          ++ [(.block_hash_source, source), (.block_representative_account, representative),
            (.block_account, account), (.block_signature, signature), (.block_work, work)] := by
  subst htvb
  unfold dissect_nano_open_block
  simp (disch := simp only [List.length_append]; omega) only [Dissect.run_bind,
    proto_tree_add_subtree, add_node_run, proto_tree_add_item_run, Dissect.run_pure]
  refine ⟨by simp only [Option.some.injEq], ?_⟩
  simp (disch := assumption) only [tree_fields, List.filterMap_append, List.filterMap_cons,
    List.filterMap_nil, proto_node.field, drop_add_drop, List.drop_left,
    drop_append_of_length, take_append_of_length, List.append_assoc, List.nil_append,
    List.cons_append, List.append_nil]

theorem dissect_nano_change_block_fields
    (tvb pre previous representative signature work post : List guint8) (e : dissect_env)
    (htvb : tvb = pre ++ (previous ++ (representative ++ (signature ++ (work ++ post)))))
    (hprevious : previous.length = 32) (hrepresentative : representative.length = 32)
    (hsignature : signature.length = 64) (hwork : work.length = 8) :
    ((dissect_nano_change_block tvb pre.length).run e).1 = some (pre.length + 136)
      ∧ tree_fields tvb ((dissect_nano_change_block tvb pre.length).run e).2.tree
        = tree_fields tvb e.tree
          ++ [(.block_hash_previous, previous), (.block_representative_account, representative),
            (.block_signature, signature), (.block_work, work)] := by
  subst htvb
  unfold dissect_nano_change_block
  simp (disch := simp only [List.length_append]; omega) only [Dissect.run_bind,
    proto_tree_add_subtree, add_node_run, proto_tree_add_item_run, Dissect.run_pure]
  refine ⟨by simp only [Option.some.injEq], ?_⟩
  simp (disch := assumption) only [tree_fields, List.filterMap_append, List.filterMap_cons,
    List.filterMap_nil, proto_node.field, drop_add_drop, List.drop_left,
    drop_append_of_length, take_append_of_length, List.append_assoc, List.nil_append,
    List.cons_append, List.append_nil]

theorem dissect_nano_state_fields
    (tvb pre account previous representative balance link signature work post : List guint8)
    (e : dissect_env)
    (htvb : tvb = pre ++ (account ++ (previous ++ (representative ++ (balance ++ (link
      ++ (signature ++ (work ++ post))))))))
    (haccount : account.length = 32) (hprevious : previous.length = 32)
    (hrepresentative : representative.length = 32) (hbalance : balance.length = 16)
    (hlink : link.length = 32) (hsignature : signature.length = 64) (hwork : work.length = 8) :
    ((dissect_nano_state tvb pre.length).run e).1 = some (pre.length + 216)
      ∧ tree_fields tvb ((dissect_nano_state tvb pre.length).run e).2.tree
        = tree_fields tvb e.tree
          ++ [(.block_account, account), (.block_hash_previous, previous),
            (.block_representative_account, representative), (.block_balance, balance),
            (.block_link, link), (.block_signature, signature), (.block_work, work)] := by
  subst htvb
  unfold dissect_nano_state
  simp (disch := simp only [List.length_append]; omega) only [Dissect.run_bind,
    proto_tree_add_subtree, add_node_run, proto_tree_add_item_run, Dissect.run_pure]
  refine ⟨by simp only [Option.some.injEq], ?_⟩
  simp (disch := assumption) only [tree_fields, List.filterMap_append, List.filterMap_cons,
    List.filterMap_nil, proto_node.field, drop_add_drop, List.drop_left,
    drop_append_of_length, take_append_of_length, List.append_assoc, List.nil_append,
    List.cons_append, List.append_nil]

theorem dissect_nano_block_eq_decoder :
    dissect_nano_block NANO_BLOCK_TYPE_SEND = dissect_nano_send_block
      ∧ dissect_nano_block NANO_BLOCK_TYPE_RECEIVE = dissect_nano_receive_block
      ∧ dissect_nano_block NANO_BLOCK_TYPE_OPEN = dissect_nano_open_block
      ∧ dissect_nano_block NANO_BLOCK_TYPE_CHANGE = dissect_nano_change_block
      ∧ dissect_nano_block NANO_BLOCK_TYPE_STATE = dissect_nano_state :=
  ⟨rfl, rfl, rfl, rfl, rfl⟩

/-! ## Items of Confirm Req and Confirm Ack, bits of the extensions -/

/-- Masking with a single bit is non-zero exactly when that bit is set. -/
theorem and_two_pow_ne_zero (n i : Nat) : n &&& 2 ^ i ≠ 0 ↔ n.testBit i = true := by
  rw [Nat.and_two_pow]
  cases n.testBit i <;> simp

/-- The item count of the extensions, bits 12 to 15, is at most 15. -/
theorem item_count_le_fifteen (extensions : Nat) :
    (extensions &&& 0xf000) >>> 12 ≤ 15 := by
  have h1 : extensions &&& 0xf000 ≤ 0xf000 := Nat.and_le_right
  rw [Nat.shiftRight_eq_div_pow]
  omega

theorem tree_item_count_append (hf : hf_id) (t1 t2 : List proto_node) :
    tree_item_count hf (t1 ++ t2) = tree_item_count hf t1 + tree_item_count hf t2 := by
  unfold tree_item_count
  exact List.countP_append _ _ _

theorem dissect_nano_confirm_ack_hashes_run (tvb : tvbuff_t) (count : Nat) :
    ∀ (offset : Nat) (e : dissect_env), offset + count * 32 ≤ tvb.length →
      ((dissect_nano_confirm_ack_hashes tvb count offset).run e).1 = some (offset + count * 32)
        ∧ tree_item_count .confirm_ack_hash
            ((dissect_nano_confirm_ack_hashes tvb count offset).run e).2.tree
          = tree_item_count .confirm_ack_hash e.tree + count := by
  induction count with
  | zero =>
    intro offset e _
    exact ⟨by simp [dissect_nano_confirm_ack_hashes], rfl⟩
  | succ n ih =>
    intro offset e h
    unfold dissect_nano_confirm_ack_hashes
    rw [Dissect.run_bind, proto_tree_add_item_run _ _ _ _ _ (by omega)]
    obtain ⟨h1, h2⟩ := ih (offset + 32)
      { e with tree := e.tree ++ [.item .confirm_ack_hash offset 32] } (by omega)
    refine ⟨?_, ?_⟩
    · rw [h1]
      congr 1
      omega
    · rw [h2, tree_item_count_append]
      simp only [tree_item_count, List.countP_singleton, proto_node.is_item, decide_True,
        if_true]
      omega

theorem dissect_nano_confirm_req_hash_pairs_run (tvb : tvbuff_t) (count : Nat) :
    ∀ (offset : Nat) (e : dissect_env), offset + count * 64 ≤ tvb.length →
      ((dissect_nano_confirm_req_hash_pairs tvb count offset).run e).1
          = some (offset + count * 64)
        ∧ tree_item_count .hash_pair_first
            ((dissect_nano_confirm_req_hash_pairs tvb count offset).run e).2.tree
          = tree_item_count .hash_pair_first e.tree + count
        ∧ tree_item_count .hash_pair_second
            ((dissect_nano_confirm_req_hash_pairs tvb count offset).run e).2.tree
          = tree_item_count .hash_pair_second e.tree + count := by
  induction count with
  | zero =>
    intro offset e _
    exact ⟨by simp [dissect_nano_confirm_req_hash_pairs], rfl, rfl⟩
  | succ n ih =>
    intro offset e h
    unfold dissect_nano_confirm_req_hash_pairs
    simp (disch := omega) only [Dissect.run_bind, proto_tree_add_subtree, add_node_run,
      proto_tree_add_item_run]
    obtain ⟨h1, h2, h3⟩ := ih (offset + 32 + 32)
      { e with tree := e.tree ++ [.subtree "Hash Pair" offset (min 64 (tvb.length - offset))]
          ++ [.item .hash_pair_first offset 32] ++ [.item .hash_pair_second (offset + 32) 32] }
      (by omega)
    refine ⟨?_, ?_, ?_⟩
    · rw [h1]
      congr 1
      omega
    · rw [h2]
      simp +decide only [tree_item_count, List.countP_append, List.countP_singleton,
        proto_node.is_item, reduceIte]
      omega
    · rw [h3]
      simp +decide only [tree_item_count, List.countP_append, List.countP_singleton,
        proto_node.is_item, reduceIte]
      omega

theorem dissect_nano_confirm_req_run_hashes (tvb : tvbuff_t) (offset extensions : Nat)
    (e : dissect_env)
    (hb : (((extensions &&& 0x0f00) >>> 8 : Nat) : Int) = NANO_BLOCK_TYPE_NOT_A_BLOCK)
    (h : offset + ((extensions &&& 0xf000) >>> 12) * 64 ≤ tvb.length) :
    ((dissect_nano_confirm_req tvb offset extensions).run e).1
        = some (offset + ((extensions &&& 0xf000) >>> 12) * 64)
      ∧ tree_item_count .hash_pair_first
          ((dissect_nano_confirm_req tvb offset extensions).run e).2.tree
        = tree_item_count .hash_pair_first e.tree + (extensions &&& 0xf000) >>> 12
      ∧ tree_item_count .hash_pair_second
          ((dissect_nano_confirm_req tvb offset extensions).run e).2.tree
        = tree_item_count .hash_pair_second e.tree + (extensions &&& 0xf000) >>> 12 := by
  unfold dissect_nano_confirm_req
  simp only [hb, if_true, append_info_col, col_append_str, proto_tree_add_subtree,
    proto_tree_add_uint, Dissect.run_bind_add_col, Dissect.run_bind_add_node]
  obtain ⟨h1, h2, h3⟩ := dissect_nano_confirm_req_hash_pairs_run tvb _ offset
    { e with
      pinfo := { e.pinfo with cinfo := e.pinfo.cinfo ++ [col_event.append_sep "Confirm Req"]
        ++ [col_event.append " (ReqByHash)"] }
      tree := e.tree ++ [proto_node.subtree "Confirm Req" offset
          (min (((extensions &&& 0xf000) >>> 12) * 64) (tvb.length - offset))]
        ++ [proto_node.uint .extensions_item_count offset 0 ((extensions &&& 0xf000) >>> 12)] }
    h
  rw [Dissect.run_bind_of_returns h1, Dissect.run_pure]
  refine ⟨rfl, ?_, ?_⟩
  · rw [h2]
    simp +decide only [tree_item_count, List.countP_append, List.countP_singleton,
      proto_node.is_item, reduceIte, Nat.add_zero]
  · rw [h3]
    simp +decide only [tree_item_count, List.countP_append, List.countP_singleton,
      proto_node.is_item, reduceIte, Nat.add_zero]

theorem dissect_nano_vote_common_run (tvb : tvbuff_t) (offset : Nat) (e : dissect_env)
    (h : offset + 104 ≤ tvb.length) :
    (dissect_nano_vote_common tvb offset).run e
      = (some (offset + 104), { e with tree := e.tree
          ++ [proto_node.subtree "Vote Common" offset (min 104 (tvb.length - offset))]
          ++ [proto_node.item .confirm_ack_vote_common_account offset 32]
          ++ [proto_node.item .confirm_ack_vote_common_signature (offset + 32) 64]
          ++ [proto_node.item .confirm_ack_vote_common_sequence (offset + 32 + 64) 8] }) := by
  unfold dissect_nano_vote_common
  simp (disch := omega) only [Dissect.run_bind, proto_tree_add_subtree, add_node_run,
    proto_tree_add_item_run, Dissect.run_pure, Nat.reduceAdd]

theorem dissect_nano_confirm_ack_run_hashes (tvb : tvbuff_t) (offset extensions : Nat)
    (e : dissect_env)
    (hb : (((extensions &&& 0x0f00) >>> 8 : Nat) : Int) = NANO_BLOCK_TYPE_NOT_A_BLOCK)
    (h : offset + 104 + ((extensions &&& 0xf000) >>> 12) * 32 ≤ tvb.length) :
    ((dissect_nano_confirm_ack tvb offset extensions).run e).1
        = some (offset + 104 + ((extensions &&& 0xf000) >>> 12) * 32)
      ∧ tree_item_count .confirm_ack_hash
          ((dissect_nano_confirm_ack tvb offset extensions).run e).2.tree
        = tree_item_count .confirm_ack_hash e.tree + (extensions &&& 0xf000) >>> 12 := by
  unfold dissect_nano_confirm_ack
  simp only [hb, if_true, append_info_col, col_append_str, proto_tree_add_subtree,
    Dissect.run_bind_add_col, Dissect.run_bind_add_node]
  rw [Dissect.run_bind, dissect_nano_vote_common_run tvb offset _ (by omega)]
  simp only [Dissect.run_bind_add_col, Dissect.run_bind_add_node]
  obtain ⟨h1, h2⟩ := dissect_nano_confirm_ack_hashes_run tvb ((extensions &&& 0xf000) >>> 12)
    (offset + 104)
    { e with
      pinfo := { e.pinfo with cinfo := e.pinfo.cinfo ++ [col_event.append_sep "Confirm Ack"]
        ++ [col_event.append
          (" (" ++ toString ((extensions &&& 0xf000) >>> 12) ++ " Blocks)")] }
      tree := e.tree ++ [proto_node.subtree "Confirm Ack" offset
          (min (32 + 64 + 8 + ((extensions &&& 0xf000) >>> 12) * 32) (tvb.length - offset))]
        ++ [proto_node.subtree "Vote Common" offset (min 104 (tvb.length - offset))]
        ++ [proto_node.item .confirm_ack_vote_common_account offset 32]
        ++ [proto_node.item .confirm_ack_vote_common_signature (offset + 32) 64]
        ++ [proto_node.item .confirm_ack_vote_common_sequence (offset + 32 + 64) 8]
        ++ [proto_node.subtree "Hashes List" (offset + 104)
          (min (((extensions &&& 0xf000) >>> 12) * 32) (tvb.length - (offset + 104)))] }
    h
  rw [Dissect.run_bind_of_returns h1, Dissect.run_pure]
  refine ⟨rfl, ?_⟩
  rw [h2]
  simp +decide only [tree_item_count, List.countP_append, List.countP_singleton,
    proto_node.is_item, reduceIte, Nat.add_zero]

/-! ## Continuation messages and the session state -/

/-- A message from the server, decoded while a continuation is pending, is handed to the
decoder of the pending request. -/
theorem dissect_nano_run_server (tvb : tvbuff_t) (e : dissect_env)
    (hp : does_prev_packet_expect_headerless_response e.session_state ≠ 0)
    (hd : e.pinfo.destport ≠ e.session_state.server_port) :
    ∃ e1, e1.session_state = e.session_state ∧ e1.pinfo.destport = e.pinfo.destport
      ∧ (dissect_nano tvb).run e =
        (if e.session_state.client_packet_type = NANO_PACKET_TYPE_FRONTIER_REQ then
          dissect_nano_headerless_frontier_response tvb
        else if e.session_state.client_packet_type = NANO_PACKET_TYPE_BULK_PULL then
          dissect_nano_headerless_bulk_pull_response tvb
        else if e.session_state.client_packet_type = NANO_PACKET_TYPE_BULK_PULL_ACCOUNT then
          dissect_nano_headerless_bulk_pull_account_response tvb
        else do
          append_info_col "UNKNOWN HEADERLESS [SERVER] Packet"
          return 0).run e1 := by
  obtain ⟨e1, hs, hdp, hrun⟩ := dissect_nano_run_headerless tvb e hp
  refine ⟨e1, hs, hdp, ?_⟩
  rw [hrun, dissect_headerless_packet_run_server tvb e1 (by rw [hs, hdp]; exact hd), hs]

/-- The end marker of a Bulk Pull Response: one byte is consumed and the pending request is
replaced by `NANO_PACKET_TYPE_NOT_A_TYPE`. -/
theorem dissect_nano_headerless_bulk_pull_response_run_end (tvb : tvbuff_t)
    (e : dissect_env) (b : guint8) (hb : tvb_get_guint8 tvb 0 = some b)
    (h1 : ((b.val : Nat) : Int) = NANO_BLOCK_TYPE_NOT_A_BLOCK) :
    ((dissect_nano_headerless_bulk_pull_response tvb).run e).1 = some 1
      ∧ ((dissect_nano_headerless_bulk_pull_response tvb).run e).2.session_state
        = { e.session_state with client_packet_type := NANO_PACKET_TYPE_NOT_A_TYPE } := by
  have hlen := tvb_get_guint8_lt tvb 0 b hb
  unfold dissect_nano_headerless_bulk_pull_response
  simp (disch := omega) only [Dissect.run_bind, proto_tree_add_item_run,
    proto_tree_add_subtree, append_info_col, col_append_str, add_node_run, add_col_run,
    Dissect.run_ofOption, hb, h1, if_true, set_client_packet_type_run, Dissect.run_pure,
    and_self]

/-- A Frontier Response of 64 bytes: all of it is consumed, and the pending request is
cleared exactly when the two 32-bit words read at offsets 0 and 32 are both zero. -/
theorem dissect_nano_headerless_frontier_response_run (tvb : tvbuff_t) (e : dissect_env)
    (account frontier_hash : Nat) (h : 64 ≤ tvb.length)
    (ha : tvb_get_ntohl tvb 0 = some account)
    (hf : tvb_get_ntohl tvb 32 = some frontier_hash) :
    ((dissect_nano_headerless_frontier_response tvb).run e).1 = some 64
      ∧ ((dissect_nano_headerless_frontier_response tvb).run e).2.session_state
        = (if account = 0 ∧ frontier_hash = 0 then
            { e.session_state with client_packet_type := NANO_PACKET_TYPE_INVALID }
          else e.session_state) := by
  unfold dissect_nano_headerless_frontier_response
  simp (disch := omega) only [Dissect.run_bind, proto_tree_add_item_run,
    proto_tree_add_subtree, append_info_col, add_node_run, add_col_run, Dissect.run_ofOption,
    ha, hf, Nat.zero_add]
  split_ifs <;> exact ⟨rfl, rfl⟩

/-- With the address-only flags (0x01) captured, the Bulk Pull Account Response decoder
never writes to the session state, whatever the bytes and whether or not it throws. -/
theorem dissect_nano_headerless_bulk_pull_account_response_address_only (tvb : tvbuff_t)
    (e : dissect_env) (h1 : e.session_state.bulk_pull_account_request_flags = 0x01) :
    ((dissect_nano_headerless_bulk_pull_account_response tvb).run e).2.session_state
      = e.session_state := by
  unfold dissect_nano_headerless_bulk_pull_account_response
  simp only [Dissect.run_bind_get_session_state, h1, decide_True, Bool.not_true,
    Bool.true_or, if_true, Bool.false_eq_true, if_false]
  refine Dissect.frames.session_state ?_ e
  repeat (first
    | exact Dissect.frames_pure _
    | exact proto_tree_add_item_frames _ _ _ _
    | exact proto_tree_add_subtree_frames _ _ _ _
    | exact append_info_col_frames _
    | (refine Dissect.frames_bind ?_ ?_; rotate_left; intro _)
    | refine Dissect.frames_ite ?_ ?_)

/-- One message from the server leaves an address-only Bulk Pull Account session as it
was. -/
theorem dissect_nano_next_state_address_only (st : nano_session_state) (msg : nano_message)
    (hc : st.client_packet_type = NANO_PACKET_TYPE_BULK_PULL_ACCOUNT)
    (h1 : st.bulk_pull_account_request_flags = 0x01)
    (hd : msg.destport ≠ st.server_port) :
    dissect_nano_next_state st msg = st := by
  unfold dissect_nano_next_state
  have hp : does_prev_packet_expect_headerless_response
      (message_env st msg.destport).session_state ≠ 0 :=
    (does_prev_packet_expect_headerless_response_ne_zero _).mpr (Or.inr (Or.inr (Or.inr hc)))
  obtain ⟨e1, hs, -, hrun⟩ := dissect_nano_run_server msg.tvb _ hp hd
  have hc1 : (message_env st msg.destport).session_state.client_packet_type
      = NANO_PACKET_TYPE_BULK_PULL_ACCOUNT := hc
  rw [hrun, hc1]
  simp +decide only [reduceIte]
  rw [dissect_nano_headerless_bulk_pull_account_response_address_only msg.tvb e1
    (by rw [hs]; exact h1), hs]
  rfl

/-- Any sequence of messages from the server leaves an address-only Bulk Pull Account
session as it was. -/
theorem dissect_nano_messages_address_only (msgs : List nano_message)
    (st : nano_session_state)
    (hc : st.client_packet_type = NANO_PACKET_TYPE_BULK_PULL_ACCOUNT)
    (h1 : st.bulk_pull_account_request_flags = 0x01)
    (hd : ∀ msg ∈ msgs, msg.destport ≠ st.server_port) :
    dissect_nano_messages st msgs = st := by
  induction msgs with
  | nil => rfl
  | cons m ms ih =>
    unfold dissect_nano_messages at ih ⊢
    rw [List.foldl_cons, dissect_nano_next_state_address_only st m hc h1
      (hd m (List.mem_cons_self _ _))]
    exact ih fun msg hm => hd msg (List.mem_cons_of_mem _ hm)

/-! ## Headered requests and the session state -/

/-- The Bulk Pull Account request decoder on a buffer holding the 49 body bytes: it stores
the flags byte, the last of them, in the session state and changes nothing else of it. -/
theorem dissect_nano_bulk_pull_account_request_run (tvb : tvbuff_t) (offset : Nat)
    (e : dissect_env) (flags : guint8) (h : offset + 49 ≤ tvb.length)
    (hf : tvb_get_guint8 tvb (offset + 48) = some flags) :
    ((dissect_nano_bulk_pull_account_request tvb offset).run e).1 = some (offset + 49)
      ∧ ((dissect_nano_bulk_pull_account_request tvb offset).run e).2.session_state
        = { e.session_state with bulk_pull_account_request_flags := flags } := by
  have hf2 : tvb_get_guint8 tvb (offset + 32 + 16) = some flags := hf
  unfold dissect_nano_bulk_pull_account_request
  simp (disch := omega) only [Dissect.run_bind, proto_tree_add_item_run,
    proto_tree_add_subtree, append_info_col, add_node_run, add_col_run, Dissect.run_ofOption,
    hf2, set_bulk_pull_account_request_flags_run, Dissect.run_pure, and_self]

/-- A header followed by anything, decoded with no continuation pending: the packet type is
recorded whatever the decoder of that type does next, and the decoders other than the Bulk
Pull Account request leave the rest of the session state alone. -/
theorem dissect_nano_headered_client_packet_type (tvb : tvbuff_t) (e : dissect_env)
    (t : guint8) (hp : does_prev_packet_expect_headerless_response e.session_state = 0)
    (h8 : 8 ≤ tvb.length) (ht : tvb_get_guint8 tvb 5 = some t)
    (hk : t.val ≠ NANO_PACKET_TYPE_BULK_PULL_ACCOUNT) :
    ((dissect_nano tvb).run e).2.session_state
      = { e.session_state with client_packet_type := (t.val : Nat) } := by
  obtain ⟨extensions, hext⟩ := tvb_get_letohs_isSome tvb 6 (by omega)
  obtain ⟨e1, hs, -, hrun⟩ := dissect_nano_run_headered tvb e t extensions hp h8 ht hext
  rw [hrun, ← hs, if_neg hk]
  refine Dissect.frames.session_state ?_ e1
  repeat (first
    | exact Dissect.frames_pure _
    | exact dissect_nano_telemetry_ack_frames _ _ _
    | exact dissect_nano_telemetry_req_frames
    | exact dissect_nano_node_id_handshake_frames _ _ _
    | exact dissect_nano_keepalive_frames _ _
    | exact dissect_nano_confirm_req_frames _ _ _
    | exact dissect_nano_confirm_ack_frames _ _ _
    | exact dissect_nano_publish_frames _ _ _
    | exact dissect_nano_frontier_req_frames _ _
    | exact dissect_nano_bulk_pull_request_frames _ _ _
    | exact append_info_col_frames _
    | (refine Dissect.frames_bind ?_ ?_; rotate_left; intro _)
    | refine Dissect.frames_ite ?_ ?_)

/-- A Bulk Pull Account request of 57 bytes, decoded with no continuation pending: the
packet type and the flags byte at offset 56 are recorded. -/
theorem dissect_nano_bulk_pull_account_request_state (tvb : tvbuff_t) (e : dissect_env)
    (t flags : guint8) (hp : does_prev_packet_expect_headerless_response e.session_state = 0)
    (h57 : 57 ≤ tvb.length) (ht : tvb_get_guint8 tvb 5 = some t)
    (hk : t.val = NANO_PACKET_TYPE_BULK_PULL_ACCOUNT)
    (hf : tvb_get_guint8 tvb 56 = some flags) :
    ((dissect_nano tvb).run e).1 = some 57
      ∧ ((dissect_nano tvb).run e).2.session_state
        = { e.session_state with
            client_packet_type := NANO_PACKET_TYPE_BULK_PULL_ACCOUNT
            bulk_pull_account_request_flags := flags } := by
  obtain ⟨extensions, hext⟩ := tvb_get_letohs_isSome tvb 6 (by omega)
  obtain ⟨e1, hs, -, hrun⟩ :=
    dissect_nano_run_headered tvb e t extensions hp (by omega) ht hext
  obtain ⟨h1, h2⟩ := dissect_nano_bulk_pull_account_request_run tvb 8 e1 flags (by omega) hf
  rw [hrun]
  simp +decide only [hk, reduceIte]
  rw [h1, h2, hs, hk]
  exact ⟨rfl, rfl⟩

/-- A buffer too short for a header, with no continuation pending: `dissect_nano` writes a
note to the info column and nothing else. -/
theorem dissect_nano_run_short_header (e : dissect_env) (tvb : tvbuff_t)
    (hp : does_prev_packet_expect_headerless_response e.session_state = 0)
    (h8 : tvb.length < 8) :
    ((dissect_nano tvb).run e).1 = some 0
      ∧ ((dissect_nano tvb).run e).2.session_state = e.session_state := by
  have hshort : tvb_reported_length tvb < NANO_HEADER_LENGTH := h8
  unfold dissect_nano
  simp only [col_set_str_protocol, Dissect.run_bind_add_col, Dissect.run_bind_add_node,
    Dissect.run_bind_get_session_state, hp, ne_eq, not_true_eq_false, if_false, hshort,
    if_true, append_info_col, Dissect.run_pure, and_self]

/-- With no continuation pending and fewer than 8 bytes left from `offset` on, the framer
returns 0. -/
theorem get_nano_message_len_short_header (st : nano_session_state) (tvb : tvbuff_t)
    (offset : Nat) (hp : does_prev_packet_expect_headerless_response st = 0)
    (ho : offset ≤ tvb.length) (h8 : tvb.length - offset < 8) (h32 : tvb.length < 2 ^ 32) :
    get_nano_message_len st tvb offset = some 0 := by
  obtain ⟨h6, h7, h8', h11⟩ := (does_prev_packet_expect_headerless_response_eq_zero _).mp hp
  have hsub : guint_sub (tvb_captured_length tvb) offset = tvb.length - offset :=
    guint_sub_eq _ _ ho (by unfold tvb_captured_length; omega)
  have hshort : tvb.length - offset < NANO_HEADER_LENGTH := h8
  unfold get_nano_message_len
  simp only [if_neg h6, if_neg h7, if_neg h8', if_neg h11, hsub, hshort, if_true]
  rfl

/-- The Bulk Pull Account request decoder never writes to `client_packet_type`, whether or
not it throws. -/
theorem dissect_nano_bulk_pull_account_request_preserves_type (tvb : tvbuff_t)
    (offset : Nat) (v : Int) :
    (dissect_nano_bulk_pull_account_request tvb offset).preserves
      (fun st => st.client_packet_type = v) := by
  unfold dissect_nano_bulk_pull_account_request
  repeat (first
    | exact Dissect.preserves_of_frames _ (Dissect.frames_pure _)
    | exact Dissect.preserves_of_frames _ (proto_tree_add_item_frames _ _ _ _)
    | exact Dissect.preserves_of_frames _ (proto_tree_add_subtree_frames _ _ _ _)
    | exact Dissect.preserves_of_frames _ (append_info_col_frames _)
    | exact Dissect.preserves_of_frames _ (Dissect.frames_ofOption _)
    | exact set_bulk_pull_account_request_flags_preserves _ _ (fun _ h => h)
    | (refine Dissect.preserves_bind ?_ ?_; rotate_left; intro _))

/-- A header decoded with no continuation pending: afterwards `client_packet_type` is the
packet-type byte, for every packet type and whatever follows the header. -/
theorem dissect_nano_headered_records_type (tvb : tvbuff_t) (e : dissect_env)
    (t : guint8) (hp : does_prev_packet_expect_headerless_response e.session_state = 0)
    (h8 : 8 ≤ tvb.length) (ht : tvb_get_guint8 tvb 5 = some t) :
    ((dissect_nano tvb).run e).2.session_state.client_packet_type = (t.val : Nat) := by
  by_cases hk : t.val = NANO_PACKET_TYPE_BULK_PULL_ACCOUNT
  · obtain ⟨extensions, hext⟩ := tvb_get_letohs_isSome tvb 6 (by omega)
    obtain ⟨e1, hs, -, hrun⟩ := dissect_nano_run_headered tvb e t extensions hp h8 ht hext
    rw [hrun]
    simp +decide only [hk, reduceIte]
    refine (dissect_nano_bulk_pull_account_request_preserves_type tvb 8 _).inv e1 ?_
    rw [hs, hk]
  · rw [dissect_nano_headered_client_packet_type tvb e t hp h8 ht hk]

/-- Among the packet types without a decoder, only Bulk Push is one of the four requests
that open a continuation. -/
theorem pending_of_type_without_decoder (n : Nat)
    (hk : n = NANO_PACKET_TYPE_INVALID ∨ n = NANO_PACKET_TYPE_NOT_A_TYPE
      ∨ n = NANO_PACKET_TYPE_BULK_PUSH ∨ n = NANO_PACKET_TYPE_BULK_PULL_BLOCKS
      ∨ n = NANO_PACKET_TYPE_ASC_PULL_REQ ∨ n = NANO_PACKET_TYPE_ASC_PULL_ACK ∨ 16 ≤ n) :
    ((n : Int) = NANO_PACKET_TYPE_BULK_PULL ∨ (n : Int) = NANO_PACKET_TYPE_BULK_PUSH
        ∨ (n : Int) = NANO_PACKET_TYPE_FRONTIER_REQ
        ∨ (n : Int) = NANO_PACKET_TYPE_BULK_PULL_ACCOUNT)
      ↔ n = NANO_PACKET_TYPE_BULK_PUSH := by
  unfold NANO_PACKET_TYPE_INVALID NANO_PACKET_TYPE_NOT_A_TYPE NANO_PACKET_TYPE_BULK_PUSH
    NANO_PACKET_TYPE_BULK_PULL_BLOCKS NANO_PACKET_TYPE_ASC_PULL_REQ
    NANO_PACKET_TYPE_ASC_PULL_ACK at hk
  unfold NANO_PACKET_TYPE_BULK_PULL NANO_PACKET_TYPE_BULK_PUSH
    NANO_PACKET_TYPE_FRONTIER_REQ NANO_PACKET_TYPE_BULK_PULL_ACCOUNT
  omega

/-! ## Peer entries of a Keepalive -/

/-- The appended texts of two trees put together. -/
theorem tree_appended_texts_append (t1 t2 : List proto_node) :
    tree_appended_texts (t1 ++ t2) = tree_appended_texts t1 ++ tree_appended_texts t2 := by
  unfold tree_appended_texts
  exact List.filterMap_append _ _ _

/-- The peer loop of the Keepalive decoder on a buffer that holds `count` entries: it
consumes 18 bytes per entry and appends one text per entry, that of the address and port
bytes of the entry. -/
theorem dissect_nano_keepalive_peers_run (tvb : tvbuff_t) (count : Nat) :
    ∀ (offset : Nat) (e : dissect_env), offset + 18 * count ≤ tvb.length →
      ((dissect_nano_keepalive_peers tvb count offset).run e).1 = some (offset + 18 * count)
        ∧ tree_appended_texts ((dissect_nano_keepalive_peers tvb count offset).run e).2.tree
          = tree_appended_texts e.tree
            ++ (List.range count).map fun i =>
              keepalive_peer_text ((tvb.drop (offset + 18 * i)).take 16)
                (letoh ((tvb.drop (offset + 18 * i + 16)).take 2)) := by
  induction count with
  | zero =>
    intro offset e _
    simp [dissect_nano_keepalive_peers]
  | succ n ih =>
    intro offset e h
    have h16 : offset + 16 ≤ tvb.length := by omega
    have h18 : offset + 16 + 2 ≤ tvb.length := by omega
    simp only [dissect_nano_keepalive_peers, Dissect.run_bind, proto_tree_add_subtree,
      add_node_run, Dissect.run_ofOption, tvb_get_bytes_eq_some _ _ _ h16,
      proto_tree_add_item_run _ _ _ _ _ h16, proto_tree_add_item_ret_uint_run _ _ _ _ _ h18,
      proto_item_append_text]
    obtain ⟨h1, h2⟩ := ih (offset + 16 + 2)
      { e with tree := e.tree ++ [.subtree "Peer" offset (min (16 + 2) (tvb.length - offset))]
          ++ [.item .keepalive_peer_ip offset 16]
          ++ [.uint .keepalive_peer_port (offset + 16) 2
            (letoh ((tvb.drop (offset + 16)).take 2))]
          ++ [.append_text (keepalive_peer_text ((tvb.drop offset).take 16)
            (letoh ((tvb.drop (offset + 16)).take 2)))] }
      (by omega)
    refine ⟨?_, ?_⟩
    · rw [h1]
      congr 1
      omega
    · have hpre : tree_appended_texts
          (e.tree ++ [.subtree "Peer" offset (min (16 + 2) (tvb.length - offset))]
            ++ [.item .keepalive_peer_ip offset 16]
            ++ [.uint .keepalive_peer_port (offset + 16) 2
              (letoh ((tvb.drop (offset + 16)).take 2))]
            ++ [.append_text (keepalive_peer_text ((tvb.drop offset).take 16)
              (letoh ((tvb.drop (offset + 16)).take 2)))])
          = tree_appended_texts e.tree
            ++ [keepalive_peer_text ((tvb.drop offset).take 16)
              (letoh ((tvb.drop (offset + 16)).take 2))] := by
        simp only [tree_appended_texts, List.filterMap_append, List.filterMap_cons,
          List.filterMap_nil, proto_node.appended_text, List.append_nil]
      have hmap : (List.range n).map (fun i =>
            keepalive_peer_text ((tvb.drop (offset + 16 + 2 + 18 * i)).take 16)
              (letoh ((tvb.drop (offset + 16 + 2 + 18 * i + 16)).take 2)))
          = (List.range n).map ((fun i =>
            keepalive_peer_text ((tvb.drop (offset + 18 * i)).take 16)
              (letoh ((tvb.drop (offset + 18 * i + 16)).take 2))) ∘ Nat.succ) := by
        apply List.map_congr_left
        intro i _
        have e1 : offset + 16 + 2 + 18 * i = offset + 18 * (i + 1) := by omega
        have e2 : offset + 16 + 2 + 18 * i + 16 = offset + 18 * (i + 1) + 16 := by omega
        simp only [Function.comp_apply, Nat.succ_eq_add_one, e1, e2]
      rw [h2, hpre, hmap, List.range_succ_eq_map, List.map_cons, List.map_map,
        List.append_assoc]
      rfl

/-- The Keepalive decoder on a buffer that holds the eight entries. -/
theorem dissect_nano_keepalive_run (tvb : tvbuff_t) (offset : Nat) (e : dissect_env)
    (h : offset + 144 ≤ tvb.length) :
    ((dissect_nano_keepalive tvb offset).run e).1 = some (offset + 144)
      ∧ tree_appended_texts ((dissect_nano_keepalive tvb offset).run e).2.tree
        = tree_appended_texts e.tree
          ++ (List.range 8).map fun i =>
            keepalive_peer_text ((tvb.drop (offset + 18 * i)).take 16)
              (letoh ((tvb.drop (offset + 18 * i + 16)).take 2)) := by
  unfold dissect_nano_keepalive
  simp only [proto_tree_add_subtree, Dissect.run_bind_add_node]
  obtain ⟨h1, h2⟩ := dissect_nano_keepalive_peers_run tvb 8 offset
    { e with tree := e.tree
        ++ [.subtree "Peer List" offset (min (8 * (16 + 2)) (tvb.length - offset))] }
    (by omega)
  rw [Dissect.run_bind_of_returns h1]
  simp only [append_info_col, Dissect.run_bind_add_col, Dissect.run_pure, true_and]
  rw [h2]
  simp only [tree_appended_texts, List.filterMap_append, List.filterMap_cons,
    List.filterMap_nil, proto_node.appended_text, List.append_nil]

/-- The three cases of `keepalive_peer_text` on a 16-byte address. -/
theorem keepalive_peer_text_cases (ip_addr : List guint8) (port : Nat)
    (h16 : ip_addr.length = 16) :
    ((∀ b ∈ ip_addr, b = 0) → keepalive_peer_text ip_addr port = .none)
      ∧ ((∀ b ∈ ip_addr.take 10, b = 0) → (ip_addr.drop 10).take 2 = [0xff, 0xff] →
          keepalive_peer_text ip_addr port = .ipv4 (ip_addr.drop 12) port)
      ∧ (¬ (∀ b ∈ ip_addr, b = 0) →
          ¬ ((∀ b ∈ ip_addr.take 10, b = 0) ∧ (ip_addr.drop 10).take 2 = [0xff, 0xff]) →
          keepalive_peer_text ip_addr port = .ipv6 ip_addr port) := by
  have hz : ip_addr = [0, 0, 0, 0, 0, 0, 0, 0, 0, 0, 0, 0, 0, 0, 0, 0]
      ↔ ∀ b ∈ ip_addr, b = 0 := by
    rw [show ([0, 0, 0, 0, 0, 0, 0, 0, 0, 0, 0, 0, 0, 0, 0, 0] : List guint8)
      = List.replicate 16 0 from rfl, List.eq_replicate_iff]
    simp [h16]
  have h12 : ip_addr.take 12 = [0, 0, 0, 0, 0, 0, 0, 0, 0, 0, 0xff, 0xff]
      ↔ (∀ b ∈ ip_addr.take 10, b = 0) ∧ (ip_addr.drop 10).take 2 = [0xff, 0xff] := by
    have hsplit : ip_addr.take 12 = ip_addr.take 10 ++ (ip_addr.drop 10).take 2 :=
      List.take_add ip_addr 10 2
    have h10 : (ip_addr.take 10).length = 10 := by
      rw [List.length_take, h16]
      rfl
    rw [hsplit, show ([0, 0, 0, 0, 0, 0, 0, 0, 0, 0, 0xff, 0xff] : List guint8)
      = List.replicate 10 0 ++ [0xff, 0xff] from rfl]
    constructor
    · intro h
      obtain ⟨ha, hb⟩ := List.append_inj h (by rw [h10]; rfl)
      exact ⟨(List.eq_replicate_iff.mp ha).2, hb⟩
    · rintro ⟨ha, hb⟩
      rw [hb, List.eq_replicate_iff.mpr ⟨h10, ha⟩]
  unfold keepalive_peer_text
  refine ⟨?_, ?_, ?_⟩
  · intro h
    rw [if_pos (hz.mpr h)]
  · intro ha hb
    have hne : ip_addr ≠ [0, 0, 0, 0, 0, 0, 0, 0, 0, 0, 0, 0, 0, 0, 0, 0] := by
      intro hzero
      rw [hzero] at hb
      revert hb
      decide
    rw [if_neg hne, if_pos (h12.mpr ⟨ha, hb⟩)]
  · intro hn1 hn2
    rw [if_neg (mt hz.mp hn1), if_neg (mt h12.mp hn2)]

/-! ## The Asc Pull decoders -/

/-- The Asc Pull Req decoder on a buffer that holds the pull-type, the id and the payload of
its pull-type: the offset it returns is the one behind the id, for every pull-type. -/
theorem dissect_nano_asc_pull_req_returns (tvb : tvbuff_t) (offset : Nat) (e : dissect_env)
    (t : guint8) (ht : tvb_get_guint8 tvb offset = some t)
    (hfit : offset + 9 + (if t.val = 1 then 33 else if t.val = 2 then 32 else 0)
      ≤ tvb.length) :
    ((dissect_nano_asc_pull_req tvb offset).run e).1 = some (offset + 9) := by
  have ht2 : tvb_get_guint8 tvb (offset + 1 + 8 - 9) = some t := by
    rw [show offset + 1 + 8 - 9 = offset by omega]
    exact ht
  unfold dissect_nano_asc_pull_req
  by_cases h1 : t.val = 1
  · rw [if_pos h1] at hfit
    simp (disch := omega) only [Dissect.run_bind, proto_tree_add_item_run,
      Dissect.run_ofOption, ht2, h1, if_true, Dissect.run_pure]
  · by_cases h2 : t.val = 2
    · rw [if_neg h1, if_pos h2] at hfit
      simp +decide (disch := omega) only [Dissect.run_bind, proto_tree_add_item_run,
        Dissect.run_ofOption, ht2, h2, reduceIte, Dissect.run_pure]
    · simp (disch := omega) only [Dissect.run_bind, proto_tree_add_item_run,
        Dissect.run_ofOption, ht2, h1, h2, if_false, Dissect.run_pure]

/-- One iteration of the block loop of an Asc Pull Ack. -/
theorem dissect_nano_asc_pull_ack_blocks_payload_loop_succ (tvb : tvbuff_t)
    (fuel offset : Nat) :
    dissect_nano_asc_pull_ack_blocks_payload_loop tvb (fuel + 1) offset
      = (do
        if (← Dissect.ofOption (tvb_get_guint8 tvb offset)).val ≠ 1 then
          let block_type : Int :=
            ((← Dissect.ofOption (tvb_get_guint8 tvb offset)).val : Nat)
          if block_type = NANO_BLOCK_TYPE_SEND then do
            let _ ← dissect_nano_send_block tvb offset
            dissect_nano_asc_pull_ack_blocks_payload_loop tvb fuel
              (offset + NANO_BLOCK_SIZE_SEND)
          else if block_type = NANO_BLOCK_TYPE_RECEIVE then do
            let _ ← dissect_nano_receive_block tvb offset
            dissect_nano_asc_pull_ack_blocks_payload_loop tvb fuel
              (offset + NANO_BLOCK_SIZE_RECEIVE)
          else if block_type = NANO_BLOCK_TYPE_OPEN then do
            let _ ← dissect_nano_open_block tvb offset
            dissect_nano_asc_pull_ack_blocks_payload_loop tvb fuel
              (offset + NANO_BLOCK_SIZE_OPEN)
          else if block_type = NANO_BLOCK_TYPE_CHANGE then do
            let _ ← dissect_nano_change_block tvb offset
            dissect_nano_asc_pull_ack_blocks_payload_loop tvb fuel
              (offset + NANO_BLOCK_SIZE_CHANGE)
          else if block_type = NANO_BLOCK_TYPE_STATE then do
            let _ ← dissect_nano_state tvb offset
            dissect_nano_asc_pull_ack_blocks_payload_loop tvb fuel
              (offset + NANO_BLOCK_SIZE_STATE)
          else
            pure ()
        else
          pure ()) := rfl

/-- The little-endian 16-bit read in terms of its two bytes. -/
theorem tvb_get_letohs_eq (tvb : tvbuff_t) (offset : Nat) (lo hi : guint8)
    (hlo : tvb_get_guint8 tvb offset = some lo)
    (hhi : tvb_get_guint8 tvb (offset + 1) = some hi) :
    tvb_get_letohs tvb offset = some (lo.val + 256 * hi.val) := by
  have hlt := tvb_get_guint8_lt tvb (offset + 1) hi hhi
  have h1 := take_one_drop_of_getElem? tvb offset lo hlo
  have h2 := take_one_drop_of_getElem? tvb (offset + 1) hi hhi
  unfold tvb_get_letohs
  rw [tvb_get_bytes_eq_some _ _ _ (by omega), List.take_add (tvb.drop offset) 1 1, h1,
    List.drop_drop, h2]
  simp [letoh]

/-- The header decoder at any offset of a buffer that holds the 8 header bytes. -/
theorem dissect_nano_header_returns_at (tvb : tvbuff_t) (offset : Nat) (e : dissect_env)
    (t : guint8) (extensions : Nat) (h8 : offset + 8 ≤ tvb.length)
    (ht : tvb_get_guint8 tvb (offset + 5) = some t)
    (hext : tvb_get_letohs tvb (offset + 6) = some extensions) :
    (dissect_nano_header tvb offset).returns e (offset + 8, t.val, extensions) := by
  have hs : ∃ s, tvb_get_string_enc tvb offset 2 = some s := by
    unfold tvb_get_string_enc
    rw [tvb_get_bytes_eq_some _ _ _ (by omega)]
    exact ⟨_, rfl⟩
  obtain ⟨s, hs⟩ := hs
  have ht1 : letoh ((tvb.drop (offset + 2 + 1 + 1 + 1)).take 1) = t.val := by
    rw [take_one_drop_of_getElem? tvb (offset + 2 + 1 + 1 + 1) t ht]
    simp [letoh]
  have hext1 : tvb_get_letohs tvb (offset + 2 + 1 + 1 + 1 + 1) = some extensions := hext
  unfold dissect_nano_header
  simp only [proto_tree_add_subtree, proto_tree_add_string, hs]
  refine Dissect.returns_bind (a := s) rfl ?_
  refine Dissect.returns_bind (a := ()) rfl ?_
  refine Dissect.returns_bind (a := ()) rfl ?_
  refine Dissect.returns_bind (a := ())
    (by rw [Dissect.returns, proto_tree_add_item_run _ _ _ _ _ (by omega)]) ?_
  refine Dissect.returns_bind (a := ())
    (by rw [Dissect.returns, proto_tree_add_item_run _ _ _ _ _ (by omega)]) ?_
  refine Dissect.returns_bind (a := ())
    (by rw [Dissect.returns, proto_tree_add_item_run _ _ _ _ _ (by omega)]) ?_
  refine Dissect.returns_bind (a := t.val)
    (by rw [Dissect.returns, proto_tree_add_item_ret_uint_run _ _ _ _ _ (by omega), ht1]) ?_
  refine Dissect.returns_bind (dissect_nano_extensions_returns tvb _ _ _ extensions hext1) ?_
  rfl

/-- Shifting right after masking is masking the shifted value with the shifted mask. -/
theorem and_shiftRight (a b i : Nat) : (a &&& b) >>> i = a >>> i &&& b >>> i := by
  apply Nat.eq_of_testBit_eq
  intro j
  simp only [Nat.testBit_shiftRight, Nat.testBit_and]

/-- The nibbles and the low bits of a 16-bit value in terms of its two bytes. -/
theorem extensions_bits (lo hi : Nat) (hlo : lo < 256) (hhi : hi < 256) :
    ((lo + 256 * hi) &&& 0x0f00) >>> 8 = hi % 16
      ∧ ((lo + 256 * hi) &&& 0xf000) >>> 12 = hi / 16
      ∧ ((lo + 256 * hi) &&& 0x0001 ≠ 0 ↔ lo.testBit 0 = true)
      ∧ ((lo + 256 * hi) &&& 0x0002 ≠ 0 ↔ lo.testBit 1 = true) := by
  refine ⟨?_, ?_, ?_, ?_⟩
  · rw [and_shiftRight, Nat.shiftRight_eq_div_pow, Nat.shiftRight_eq_div_pow,
      show 0x0f00 / 2 ^ 8 = 2 ^ 4 - 1 from rfl, Nat.and_pow_two_sub_one_eq_mod]
    omega
  · rw [and_shiftRight, Nat.shiftRight_eq_div_pow, Nat.shiftRight_eq_div_pow,
      show 0xf000 / 2 ^ 12 = 2 ^ 4 - 1 from rfl, Nat.and_pow_two_sub_one_eq_mod]
    omega
  · rw [show (0x0001 : Nat) = 2 ^ 0 from rfl, and_two_pow_ne_zero, Nat.testBit_zero,
      Nat.testBit_zero]
    simp only [decide_eq_true_eq]
    omega
  · rw [show (0x0002 : Nat) = 2 ^ 1 from rfl, and_two_pow_ne_zero,
      show (1 : Nat) = Nat.succ 0 from rfl, Nat.testBit_succ, Nat.testBit_succ,
      Nat.testBit_zero, Nat.testBit_zero]
    simp only [decide_eq_true_eq]
    omega

/-! ## Writes of the decoders to the session state -/

/-- A Bulk Pull Response that is not the end marker leaves the session state as it was,
whether or not the block is recognised or complete. -/
theorem dissect_nano_headerless_bulk_pull_response_state (tvb : tvbuff_t) (e : dissect_env)
    (b : guint8) (hb : tvb_get_guint8 tvb 0 = some b)
    (hne : ((b.val : Nat) : Int) ≠ NANO_BLOCK_TYPE_NOT_A_BLOCK) :
    ((dissect_nano_headerless_bulk_pull_response tvb).run e).2.session_state
      = e.session_state := by
  have hlen := tvb_get_guint8_lt tvb 0 b hb
  unfold dissect_nano_headerless_bulk_pull_response
  simp (disch := omega) only [proto_tree_add_subtree, append_info_col, col_append_str, hb,
    if_neg hne, Dissect.run_bind, Dissect.run_ofOption, proto_tree_add_item_run, add_col_run,
    add_node_run, Dissect.run_pure]
  rcases hx : Dissect.run (dissect_nano_block _ tvb (0 + 1)) _ with ⟨o, e3⟩
  have h3 : e3.session_state = e.session_state := by
    have h := congrArg (fun p => p.2.session_state) hx
    simp only at h
    rw [← h]
    exact (dissect_nano_block_frames _ _ _).session_state _
  cases o <;> exact h3

/-- Bulk Push Data that is not the end marker leaves the session state as it was, whether
or not the block is recognised or complete. -/
theorem dissect_nano_headerless_bulk_push_body_state (tvb : tvbuff_t) (e : dissect_env)
    (b : guint8) (hb : tvb_get_guint8 tvb 0 = some b)
    (hne : ((b.val : Nat) : Int) ≠ NANO_BLOCK_TYPE_NOT_A_BLOCK) :
    ((dissect_nano_headerless_bulk_push_body tvb).run e).2.session_state
      = e.session_state := by
  have hlen := tvb_get_guint8_lt tvb 0 b hb
  unfold dissect_nano_headerless_bulk_push_body
  simp (disch := omega) only [proto_tree_add_subtree, append_info_col, col_append_str, hb,
    if_neg hne, Dissect.run_bind, Dissect.run_ofOption, proto_tree_add_item_run, add_col_run,
    add_node_run, Dissect.run_pure]
  rcases hx : Dissect.run (dissect_nano_block _ tvb (0 + 1)) _ with ⟨o, e3⟩
  have h3 : e3.session_state = e.session_state := by
    have h := congrArg (fun p => p.2.session_state) hx
    simp only at h
    rw [← h]
    exact (dissect_nano_block_frames _ _ _).session_state _
  cases o <;> exact h3

/-- The headerless decoders write to `client_packet_type` only: they keep every property of
the session state that does not depend on it. -/
theorem dissect_headerless_packet_preserves (tvb : tvbuff_t)
    (I : nano_session_state → Prop)
    (hc : ∀ s v, I s → I { s with client_packet_type := v }) :
    (dissect_nano_headerless_frontier_response tvb).preserves I
      ∧ (dissect_nano_headerless_bulk_pull_response tvb).preserves I
      ∧ (dissect_nano_headerless_bulk_push_body tvb).preserves I
      ∧ (dissect_nano_headerless_bulk_pull_account_response tvb).preserves I
      ∧ (dissect_headerless_packet tvb).preserves I := by
  have h1 : (dissect_nano_headerless_frontier_response tvb).preserves I := by
    unfold dissect_nano_headerless_frontier_response
    repeat (first
      | exact Dissect.preserves_of_frames _ (Dissect.frames_pure _)
      | exact Dissect.preserves_of_frames _ (proto_tree_add_item_frames _ _ _ _)
      | exact Dissect.preserves_of_frames _ (proto_tree_add_subtree_frames _ _ _ _)
      | exact Dissect.preserves_of_frames _ (append_info_col_frames _)
      | exact Dissect.preserves_of_frames _ (Dissect.frames_ofOption _)
      | exact set_client_packet_type_preserves _ _ (fun s => hc s _)
      | (refine Dissect.preserves_bind ?_ ?_; rotate_left; intro _)
      | refine Dissect.preserves_ite ?_ ?_)
  have h2 : (dissect_nano_headerless_bulk_pull_response tvb).preserves I := by
    unfold dissect_nano_headerless_bulk_pull_response
    repeat (first
      | exact Dissect.preserves_of_frames _ (Dissect.frames_pure _)
      | exact Dissect.preserves_of_frames _ (proto_tree_add_item_frames _ _ _ _)
      | exact Dissect.preserves_of_frames _ (proto_tree_add_subtree_frames _ _ _ _)
      | exact Dissect.preserves_of_frames _ (append_info_col_frames _)
      | exact Dissect.preserves_of_frames _ (col_append_str_frames _)
      | exact Dissect.preserves_of_frames _ (Dissect.frames_ofOption _)
      | exact Dissect.preserves_of_frames _ (dissect_nano_block_frames _ _ _)
      | exact set_client_packet_type_preserves _ _ (fun s => hc s _)
      | (refine Dissect.preserves_bind ?_ ?_; rotate_left; intro _)
      | refine Dissect.preserves_ite ?_ ?_)
  have h3 : (dissect_nano_headerless_bulk_push_body tvb).preserves I := by
    unfold dissect_nano_headerless_bulk_push_body
    repeat (first
      | exact Dissect.preserves_of_frames _ (Dissect.frames_pure _)
      | exact Dissect.preserves_of_frames _ (proto_tree_add_item_frames _ _ _ _)
      | exact Dissect.preserves_of_frames _ (proto_tree_add_subtree_frames _ _ _ _)
      | exact Dissect.preserves_of_frames _ (append_info_col_frames _)
      | exact Dissect.preserves_of_frames _ (col_append_str_frames _)
      | exact Dissect.preserves_of_frames _ (Dissect.frames_ofOption _)
      | exact Dissect.preserves_of_frames _ (dissect_nano_block_frames _ _ _)
      | exact set_client_packet_type_preserves _ _ (fun s => hc s _)
      | (refine Dissect.preserves_bind ?_ ?_; rotate_left; intro _)
      | refine Dissect.preserves_ite ?_ ?_)
  have h4 : (dissect_nano_headerless_bulk_pull_account_response tvb).preserves I := by
    unfold dissect_nano_headerless_bulk_pull_account_response
    repeat (first
      | exact Dissect.preserves_of_frames _ (Dissect.frames_pure _)
      | exact Dissect.preserves_of_frames _ (proto_tree_add_item_frames _ _ _ _)
      | exact Dissect.preserves_of_frames _ (proto_tree_add_subtree_frames _ _ _ _)
      | exact Dissect.preserves_of_frames _ (append_info_col_frames _)
      | exact Dissect.preserves_of_frames _ (Dissect.frames_ofOption _)
      | exact Dissect.preserves_of_frames _ get_session_state_frames
      | exact set_client_packet_type_preserves _ _ (fun s => hc s _)
      | (refine Dissect.preserves_bind ?_ ?_; rotate_left; intro _)
      | refine Dissect.preserves_ite ?_ ?_)
  refine ⟨h1, h2, h3, h4, ?_⟩
  unfold dissect_headerless_packet dissect_headerless_packet_client
    dissect_headerless_packet_server
  repeat (first
    | exact Dissect.preserves_of_frames _ (Dissect.frames_pure _)
    | exact Dissect.preserves_of_frames _ (append_info_col_frames _)
    | exact Dissect.preserves_of_frames _ get_session_state_frames
    | exact Dissect.preserves_of_frames _ get_destport_frames
    | exact h1
    | exact h2
    | exact h3
    | exact h4
    | (refine Dissect.preserves_bind ?_ ?_; rotate_left; intro _)
    | refine Dissect.preserves_ite ?_ ?_)

/-- With a continuation pending `dissect_nano` keeps every property of the session state
that does not depend on `client_packet_type`. -/
theorem dissect_nano_headerless_preserves (tvb : tvbuff_t) (e : dissect_env)
    (I : nano_session_state → Prop)
    (hc : ∀ s v, I s → I { s with client_packet_type := v })
    (hp : does_prev_packet_expect_headerless_response e.session_state ≠ 0)
    (hI : I e.session_state) : I ((dissect_nano tvb).run e).2.session_state := by
  obtain ⟨e1, hs, -, hrun⟩ := dissect_nano_run_headerless tvb e hp
  rw [hrun]
  exact (dissect_headerless_packet_preserves tvb I hc).2.2.2.2.inv e1 (by rw [hs]; exact hI)

/-- The Bulk Pull Account request decoder writes to `bulk_pull_account_request_flags` only:
it keeps every property of the session state that does not depend on it. -/
theorem dissect_nano_bulk_pull_account_request_preserves (tvb : tvbuff_t) (offset : Nat)
    (I : nano_session_state → Prop)
    (hf : ∀ s v, I s → I { s with bulk_pull_account_request_flags := v }) :
    (dissect_nano_bulk_pull_account_request tvb offset).preserves I := by
  unfold dissect_nano_bulk_pull_account_request
  repeat (first
    | exact Dissect.preserves_of_frames _ (Dissect.frames_pure _)
    | exact Dissect.preserves_of_frames _ (proto_tree_add_item_frames _ _ _ _)
    | exact Dissect.preserves_of_frames _ (proto_tree_add_subtree_frames _ _ _ _)
    | exact Dissect.preserves_of_frames _ (append_info_col_frames _)
    | exact Dissect.preserves_of_frames _ (Dissect.frames_ofOption _)
    | exact set_bulk_pull_account_request_flags_preserves _ _ (fun s => hf s _)
    | (refine Dissect.preserves_bind ?_ ?_; rotate_left; intro _))

/-- No call of `dissect_nano` changes `server_port`. -/
theorem dissect_nano_server_port (tvb : tvbuff_t) (e : dissect_env) :
    ((dissect_nano tvb).run e).2.session_state.server_port = e.session_state.server_port := by
  by_cases hp : does_prev_packet_expect_headerless_response e.session_state = 0
  · by_cases h8 : 8 ≤ tvb.length
    · obtain ⟨t, ht⟩ := tvb_get_guint8_isSome tvb 5 (by omega)
      by_cases hk : t.val = NANO_PACKET_TYPE_BULK_PULL_ACCOUNT
      · obtain ⟨extensions, hext⟩ := tvb_get_letohs_isSome tvb 6 (by omega)
        obtain ⟨e1, hs, -, hrun⟩ :=
          dissect_nano_run_headered tvb e t extensions hp h8 ht hext
        rw [hrun]
        simp +decide only [hk, reduceIte]
        exact (dissect_nano_bulk_pull_account_request_preserves tvb 8
          (fun s => s.server_port = e.session_state.server_port) (fun _ _ h => h)).inv e1
          (by rw [hs])
      · rw [dissect_nano_headered_client_packet_type tvb e t hp h8 ht hk]
    · rw [(dissect_nano_run_short_header e tvb hp (by omega)).2]
  · exact dissect_nano_headerless_preserves tvb e
      (fun s => s.server_port = e.session_state.server_port) (fun _ _ h => h) hp rfl

/-- A call of `dissect_nano` that changes `bulk_pull_account_request_flags` decodes a
header of type Bulk Pull Account with no continuation pending. -/
theorem dissect_nano_flags_changed (tvb : tvbuff_t) (e : dissect_env)
    (hch : ((dissect_nano tvb).run e).2.session_state.bulk_pull_account_request_flags
      ≠ e.session_state.bulk_pull_account_request_flags) :
    does_prev_packet_expect_headerless_response e.session_state = 0
      ∧ ∃ t : guint8, tvb_get_guint8 tvb 5 = some t
        ∧ t.val = NANO_PACKET_TYPE_BULK_PULL_ACCOUNT := by
  by_cases hp : does_prev_packet_expect_headerless_response e.session_state = 0
  · refine ⟨hp, ?_⟩
    by_cases h8 : 8 ≤ tvb.length
    · obtain ⟨t, ht⟩ := tvb_get_guint8_isSome tvb 5 (by omega)
      refine ⟨t, ht, ?_⟩
      by_contra hk
      rw [dissect_nano_headered_client_packet_type tvb e t hp h8 ht hk] at hch
      exact hch rfl
    · rw [(dissect_nano_run_short_header e tvb hp (by omega)).2] at hch
      exact absurd rfl hch
  · exact absurd (dissect_nano_headerless_preserves tvb e
      (fun s => s.bulk_pull_account_request_flags
        = e.session_state.bulk_pull_account_request_flags) (fun _ _ h => h) hp rfl) hch

theorem nano_session_state_eq_with (s s0 : nano_session_state)
    (hf : s.bulk_pull_account_request_flags = s0.bulk_pull_account_request_flags)
    (hp : s.server_port = s0.server_port) :
    s = { s0 with client_packet_type := s.client_packet_type } := by
  cases s
  cases s0
  simp only at hf hp
  simp only [hf, hp]

/-- A computation that writes to `client_packet_type` only leaves a state that differs from
the one it started in at most in that field. -/
theorem Dissect.preserves_eq_with {α : Type} (x : Dissect α)
    (h : ∀ I : nano_session_state → Prop,
      (∀ s v, I s → I { s with client_packet_type := v }) → x.preserves I)
    (e : dissect_env) :
    (x.run e).2.session_state
      = { e.session_state with
          client_packet_type := (x.run e).2.session_state.client_packet_type } := by
  have h1 := (h (fun s => s.bulk_pull_account_request_flags
      = e.session_state.bulk_pull_account_request_flags
    ∧ s.server_port = e.session_state.server_port) (fun _ _ hI => hI)).inv e ⟨rfl, rfl⟩
  exact nano_session_state_eq_with _ _ h1.1 h1.2

/-! ## Lengths the framer returns for continuation messages -/

theorem get_block_type_size_le (block_type : Int) :
    get_block_type_size block_type ≤ NANO_BLOCK_SIZE_STATE := by
  unfold get_block_type_size
  split_ifs <;> decide

theorem does_prev_packet_expect_headerless_response_cases (st : nano_session_state) :
    does_prev_packet_expect_headerless_response st = 0
      ∨ does_prev_packet_expect_headerless_response st = 1 := by
  unfold does_prev_packet_expect_headerless_response
  split_ifs
  · exact Or.inr rfl
  · exact Or.inl rfl

/-- With a continuation pending the framer sizes the message from the pending request, the
flags of a Bulk Pull Account request and the byte at `offset`. -/
theorem get_nano_message_len_continuation (st : nano_session_state) (tvb : tvbuff_t)
    (offset : Nat) (hp : does_prev_packet_expect_headerless_response st ≠ 0) :
    get_nano_message_len st tvb offset =
      if st.client_packet_type = NANO_PACKET_TYPE_FRONTIER_REQ then some 64
      else if st.client_packet_type = NANO_PACKET_TYPE_BULK_PULL_ACCOUNT then
        some (if st.bulk_pull_account_request_flags = 0x01 then 80
          else if st.bulk_pull_account_request_flags = 0x02 then 128 else 96)
      else (tvb_get_guint8 tvb offset).map fun b =>
        if ((b.val : Nat) : Int) = NANO_BLOCK_TYPE_NOT_A_BLOCK then 1
        else if st.client_packet_type = NANO_PACKET_TYPE_BULK_PUSH
            ∧ get_block_type_size ((b.val : Nat) : Int) = 0 then
          guint_sub (tvb_captured_length tvb) offset
        else 1 + get_block_type_size ((b.val : Nat) : Int) := by
  rcases (does_prev_packet_expect_headerless_response_ne_zero st).mp hp with h | h | h | h
  · rw [get_nano_message_len_bulk_pull st tvb offset h]
    simp +decide only [h, reduceIte, false_and]
  · rw [get_nano_message_len_bulk_push st tvb offset h]
    simp +decide only [h, reduceIte, true_and]
  · rw [get_nano_message_len_frontier_req st tvb offset h]
    simp +decide only [h, reduceIte]
  · rw [get_nano_message_len_bulk_pull_account st tvb offset h]
    simp +decide only [h, reduceIte]

/-- With no continuation pending the framer does what it does for a new conversation: the
session state has no part in the result. -/
theorem get_nano_message_len_no_continuation (st : nano_session_state) (tvb : tvbuff_t)
    (offset : Nat) (hp : does_prev_packet_expect_headerless_response st = 0) :
    get_nano_message_len st tvb offset
      = get_nano_message_len (new_session_state st.server_port) tvb offset := by
  obtain ⟨h6, h7, h8, h11⟩ := (does_prev_packet_expect_headerless_response_eq_zero st).mp hp
  unfold get_nano_message_len
  simp +decide only [if_neg h6, if_neg h7, if_neg h8, if_neg h11, new_session_state,
    reduceIte]

/-- The framer reads the session state through `client_packet_type` and
`bulk_pull_account_request_flags` only. -/
theorem get_nano_message_len_congr (st1 st2 : nano_session_state) (tvb : tvbuff_t)
    (offset : Nat) (hc : st1.client_packet_type = st2.client_packet_type)
    (hf : st1.bulk_pull_account_request_flags = st2.bulk_pull_account_request_flags) :
    get_nano_message_len st1 tvb offset = get_nano_message_len st2 tvb offset := by
  unfold get_nano_message_len
  rw [hc, hf]

/-- With a continuation pending and a byte at `offset` the framer returns a length between
1 and 217, or the number of bytes left for Bulk Push Data of an unrecognised type. -/
theorem get_nano_message_len_continuation_bounds (st : nano_session_state) (tvb : tvbuff_t)
    (offset : Nat) (b : guint8)
    (hp : does_prev_packet_expect_headerless_response st ≠ 0)
    (hb : tvb_get_guint8 tvb offset = some b) (h32 : tvb.length < 2 ^ 32) :
    ∃ n, get_nano_message_len st tvb offset = some n ∧ 1 ≤ n
      ∧ ((st.client_packet_type = NANO_PACKET_TYPE_BULK_PUSH
            ∧ ((b.val : Nat) : Int) ≠ NANO_BLOCK_TYPE_NOT_A_BLOCK
            ∧ ¬ is_block_type ((b.val : Nat) : Int)) → n = tvb.length - offset)
      ∧ (¬ (st.client_packet_type = NANO_PACKET_TYPE_BULK_PUSH
            ∧ ((b.val : Nat) : Int) ≠ NANO_BLOCK_TYPE_NOT_A_BLOCK
            ∧ ¬ is_block_type ((b.val : Nat) : Int)) → n ≤ 1 + NANO_BLOCK_SIZE_STATE) := by
  have hlt := tvb_get_guint8_lt tvb offset b hb
  have hsub : guint_sub (tvb_captured_length tvb) offset = tvb.length - offset :=
    guint_sub_eq _ _ (by unfold tvb_captured_length; omega) h32
  have hle := get_block_type_size_le ((b.val : Nat) : Int)
  have hstate : NANO_BLOCK_SIZE_STATE = 216 := rfl
  rw [get_nano_message_len_continuation st tvb offset hp, hb, Option.map_some', hsub]
  by_cases h8 : st.client_packet_type = NANO_PACKET_TYPE_FRONTIER_REQ
  · rw [if_pos h8]
    refine ⟨_, rfl, by omega, ?_, fun _ => by omega⟩
    rintro ⟨h7, -, -⟩
    rw [h7] at h8
    exact absurd h8 (by decide)
  rw [if_neg h8]
  by_cases h11 : st.client_packet_type = NANO_PACKET_TYPE_BULK_PULL_ACCOUNT
  · rw [if_pos h11]
    refine ⟨_, rfl, by split_ifs <;> omega, ?_, fun _ => by split_ifs <;> omega⟩
    rintro ⟨h7, -, -⟩
    rw [h7] at h11
    exact absurd h11 (by decide)
  rw [if_neg h11]
  by_cases h1 : ((b.val : Nat) : Int) = NANO_BLOCK_TYPE_NOT_A_BLOCK
  · rw [if_pos h1]
    exact ⟨_, rfl, le_refl _, fun h => absurd h1 h.2.1, fun _ => by omega⟩
  rw [if_neg h1]
  by_cases hbt : is_block_type ((b.val : Nat) : Int)
  · have hpos := get_block_type_size_pos _ hbt
    rw [if_neg (by rintro ⟨-, h0⟩; omega)]
    exact ⟨_, rfl, by omega, fun h => absurd hbt h.2.2, fun _ => by omega⟩
  · have h0 := get_block_type_size_eq_zero _ hbt
    by_cases h7 : st.client_packet_type = NANO_PACKET_TYPE_BULK_PUSH
    · rw [if_pos ⟨h7, h0⟩]
      exact ⟨_, rfl, by omega, fun _ => rfl, fun h => absurd ⟨h7, h1, hbt⟩ h⟩
    · rw [if_neg (by rintro ⟨h, -⟩; exact h7 h), h0]
      exact ⟨_, rfl, by omega, fun h => absurd h.1 h7, fun _ => by omega⟩

set_option maxRecDepth 100000 in
/-- With no continuation pending the framer reads the header: two buffers of one length
that differ in the packet type byte only are sized differently. -/
theorem get_nano_message_len_reads_header (st : nano_session_state)
    (hp : does_prev_packet_expect_headerless_response st = 0) :
    get_nano_message_len st (nano_header 2 0 0 ++ List.replicate 144 0) 0 = some 152
      ∧ get_nano_message_len st (nano_header 12 0 0 ++ List.replicate 144 0) 0 = some 8 := by
  constructor
  · rw [get_nano_message_len_headered st _ 0 2 0 hp (by decide) (by decide) (by decide)
      (by decide)]
    decide
  · rw [get_nano_message_len_headered st _ 0 12 0 hp (by decide) (by decide) (by decide)
      (by decide)]
    decide

/-! ## The blocks decoded by the loop of an Asc Pull Ack -/

theorem Dissect.adds_no_subtree_pure {α : Type} (a : α) :
    (pure a : Dissect α).adds_no_subtree := fun _ => rfl

theorem Dissect.adds_no_subtree_bind {α β : Type} {x : Dissect α} {f : α → Dissect β}
    (hx : x.adds_no_subtree) (hf : ∀ a, (f a).adds_no_subtree) :
    (x >>= f).adds_no_subtree := by
  intro e
  rw [Dissect.run_bind]
  rcases h : x.run e with ⟨o, e1⟩
  have h1 := hx e
  rw [h] at h1
  cases o with
  | none => exact h1
  | some a => exact ((hf a) e1).trans h1

theorem proto_tree_add_item_adds_no_subtree (hf : hf_id) (tvb : tvbuff_t)
    (start length : Nat) : (proto_tree_add_item hf tvb start length).adds_no_subtree := by
  intro e
  by_cases h : start + length ≤ tvb.length
  · rw [proto_tree_add_item_run hf tvb start length e h]
    simp only [tree_subtree_count, List.countP_append, List.countP_cons, List.countP_nil,
      proto_node.is_subtree, Bool.false_eq_true, if_false, Nat.add_zero]
  · rw [proto_tree_add_item_run_throw hf tvb start length e (by omega)]

theorem tree_subtree_count_subtree (tree : List proto_node) (label : String)
    (start length : Nat) :
    tree_subtree_count (tree ++ [.subtree label start length])
      = tree_subtree_count tree + 1 := by
  simp only [tree_subtree_count, List.countP_append, List.countP_cons, List.countP_nil,
    proto_node.is_subtree, if_true, Nat.zero_add]

/-- Each block decoder adds one interior node to the tree, the one it starts with, whether
or not the block is complete. -/
theorem dissect_nano_block_subtree (tvb : tvbuff_t) (offset : Nat) (e : dissect_env) :
    tree_subtree_count ((dissect_nano_send_block tvb offset).run e).2.tree
        = tree_subtree_count e.tree + 1
      ∧ tree_subtree_count ((dissect_nano_receive_block tvb offset).run e).2.tree
        = tree_subtree_count e.tree + 1
      ∧ tree_subtree_count ((dissect_nano_open_block tvb offset).run e).2.tree
        = tree_subtree_count e.tree + 1
      ∧ tree_subtree_count ((dissect_nano_change_block tvb offset).run e).2.tree
        = tree_subtree_count e.tree + 1
      ∧ tree_subtree_count ((dissect_nano_state tvb offset).run e).2.tree
        = tree_subtree_count e.tree + 1 := by
  refine ⟨?_, ?_, ?_, ?_, ?_⟩
  · unfold dissect_nano_send_block proto_tree_add_subtree
    rw [Dissect.run_bind_add_node, ← tree_subtree_count_subtree e.tree "Send Block" offset
      (min NANO_BLOCK_SIZE_SEND (tvb.length - offset))]
    refine Dissect.adds_no_subtree_bind ?_ ?_ _ <;>
    repeat (first
      | exact proto_tree_add_item_adds_no_subtree _ _ _ _
      | exact Dissect.adds_no_subtree_pure _
      | (refine Dissect.adds_no_subtree_bind ?_ ?_; rotate_left; intro _)
      | intro _)
  · unfold dissect_nano_receive_block proto_tree_add_subtree
    rw [Dissect.run_bind_add_node, ← tree_subtree_count_subtree e.tree "Receive Block" offset
      (min NANO_BLOCK_SIZE_RECEIVE (tvb.length - offset))]
    refine Dissect.adds_no_subtree_bind ?_ ?_ _ <;>
    repeat (first
      | exact proto_tree_add_item_adds_no_subtree _ _ _ _
      | exact Dissect.adds_no_subtree_pure _
      | (refine Dissect.adds_no_subtree_bind ?_ ?_; rotate_left; intro _)
      | intro _)
  · unfold dissect_nano_open_block proto_tree_add_subtree
    rw [Dissect.run_bind_add_node, ← tree_subtree_count_subtree e.tree "Open Block" offset
      (min NANO_BLOCK_SIZE_OPEN (tvb.length - offset))]
    refine Dissect.adds_no_subtree_bind ?_ ?_ _ <;>
    repeat (first
      | exact proto_tree_add_item_adds_no_subtree _ _ _ _
      | exact Dissect.adds_no_subtree_pure _
      | (refine Dissect.adds_no_subtree_bind ?_ ?_; rotate_left; intro _)
      | intro _)
  · unfold dissect_nano_change_block proto_tree_add_subtree
    rw [Dissect.run_bind_add_node, ← tree_subtree_count_subtree e.tree "Change Block" offset
      (min NANO_BLOCK_SIZE_CHANGE (tvb.length - offset))]
    refine Dissect.adds_no_subtree_bind ?_ ?_ _ <;>
    repeat (first
      | exact proto_tree_add_item_adds_no_subtree _ _ _ _
      | exact Dissect.adds_no_subtree_pure _
      | (refine Dissect.adds_no_subtree_bind ?_ ?_; rotate_left; intro _)
      | intro _)
  · unfold dissect_nano_state proto_tree_add_subtree
    rw [Dissect.run_bind_add_node, ← tree_subtree_count_subtree e.tree "State Block" offset
      (min NANO_BLOCK_SIZE_STATE (tvb.length - offset))]
    refine Dissect.adds_no_subtree_bind ?_ ?_ _ <;>
    repeat (first
      | exact proto_tree_add_item_adds_no_subtree _ _ _ _
      | exact Dissect.adds_no_subtree_pure _
      | (refine Dissect.adds_no_subtree_bind ?_ ?_; rotate_left; intro _)
      | intro _)

theorem Dissect.run_bind_ofOption_some {α β : Type} (a : α) (f : α → Dissect β)
    (e : dissect_env) : (Dissect.ofOption (some a) >>= f).run e = (f a).run e := rfl

theorem Dissect.run_bind_ofOption_none {α β : Type} (f : α → Dissect β) (e : dissect_env) :
    (Dissect.ofOption (none : Option α) >>= f).run e = (none, e) := rfl

theorem Dissect.subtrees_bind_le {α β : Type} (x : Dissect α) (f : α → Dissect β)
    (e : dissect_env) (bound : Nat) (hx : tree_subtree_count (x.run e).2.tree ≤ bound)
    (hf : ∀ a, tree_subtree_count ((f a).run (x.run e).2).2.tree ≤ bound) :
    tree_subtree_count ((x >>= f).run e).2.tree ≤ bound := by
  rw [Dissect.run_bind]
  rcases h : x.run e with ⟨o, e1⟩
  rw [h] at hx hf
  cases o with
  | none => exact hx
  | some a => exact hf a

/-- One iteration of the block loop of an Asc Pull Ack at a position that holds a block
type: the decoder of that block type runs at this position and the loop goes on behind the
block. -/
theorem dissect_nano_asc_pull_ack_blocks_payload_loop_block (tvb : tvbuff_t)
    (fuel offset : Nat) (e : dissect_env) (b : guint8)
    (hb : tvb_get_guint8 tvb offset = some b) (hbt : is_block_type ((b.val : Nat) : Int)) :
    (dissect_nano_asc_pull_ack_blocks_payload_loop tvb (fuel + 1) offset).run e
      = (dissect_nano_block ((b.val : Nat) : Int) tvb offset >>= fun _ =>
          dissect_nano_asc_pull_ack_blocks_payload_loop tvb fuel
            (offset + get_block_type_size ((b.val : Nat) : Int))).run e := by
  have hne : b.val ≠ 1 := by
    intro h1
    rw [h1] at hbt
    revert hbt
    decide
  rw [dissect_nano_asc_pull_ack_blocks_payload_loop_succ, hb,
    Dissect.run_bind_ofOption_some, if_pos hne, Dissect.run_bind_ofOption_some]
  rcases hbt with h | h | h | h | h <;> rw [h] <;> rfl

/-- One iteration of the block loop of an Asc Pull Ack that stops: a read past the end of
the buffer throws, the end marker 1 and a byte that is no block type end the loop. -/
theorem dissect_nano_asc_pull_ack_blocks_payload_loop_stop (tvb : tvbuff_t)
    (fuel offset : Nat) (e : dissect_env) :
    (tvb_get_guint8 tvb offset = none →
        (dissect_nano_asc_pull_ack_blocks_payload_loop tvb (fuel + 1) offset).run e
          = (none, e))
      ∧ ∀ b, tvb_get_guint8 tvb offset = some b →
        b.val = 1 ∨ ¬ is_block_type ((b.val : Nat) : Int) →
        (dissect_nano_asc_pull_ack_blocks_payload_loop tvb (fuel + 1) offset).run e
          = (some (), e) := by
  constructor
  · intro hb
    rw [dissect_nano_asc_pull_ack_blocks_payload_loop_succ, hb,
      Dissect.run_bind_ofOption_none]
  · intro b hb h
    rw [dissect_nano_asc_pull_ack_blocks_payload_loop_succ, hb,
      Dissect.run_bind_ofOption_some]
    by_cases h1 : b.val = 1
    · rw [if_neg (not_not.mpr h1)]
      rfl
    · have hbt := h.resolve_left h1
      unfold is_block_type at hbt
      simp only [not_or] at hbt
      obtain ⟨k2, k3, k4, k5, k6⟩ := hbt
      rw [if_pos h1, Dissect.run_bind_ofOption_some, if_neg k2, if_neg k3, if_neg k4,
        if_neg k5, if_neg k6]
      rfl

theorem get_block_type_size_ge (block_type : Int) (hb : is_block_type block_type) :
    NANO_BLOCK_SIZE_RECEIVE ≤ get_block_type_size block_type := by
  rcases hb with hb | hb | hb | hb | hb <;> subst hb <;> decide

theorem dissect_nano_block_subtree_of_block_type (block_type : Int) (tvb : tvbuff_t)
    (offset : Nat) (e : dissect_env) (hb : is_block_type block_type) :
    tree_subtree_count ((dissect_nano_block block_type tvb offset).run e).2.tree
      = tree_subtree_count e.tree + 1 := by
  obtain ⟨h2, h3, h4, h5, h6⟩ := dissect_nano_block_subtree tvb offset e
  rcases hb with hb | hb | hb | hb | hb <;> subst hb
  · exact h2
  · exact h3
  · exact h4
  · exact h5
  · exact h6

/-- The block loop of an Asc Pull Ack decodes at most one block per 136 bytes left in the
buffer, however many iterations it is allowed. -/
theorem dissect_nano_asc_pull_ack_blocks_payload_loop_subtrees (tvb : tvbuff_t)
    (fuel : Nat) : ∀ offset e,
    tree_subtree_count
        ((dissect_nano_asc_pull_ack_blocks_payload_loop tvb fuel offset).run e).2.tree
      ≤ tree_subtree_count e.tree + (tvb.length - offset + 135) / 136 := by
  induction fuel with
  | zero =>
    intro offset e
    exact Nat.le_add_right _ _
  | succ n ih =>
    intro offset e
    cases hb : tvb_get_guint8 tvb offset with
    | none =>
      rw [(dissect_nano_asc_pull_ack_blocks_payload_loop_stop tvb n offset e).1 hb]
      exact Nat.le_add_right _ _
    | some b =>
      by_cases hbt : is_block_type ((b.val : Nat) : Int)
      · have hlt := tvb_get_guint8_lt tvb offset b hb
        have hge := get_block_type_size_ge _ hbt
        have hrec : NANO_BLOCK_SIZE_RECEIVE = 136 := rfl
        have hsub := dissect_nano_block_subtree_of_block_type _ tvb offset e hbt
        rw [dissect_nano_asc_pull_ack_blocks_payload_loop_block tvb n offset e b hb hbt]
        refine Dissect.subtrees_bind_le _ _ e _ ?_ ?_
        · rw [hsub]
          omega
        · intro _
          have h := ih (offset + get_block_type_size ((b.val : Nat) : Int))
            ((dissect_nano_block ((b.val : Nat) : Int) tvb offset).run e).2
          rw [hsub] at h
          omega
      · rw [(dissect_nano_asc_pull_ack_blocks_payload_loop_stop tvb n offset e).2 b hb
          (Or.inr hbt)]
        exact Nat.le_add_right _ _

/-- The block loop of an Asc Pull Ack stops within one iteration per 136 bytes left in the
buffer and one more: an iteration allowed beyond these is never run. -/
theorem dissect_nano_asc_pull_ack_blocks_payload_loop_stops (tvb : tvbuff_t) (fuel : Nat) :
    ∀ offset, (tvb.length - offset + 135) / 136 < fuel →
      dissect_nano_asc_pull_ack_blocks_payload_loop tvb fuel offset
        = dissect_nano_asc_pull_ack_blocks_payload_loop tvb (fuel + 1) offset := by
  induction fuel with
  | zero =>
    intro offset h
    omega
  | succ n ih =>
    intro offset h
    rw [dissect_nano_asc_pull_ack_blocks_payload_loop_succ tvb (n + 1) offset,
      dissect_nano_asc_pull_ack_blocks_payload_loop_succ tvb n offset]
    cases hb : tvb_get_guint8 tvb offset with
    | none => rfl
    | some b =>
      have hlt := tvb_get_guint8_lt tvb offset b hb
      rw [ih (offset + NANO_BLOCK_SIZE_SEND) (by unfold NANO_BLOCK_SIZE_SEND; omega),
        ih (offset + NANO_BLOCK_SIZE_RECEIVE) (by unfold NANO_BLOCK_SIZE_RECEIVE; omega),
        ih (offset + NANO_BLOCK_SIZE_OPEN) (by unfold NANO_BLOCK_SIZE_OPEN; omega),
        ih (offset + NANO_BLOCK_SIZE_CHANGE) (by unfold NANO_BLOCK_SIZE_CHANGE; omega),
        ih (offset + NANO_BLOCK_SIZE_STATE) (by unfold NANO_BLOCK_SIZE_STATE; omega)]

theorem dissect_nano_asc_pull_ack_blocks_payload_loop_stops_add (tvb : tvbuff_t)
    (fuel offset : Nat) (h : (tvb.length - offset + 135) / 136 < fuel) (k : Nat) :
    dissect_nano_asc_pull_ack_blocks_payload_loop tvb fuel offset
      = dissect_nano_asc_pull_ack_blocks_payload_loop tvb (fuel + k) offset := by
  induction k with
  | zero => rfl
  | succ k ih =>
    rw [ih, ← Nat.add_assoc]
    exact dissect_nano_asc_pull_ack_blocks_payload_loop_stops tvb (fuel + k) offset
      (by omega)

/-- With more iterations allowed than one per 136 bytes left in the buffer, the bounded loop
is the block loop of an Asc Pull Ack. -/
theorem dissect_nano_asc_pull_ack_blocks_payload_loop_eq (tvb : tvbuff_t)
    (fuel offset : Nat) (h : (tvb.length - offset + 135) / 136 < fuel) :
    dissect_nano_asc_pull_ack_blocks_payload_loop tvb fuel offset
      = dissect_nano_asc_pull_ack_blocks_payload tvb offset := by
  unfold dissect_nano_asc_pull_ack_blocks_payload
  rw [dissect_nano_asc_pull_ack_blocks_payload_loop_stops_add tvb fuel offset h
      (tvb.length + 1),
    dissect_nano_asc_pull_ack_blocks_payload_loop_stops_add tvb (tvb.length + 1) offset
      (by omega) fuel, Nat.add_comm]

/-! ## Re-dissection of TCP segments -/

/-- A copy of the session state attached to a frame is never replaced. -/
theorem dissect_nano_tcp_keeps_packet_data
    (tcp_dissect_pdus : tcp_segment → nano_session_state → nano_session_state)
    (pinfo : tcp_segment) (data : nano_tcp_data) (frame : Nat) (st : nano_session_state)
    (h : data.packet frame = some st) :
    (dissect_nano_tcp tcp_dissect_pdus pinfo data).data.packet frame = some st := by
  unfold dissect_nano_tcp
  cases hp : data.packet pinfo.frame with
  | none =>
    have hne : frame ≠ pinfo.frame := by
      intro heq
      rw [heq, hp] at h
      exact Option.noConfusion h
    simp only [Function.update_noteq hne, h]
  | some packet_session_state => exact h

theorem dissect_nano_tcp_segments_keeps_packet_data
    (tcp_dissect_pdus : tcp_segment → nano_session_state → nano_session_state)
    (segments : List tcp_segment) : ∀ (data : nano_tcp_data) (frame : Nat)
      (st : nano_session_state), data.packet frame = some st →
      (dissect_nano_tcp_segments tcp_dissect_pdus data segments).packet frame = some st := by
  induction segments with
  | nil =>
    intro data frame st h
    exact h
  | cons pinfo rest ih =>
    intro data frame st h
    exact ih _ frame st (dissect_nano_tcp_keeps_packet_data tcp_dissect_pdus pinfo data
      frame st h)

/-- The first visit of a frame attaches a copy of the conversation state to it and starts
from that state. -/
theorem dissect_nano_tcp_first_visit
    (tcp_dissect_pdus : tcp_segment → nano_session_state → nano_session_state)
    (pinfo : tcp_segment) (data : nano_tcp_data) (h : data.packet pinfo.frame = none) :
    (dissect_nano_tcp tcp_dissect_pdus pinfo data).start_state
        = (match data.conversation with
          | some session_state => session_state
          | none => new_session_state pinfo.match_uint)
      ∧ (dissect_nano_tcp tcp_dissect_pdus pinfo data).data.packet pinfo.frame
        = some (dissect_nano_tcp tcp_dissect_pdus pinfo data).start_state := by
  unfold dissect_nano_tcp
  simp only [h, Function.update_same, and_self]

/-- A later visit of a frame starts from the copy attached to it and puts that copy into
the conversation before `tcp_dissect_pdus` runs on it. -/
theorem dissect_nano_tcp_later_visit
    (tcp_dissect_pdus : tcp_segment → nano_session_state → nano_session_state)
    (pinfo : tcp_segment) (data : nano_tcp_data) (st : nano_session_state)
    (h : data.packet pinfo.frame = some st) :
    (dissect_nano_tcp tcp_dissect_pdus pinfo data).start_state = st
      ∧ (dissect_nano_tcp tcp_dissect_pdus pinfo data).data.conversation
        = some (tcp_dissect_pdus pinfo st) := by
  unfold dissect_nano_tcp
  simp only [h, and_self]

/-! ## Values of `client_packet_type` -/

/-- The headerless decoders write nothing to the session state but Invalid and NotAType to
`client_packet_type`: they keep every property of the session state that these two writes
keep. -/
theorem dissect_headerless_packet_preserves_ends (tvb : tvbuff_t)
    (I : nano_session_state → Prop)
    (h0 : ∀ s, I s → I { s with client_packet_type := NANO_PACKET_TYPE_INVALID })
    (h1 : ∀ s, I s → I { s with client_packet_type := NANO_PACKET_TYPE_NOT_A_TYPE }) :
    (dissect_headerless_packet tvb).preserves I := by
  have k1 : (dissect_nano_headerless_frontier_response tvb).preserves I := by
    unfold dissect_nano_headerless_frontier_response
    repeat (first
      | exact Dissect.preserves_of_frames _ (Dissect.frames_pure _)
      | exact Dissect.preserves_of_frames _ (proto_tree_add_item_frames _ _ _ _)
      | exact Dissect.preserves_of_frames _ (proto_tree_add_subtree_frames _ _ _ _)
      | exact Dissect.preserves_of_frames _ (append_info_col_frames _)
      | exact Dissect.preserves_of_frames _ (Dissect.frames_ofOption _)
      | exact set_client_packet_type_preserves _ _ h0
      | (refine Dissect.preserves_bind ?_ ?_; rotate_left; intro _)
      | refine Dissect.preserves_ite ?_ ?_)
  have k2 : (dissect_nano_headerless_bulk_pull_response tvb).preserves I := by
    unfold dissect_nano_headerless_bulk_pull_response
    repeat (first
      | exact Dissect.preserves_of_frames _ (Dissect.frames_pure _)
      | exact Dissect.preserves_of_frames _ (proto_tree_add_item_frames _ _ _ _)
      | exact Dissect.preserves_of_frames _ (proto_tree_add_subtree_frames _ _ _ _)
      | exact Dissect.preserves_of_frames _ (append_info_col_frames _)
      | exact Dissect.preserves_of_frames _ (col_append_str_frames _)
      | exact Dissect.preserves_of_frames _ (Dissect.frames_ofOption _)
      | exact Dissect.preserves_of_frames _ (dissect_nano_block_frames _ _ _)
      | exact set_client_packet_type_preserves _ _ h1
      | (refine Dissect.preserves_bind ?_ ?_; rotate_left; intro _)
      | refine Dissect.preserves_ite ?_ ?_)
  have k3 : (dissect_nano_headerless_bulk_push_body tvb).preserves I := by
    unfold dissect_nano_headerless_bulk_push_body
    repeat (first
      | exact Dissect.preserves_of_frames _ (Dissect.frames_pure _)
      | exact Dissect.preserves_of_frames _ (proto_tree_add_item_frames _ _ _ _)
      | exact Dissect.preserves_of_frames _ (proto_tree_add_subtree_frames _ _ _ _)
      | exact Dissect.preserves_of_frames _ (append_info_col_frames _)
      | exact Dissect.preserves_of_frames _ (col_append_str_frames _)
      | exact Dissect.preserves_of_frames _ (Dissect.frames_ofOption _)
      | exact Dissect.preserves_of_frames _ (dissect_nano_block_frames _ _ _)
      | exact set_client_packet_type_preserves _ _ h1
      | (refine Dissect.preserves_bind ?_ ?_; rotate_left; intro _)
      | refine Dissect.preserves_ite ?_ ?_)
  have k4 : (dissect_nano_headerless_bulk_pull_account_response tvb).preserves I := by
    unfold dissect_nano_headerless_bulk_pull_account_response
    repeat (first
      | exact Dissect.preserves_of_frames _ (Dissect.frames_pure _)
      | exact Dissect.preserves_of_frames _ (proto_tree_add_item_frames _ _ _ _)
      | exact Dissect.preserves_of_frames _ (proto_tree_add_subtree_frames _ _ _ _)
      | exact Dissect.preserves_of_frames _ (append_info_col_frames _)
      | exact Dissect.preserves_of_frames _ (Dissect.frames_ofOption _)
      | exact Dissect.preserves_of_frames _ get_session_state_frames
      | exact set_client_packet_type_preserves _ _ h0
      | (refine Dissect.preserves_bind ?_ ?_; rotate_left; intro _)
      | refine Dissect.preserves_ite ?_ ?_)
  unfold dissect_headerless_packet dissect_headerless_packet_client
    dissect_headerless_packet_server
  repeat (first
    | exact Dissect.preserves_of_frames _ (Dissect.frames_pure _)
    | exact Dissect.preserves_of_frames _ (append_info_col_frames _)
    | exact Dissect.preserves_of_frames _ get_session_state_frames
    | exact Dissect.preserves_of_frames _ get_destport_frames
    | exact k1
    | exact k2
    | exact k3
    | exact k4
    | (refine Dissect.preserves_bind ?_ ?_; rotate_left; intro _)
    | refine Dissect.preserves_ite ?_ ?_)

/-- One `dissect_nano` call leaves `client_packet_type` as it was, or Invalid, or NotAType,
or, when no continuation was pending and the message has a header, the packet-type byte of
that header. -/
theorem dissect_nano_next_state_client_packet_type (st : nano_session_state)
    (msg : nano_message) :
    (dissect_nano_next_state st msg).client_packet_type = st.client_packet_type
      ∨ (dissect_nano_next_state st msg).client_packet_type = NANO_PACKET_TYPE_INVALID
      ∨ (dissect_nano_next_state st msg).client_packet_type = NANO_PACKET_TYPE_NOT_A_TYPE
      ∨ (does_prev_packet_expect_headerless_response st = 0 ∧ 8 ≤ msg.tvb.length
        ∧ ∃ t : guint8, tvb_get_guint8 msg.tvb 5 = some t
          ∧ (dissect_nano_next_state st msg).client_packet_type = (t.val : Nat)) := by
  unfold dissect_nano_next_state
  by_cases hp : does_prev_packet_expect_headerless_response st = 0
  · by_cases h8 : 8 ≤ msg.tvb.length
    · obtain ⟨t, ht⟩ := tvb_get_guint8_isSome msg.tvb 5 (by omega)
      exact Or.inr (Or.inr (Or.inr ⟨hp, h8, t, ht,
        dissect_nano_headered_records_type msg.tvb (message_env st msg.destport) t hp h8 ht⟩))
    · rw [(dissect_nano_run_short_header (message_env st msg.destport) msg.tvb hp
        (by omega)).2]
      exact Or.inl rfl
  · obtain ⟨e1, hs, -, hrun⟩ :=
      dissect_nano_run_headerless msg.tvb (message_env st msg.destport) hp
    rw [hrun]
    exact (dissect_headerless_packet_preserves_ends msg.tvb
      (fun s => s.client_packet_type = st.client_packet_type
        ∨ s.client_packet_type = NANO_PACKET_TYPE_INVALID
        ∨ s.client_packet_type = NANO_PACKET_TYPE_NOT_A_TYPE)
      (fun _ _ => Or.inr (Or.inl rfl)) (fun _ _ => Or.inr (Or.inr rfl))).inv e1
      (by rw [hs]; exact Or.inl rfl) |>.imp_right (Or.imp_right Or.inl)

/-- After any sequence of `dissect_nano` calls `client_packet_type` is the value of the
start, or Invalid, or NotAType, or the packet-type byte of the header of one of the
messages, decoded with no continuation pending. -/
theorem dissect_nano_messages_client_packet_type (msgs : List nano_message) :
    ∀ st : nano_session_state,
      (dissect_nano_messages st msgs).client_packet_type = st.client_packet_type
        ∨ (dissect_nano_messages st msgs).client_packet_type = NANO_PACKET_TYPE_INVALID
        ∨ (dissect_nano_messages st msgs).client_packet_type = NANO_PACKET_TYPE_NOT_A_TYPE
        ∨ ∃ (pre : List nano_message) (msg : nano_message) (post : List nano_message)
            (t : guint8), msgs = pre ++ msg :: post
          ∧ does_prev_packet_expect_headerless_response (dissect_nano_messages st pre) = 0
          ∧ 8 ≤ msg.tvb.length ∧ tvb_get_guint8 msg.tvb 5 = some t
          ∧ (dissect_nano_messages st msgs).client_packet_type = (t.val : Nat) := by
  induction msgs with
  | nil =>
    intro st
    exact Or.inl rfl
  | cons m rest ih =>
    intro st
    have hcons : ∀ l, dissect_nano_messages st (m :: l)
        = dissect_nano_messages (dissect_nano_next_state st m) l := fun _ => rfl
    rw [hcons]
    rcases ih (dissect_nano_next_state st m) with h | h | h | ⟨pre, msg, post, t, h⟩
    · rw [h]
      rcases dissect_nano_next_state_client_packet_type st m with k | k | k | ⟨hp, h8, t, ht, k⟩
      · exact Or.inl k
      · exact Or.inr (Or.inl k)
      · exact Or.inr (Or.inr (Or.inl k))
      · exact Or.inr (Or.inr (Or.inr ⟨[], m, rest, t, rfl, hp, h8, ht, k⟩))
    · exact Or.inr (Or.inl h)
    · exact Or.inr (Or.inr (Or.inl h))
    · obtain ⟨hl, hp, h8, ht, hc⟩ := h
      refine Or.inr (Or.inr (Or.inr ⟨m :: pre, msg, post, t, ?_, ?_, h8, ht, hc⟩))
      · rw [hl]
        rfl
      · rw [hcons]
        exact hp

/-! ## The blocks of an Asc Pull Ack -/

/-- C1. With no continuation pending, on a buffer that starts with an 8-byte header of type
Keepalive, Node ID Handshake, Telemetry Ack or Bulk Pull Account, or of type Publish /
Confirm Req / Confirm Ack with a block type among Send, Receive, Open, Change, State (for
Confirm Req / Confirm Ack also Not-A-Block), and that holds the framed number of bytes,
`dissect_nano` returns exactly the length `get_nano_message_len` returns. -/
theorem dissect_nano_returns_framed_length (e : dissect_env) (tvb : tvbuff_t) (t : guint8)
    (extensions n : Nat)
    (hp : does_prev_packet_expect_headerless_response e.session_state = 0)
    (h8 : 8 ≤ tvb.length) (h32 : tvb.length < 2 ^ 32)
    (ht : tvb_get_guint8 tvb 5 = some t) (hext : tvb_get_letohs tvb 6 = some extensions)
    (htype : t.val = NANO_PACKET_TYPE_KEEPALIVE ∨ t.val = NANO_PACKET_TYPE_NODE_ID_HANDSHAKE
      ∨ t.val = NANO_PACKET_TYPE_TELEMETRY_ACK ∨ t.val = NANO_PACKET_TYPE_BULK_PULL_ACCOUNT
      ∨ ((t.val = NANO_PACKET_TYPE_PUBLISH ∨ t.val = NANO_PACKET_TYPE_CONFIRM_REQ
            ∨ t.val = NANO_PACKET_TYPE_CONFIRM_ACK)
          ∧ is_block_type (((extensions &&& 0x0f00) >>> 8 : Nat) : Int))
      ∨ ((t.val = NANO_PACKET_TYPE_CONFIRM_REQ ∨ t.val = NANO_PACKET_TYPE_CONFIRM_ACK)
          ∧ (((extensions &&& 0x0f00) >>> 8 : Nat) : Int) = NANO_BLOCK_TYPE_NOT_A_BLOCK))
    (hn : get_nano_message_len e.session_state tvb 0 = some n) (hfit : n ≤ tvb.length) :
    ((dissect_nano tvb).run e).1 = some n :=
  dissect_nano_headered_returns e tvb t extensions n hp h8 h32 ht hext htype hn hfit

set_option maxRecDepth 100000 in
/-- C1 at a Keepalive message of 152 bytes in a fresh session. -/
theorem dissect_nano_returns_framed_length_witness :
    get_nano_message_len (new_session_state 7075) keepalive_message 0 = some 152
      ∧ ((dissect_nano keepalive_message).run (message_env (new_session_state 7075) 7075)).1
        = some 152 :=
  ⟨by decide,
    dissect_nano_returns_framed_length (message_env (new_session_state 7075) 7075)
      keepalive_message 2 0 152 (by decide) (by decide) (by decide) (by decide) (by decide)
      (by decide) (by decide) (by decide)⟩

set_option maxRecDepth 100000 in
/-- C2 (code defect). On the 153-byte headerless message carrying a Send block the framer
declares 153 = 1 + 152 bytes in the Bulk Pull and in the Bulk Push pending state, while
`dissect_nano_headerless_bulk_pull_response` and `dissect_nano_headerless_bulk_push_body`
both return 154. -/
theorem headerless_block_decoders_return_one_more_than_framed :
    get_nano_message_len (pending_session 6) send_block_message 0 = some 153
      ∧ get_nano_message_len (pending_session 7) send_block_message 0 = some 153
      ∧ ((dissect_nano_headerless_bulk_pull_response send_block_message).run
          (message_env (pending_session 6) 50000)).1 = some 154
      ∧ ((dissect_nano_headerless_bulk_push_body send_block_message).run
          (message_env (pending_session 7) 7075)).1 = some 154 := by
  decide

set_option maxRecDepth 100000 in
/-- C3 as stated fails: after `dissect_nano` has decoded a bare Telemetry Req header in a
fresh session, `client_packet_type` is 12, none of the six listed values. -/
theorem client_packet_type_after_telemetry_req :
    (dissect_nano_messages (new_session_state 7075)
        [⟨7075, nano_header 12 0 0⟩]).client_packet_type = 12
      ∧ ¬ ((dissect_nano_messages (new_session_state 7075)
            [⟨7075, nano_header 12 0 0⟩]).client_packet_type
          ∈ ([0, 1, 6, 7, 8, 11] : List Int)) := by
  decide

/-- C3, amended. In every session state reached from the initial state by any sequence of
`dissect_nano` calls, `client_packet_type` is Invalid, NotAType or the packet-type byte of
the header of one of the messages, decoded with no continuation pending, so a value in
0..255. With no continuation pending `dissect_nano` stores the packet-type byte of every
message that has a header, whatever the type, and leaves the state alone for a message too
short for one. A continuation is pending exactly for the values Bulk Pull, Bulk Push,
Frontier Req and Bulk Pull Account, and then `dissect_nano` hands the next message to
`dissect_headerless_packet`. -/
theorem client_packet_type_reachable_values (match_uint : Nat) (msgs : List nano_message) :
    ((dissect_nano_messages (new_session_state match_uint) msgs).client_packet_type
          = NANO_PACKET_TYPE_INVALID
        ∨ (dissect_nano_messages (new_session_state match_uint) msgs).client_packet_type
          = NANO_PACKET_TYPE_NOT_A_TYPE
        ∨ ∃ (pre : List nano_message) (msg : nano_message) (post : List nano_message)
            (t : guint8), msgs = pre ++ msg :: post
          ∧ does_prev_packet_expect_headerless_response
            (dissect_nano_messages (new_session_state match_uint) pre) = 0
          ∧ 8 ≤ msg.tvb.length ∧ tvb_get_guint8 msg.tvb 5 = some t
          ∧ (dissect_nano_messages (new_session_state match_uint) msgs).client_packet_type
            = (t.val : Nat))
      ∧ client_packet_type_in_range
        (dissect_nano_messages (new_session_state match_uint) msgs)
      ∧ (∀ (tvb : tvbuff_t) (e : dissect_env) (t : guint8),
        does_prev_packet_expect_headerless_response e.session_state = 0 →
        8 ≤ tvb.length → tvb_get_guint8 tvb 5 = some t →
        ((dissect_nano tvb).run e).2.session_state.client_packet_type = (t.val : Nat))
      ∧ (∀ (tvb : tvbuff_t) (e : dissect_env),
        does_prev_packet_expect_headerless_response e.session_state = 0 →
        tvb.length < 8 →
        ((dissect_nano tvb).run e).1 = some 0
          ∧ ((dissect_nano tvb).run e).2.session_state = e.session_state)
      ∧ (∀ st : nano_session_state,
        does_prev_packet_expect_headerless_response st ≠ 0 ↔
          (st.client_packet_type = NANO_PACKET_TYPE_BULK_PULL
            ∨ st.client_packet_type = NANO_PACKET_TYPE_BULK_PUSH
            ∨ st.client_packet_type = NANO_PACKET_TYPE_FRONTIER_REQ
            ∨ st.client_packet_type = NANO_PACKET_TYPE_BULK_PULL_ACCOUNT))
      ∧ (∀ (tvb : tvbuff_t) (e : dissect_env),
        does_prev_packet_expect_headerless_response e.session_state ≠ 0 →
        ∃ e1, e1.session_state = e.session_state ∧ e1.pinfo.destport = e.pinfo.destport
          ∧ (dissect_nano tvb).run e = (dissect_headerless_packet tvb).run e1) := by
  refine ⟨?_, ?_, fun tvb e t hp h8 ht => dissect_nano_headered_records_type tvb e t hp h8 ht,
    fun tvb e hp h8 => dissect_nano_run_short_header e tvb hp h8,
    does_prev_packet_expect_headerless_response_ne_zero,
    fun tvb e hp => dissect_nano_run_headerless tvb e hp⟩
  · rcases dissect_nano_messages_client_packet_type msgs (new_session_state match_uint)
      with h | h | h | h
    · exact Or.inl h
    · exact Or.inl h
    · exact Or.inr (Or.inl h)
    · exact Or.inr (Or.inr h)
  · exact dissect_nano_messages_in_range msgs (new_session_state match_uint)
      ⟨by simp [new_session_state, NANO_PACKET_TYPE_INVALID],
        by simp [new_session_state, NANO_PACKET_TYPE_INVALID]⟩

set_option maxRecDepth 100000 in
/-- C3, amended, at a session of a Bulk Pull request and the end marker of its response, and
at a bare Telemetry Req header: the first ends with NotAType, the second with 12, the
packet-type byte of its header. -/
theorem client_packet_type_reachable_values_witness :
    client_packet_type_in_range
        (dissect_nano_messages (new_session_state 7075)
          [⟨7075, bulk_pull_message⟩, ⟨50000, [1]⟩])
      ∧ (dissect_nano_messages (new_session_state 7075)
          [⟨7075, bulk_pull_message⟩, ⟨50000, [1]⟩]).client_packet_type
        = NANO_PACKET_TYPE_NOT_A_TYPE
      ∧ (dissect_nano_messages (new_session_state 7075)
          [⟨7075, nano_header 12 0 0⟩]).client_packet_type = 12 :=
  ⟨(client_packet_type_reachable_values 7075
      [⟨7075, bulk_pull_message⟩, ⟨50000, [1]⟩]).2.1,
    by decide, by decide⟩

set_option maxRecDepth 100000 in
/-- C4 (code defect). The framer has no case for Bulk Pull, Frontier Req and Bulk Push: for
a Bulk Pull header with 64 body bytes and one further byte it returns 73 instead of 72, with
the extended flag set and 72 body bytes and one further byte 81 instead of 80, for a
Frontier Req header with 40 body bytes and one further byte 49 instead of 48, and for a Bulk
Push header followed by one byte 9 instead of 8. -/
theorem get_nano_message_len_bulk_requests_take_all_bytes :
    get_nano_message_len (new_session_state 7075)
        (nano_header 6 0 0 ++ List.replicate 64 0 ++ [0x52]) 0 = some 73
      ∧ get_nano_message_len (new_session_state 7075)
        (nano_header 6 1 0 ++ List.replicate 72 0 ++ [0x52]) 0 = some 81
      ∧ get_nano_message_len (new_session_state 7075)
        (nano_header 8 0 0 ++ List.replicate 40 0 ++ [0x52]) 0 = some 49
      ∧ get_nano_message_len (new_session_state 7075) (nano_header 7 0 0 ++ [1]) 0 = some 9 := by
  decide

/-- C5. With no continuation pending and a full header at `offset`, the framer returns 152
for a Keepalive header, 8 for Telemetry Req, 210 for Telemetry Ack and 57 for Bulk Pull
Account, for every extensions value and every payload. -/
theorem get_nano_message_len_fixed_sizes (st : nano_session_state) (tvb : tvbuff_t)
    (offset : Nat) (t : guint8)
    (hp : does_prev_packet_expect_headerless_response st = 0)
    (hlen : offset + 8 ≤ tvb.length) (h32 : tvb.length < 2 ^ 32)
    (ht : tvb_get_guint8 tvb (offset + 5) = some t) :
    (t.val = NANO_PACKET_TYPE_KEEPALIVE → get_nano_message_len st tvb offset = some 152)
      ∧ (t.val = NANO_PACKET_TYPE_TELEMETRY_REQ → get_nano_message_len st tvb offset = some 8)
      ∧ (t.val = NANO_PACKET_TYPE_TELEMETRY_ACK →
          get_nano_message_len st tvb offset = some 210)
      ∧ (t.val = NANO_PACKET_TYPE_BULK_PULL_ACCOUNT →
          get_nano_message_len st tvb offset = some 57) := by
  obtain ⟨extensions, hext⟩ := tvb_get_letohs_isSome tvb (offset + 6) (by omega)
  rw [get_nano_message_len_headered st tvb offset t extensions hp hlen h32 ht hext]
  refine ⟨?_, ?_, ?_, ?_⟩ <;> intro hk <;> simp +decide only [hk, reduceIte]

set_option maxRecDepth 100000 in
/-- C5 at a Telemetry Ack header with extensions 0xffff followed by 0xff bytes, read at
offset 0 in a fresh session. -/
theorem get_nano_message_len_fixed_sizes_witness :
    get_nano_message_len (new_session_state 7075)
      (nano_header 13 0xff 0xff ++ List.replicate 300 0xff) 0 = some 210 :=
  (get_nano_message_len_fixed_sizes (new_session_state 7075)
    (nano_header 13 0xff 0xff ++ List.replicate 300 0xff) 0 13 (by decide) (by decide)
    (by decide) (by decide)).2.2.1 (by decide)

set_option maxRecDepth 100000 in
/-- C6 (code defect). For the bare 8-byte Telemetry Req header the framer declares 8 bytes
and `dissect_nano` returns 0. -/
theorem dissect_nano_telemetry_req_returns_zero :
    get_nano_message_len (new_session_state 7075) (nano_header 12 0 0) 0 = some 8
      ∧ ((dissect_nano (nano_header 12 0 0)).run
          (message_env (new_session_state 7075) 7075)).1 = some 0 := by
  decide

set_option maxRecDepth 100000 in
/-- C7 as stated fails: with a Bulk Pull pending and a one-byte message `[1]` sent to the
server port, the framer declares 1 byte, the buffer holds it, and `dissect_nano` returns
0. -/
theorem dissect_nano_unknown_headerless_returns_less_than_framed :
    get_nano_message_len (pending_session 6) [1] 0 = some 1
      ∧ 1 ≤ ([1] : tvbuff_t).length
      ∧ ((dissect_nano [1]).run (message_env (pending_session 6) 7075)).1 = some 0
      ∧ ¬ (1 ≤ 0) := by
  decide

/-- C7, amended. For every session state and every buffer that holds at least the number of
bytes `get_nano_message_len` declares for it, `dissect_nano` returns at least that length
when the message reaches the decoder the framer sized it for: a continuation from the server
while a Bulk Pull, Frontier Req or Bulk Pull Account is pending; a continuation from the
client while a Bulk Push is pending, with type byte Not-A-Block or a recognised block type;
or, with nothing pending, a buffer shorter than a header, a header of type Keepalive,
Node ID Handshake, Telemetry Ack, Bulk Pull Account or Confirm Req, of type Publish or
Confirm Ack with a recognised block type (Confirm Ack also Not-A-Block), or of a type
`dissect_nano` has no decoder for. -/
theorem dissect_nano_returns_at_least_framed_length (e : dissect_env) (tvb : tvbuff_t)
    (n : Nat) (h32 : tvb.length < 2 ^ 32)
    (hn : get_nano_message_len e.session_state tvb 0 = some n) (hfit : n ≤ tvb.length)
    (hcase :
      (does_prev_packet_expect_headerless_response e.session_state ≠ 0
        ∧ e.pinfo.destport ≠ e.session_state.server_port
        ∧ e.session_state.client_packet_type ≠ NANO_PACKET_TYPE_BULK_PUSH)
      ∨ (e.session_state.client_packet_type = NANO_PACKET_TYPE_BULK_PUSH
        ∧ e.pinfo.destport = e.session_state.server_port
        ∧ ∃ b, tvb_get_guint8 tvb 0 = some b
          ∧ (((b.val : Nat) : Int) = NANO_BLOCK_TYPE_NOT_A_BLOCK
            ∨ is_block_type ((b.val : Nat) : Int)))
      ∨ (does_prev_packet_expect_headerless_response e.session_state = 0
        ∧ tvb.length < 8)
      ∨ (does_prev_packet_expect_headerless_response e.session_state = 0
        ∧ ∃ t extensions, tvb_get_guint8 tvb 5 = some t
          ∧ tvb_get_letohs tvb 6 = some extensions
          ∧ (t.val = NANO_PACKET_TYPE_KEEPALIVE ∨ t.val = NANO_PACKET_TYPE_NODE_ID_HANDSHAKE
            ∨ t.val = NANO_PACKET_TYPE_TELEMETRY_ACK
            ∨ t.val = NANO_PACKET_TYPE_BULK_PULL_ACCOUNT
            ∨ t.val = NANO_PACKET_TYPE_CONFIRM_REQ
            ∨ ((t.val = NANO_PACKET_TYPE_PUBLISH ∨ t.val = NANO_PACKET_TYPE_CONFIRM_ACK)
              ∧ is_block_type (((extensions &&& 0x0f00) >>> 8 : Nat) : Int))
            ∨ (t.val = NANO_PACKET_TYPE_CONFIRM_ACK
              ∧ (((extensions &&& 0x0f00) >>> 8 : Nat) : Int) = NANO_BLOCK_TYPE_NOT_A_BLOCK)
            ∨ (t.val ≠ NANO_PACKET_TYPE_TELEMETRY_ACK ∧ t.val ≠ NANO_PACKET_TYPE_TELEMETRY_REQ
              ∧ t.val ≠ NANO_PACKET_TYPE_NODE_ID_HANDSHAKE
              ∧ t.val ≠ NANO_PACKET_TYPE_KEEPALIVE ∧ t.val ≠ NANO_PACKET_TYPE_CONFIRM_REQ
              ∧ t.val ≠ NANO_PACKET_TYPE_CONFIRM_ACK ∧ t.val ≠ NANO_PACKET_TYPE_PUBLISH
              ∧ t.val ≠ NANO_PACKET_TYPE_BULK_PULL_ACCOUNT
              ∧ t.val ≠ NANO_PACKET_TYPE_FRONTIER_REQ
              ∧ t.val ≠ NANO_PACKET_TYPE_BULK_PULL)))) :
    ∃ r, ((dissect_nano tvb).run e).1 = some r ∧ n ≤ r := by
  rcases hcase with ⟨hp, hd, h7⟩ | ⟨h7, hd, b, hb, hbt⟩ | ⟨hp, h8⟩ | ⟨hp, t, extensions, ht,
    hext, hk⟩
  · exact dissect_nano_headerless_server_returns e tvb n hp hd h7 hn hfit
  · exact dissect_nano_headerless_bulk_push_returns e tvb n b h7 hd hb hbt hn hfit
  · obtain ⟨hlen, hret⟩ := dissect_nano_short_header e tvb hp h8
    rw [hlen, Option.some.injEq] at hn
    exact ⟨0, hret, by omega⟩
  · have h8 : 8 ≤ tvb.length := by
      unfold tvb_get_letohs tvb_get_bytes at hext
      by_contra hc
      rw [if_neg hc] at hext
      exact Option.noConfusion hext
    rcases hk with hk | hk | hk | hk | hk | ⟨hk, hb⟩ | ⟨hk, hb⟩ | hk
    · exact ⟨n, dissect_nano_headered_returns e tvb t extensions n hp h8 h32 ht hext
        (Or.inl hk) hn hfit, le_refl n⟩
    · exact ⟨n, dissect_nano_headered_returns e tvb t extensions n hp h8 h32 ht hext
        (Or.inr (Or.inl hk)) hn hfit, le_refl n⟩
    · exact ⟨n, dissect_nano_headered_returns e tvb t extensions n hp h8 h32 ht hext
        (Or.inr (Or.inr (Or.inl hk))) hn hfit, le_refl n⟩
    · exact ⟨n, dissect_nano_headered_returns e tvb t extensions n hp h8 h32 ht hext
        (Or.inr (Or.inr (Or.inr (Or.inl hk)))) hn hfit, le_refl n⟩
    · by_cases h1 : (((extensions &&& 0x0f00) >>> 8 : Nat) : Int) = NANO_BLOCK_TYPE_NOT_A_BLOCK
      · exact ⟨n, dissect_nano_headered_returns e tvb t extensions n hp h8 h32 ht hext
          (Or.inr (Or.inr (Or.inr (Or.inr (Or.inr ⟨Or.inl hk, h1⟩))))) hn hfit, le_refl n⟩
      · by_cases hb : is_block_type (((extensions &&& 0x0f00) >>> 8 : Nat) : Int)
        · exact ⟨n, dissect_nano_headered_returns e tvb t extensions n hp h8 h32 ht hext
            (Or.inr (Or.inr (Or.inr (Or.inr (Or.inl ⟨Or.inr (Or.inl hk), hb⟩))))) hn hfit,
            le_refl n⟩
        · obtain ⟨hlen, hret⟩ :=
            dissect_nano_confirm_req_unrecognised e tvb t extensions hp h8 h32 ht hext hk
              hb h1
          rw [hlen, Option.some.injEq] at hn
          exact ⟨0, hret, by omega⟩
    · rcases hk with hk | hk
      · exact ⟨n, dissect_nano_headered_returns e tvb t extensions n hp h8 h32 ht hext
          (Or.inr (Or.inr (Or.inr (Or.inr (Or.inl ⟨Or.inl hk, hb⟩))))) hn hfit, le_refl n⟩
      · exact ⟨n, dissect_nano_headered_returns e tvb t extensions n hp h8 h32 ht hext
          (Or.inr (Or.inr (Or.inr (Or.inr (Or.inl ⟨Or.inr (Or.inr hk), hb⟩))))) hn hfit,
          le_refl n⟩
    · exact ⟨n, dissect_nano_headered_returns e tvb t extensions n hp h8 h32 ht hext
        (Or.inr (Or.inr (Or.inr (Or.inr (Or.inr ⟨Or.inr hk, hb⟩))))) hn hfit, le_refl n⟩
    · obtain ⟨hlen, hret⟩ := dissect_nano_no_decoder e tvb t extensions hp h8 h32 ht hext hk
      rw [hlen, Option.some.injEq] at hn
      exact ⟨tvb.length, hret, by omega⟩

set_option maxRecDepth 100000 in
/-- C7, amended, at a Bulk Pull Response carrying a Send block, sent by the server while a
Bulk Pull is pending: 153 bytes are framed and at least 153 are returned. -/
theorem dissect_nano_returns_at_least_framed_length_witness :
    get_nano_message_len (pending_session 6) send_block_message 0 = some 153
      ∧ ∃ r, ((dissect_nano send_block_message).run
          (message_env (pending_session 6) 50000)).1 = some r ∧ 153 ≤ r :=
  ⟨by decide,
    dissect_nano_returns_at_least_framed_length (message_env (pending_session 6) 50000)
      send_block_message 153 (by decide) (by decide) (by decide) (Or.inl (by decide))⟩

set_option maxRecDepth 100000 in
/-- C8 (code defect). With the unrecognised block type 0 and three bytes (or a header and
three bytes) in the buffer, the framer returns the remaining bytes only for a Bulk Push
continuation (3); it returns 1 for a Bulk Pull continuation, 8 for Publish, 0 for
Confirm Req and 112 for Confirm Ack, where 11 bytes remain. -/
theorem get_nano_message_len_unrecognised_block_type :
    get_nano_message_len (pending_session 7) [0, 0, 0] 0 = some 3
      ∧ get_nano_message_len (pending_session 6) [0, 0, 0] 0 = some 1
      ∧ get_nano_message_len (new_session_state 7075) (nano_header 3 0 0 ++ [0, 0, 0]) 0
        = some 8
      ∧ get_nano_message_len (new_session_state 7075) (nano_header 4 0 0 ++ [0, 0, 0]) 0
        = some 0
      ∧ get_nano_message_len (new_session_state 7075) (nano_header 5 0 0 ++ [0, 0, 0]) 0
        = some 112 := by
  decide

/-- C9. `get_block_type_size` is 152 for Send, 136 for Receive, 168 for Open, 136 for
Change, 216 for State and 0 for every other integer; and each of the five sizes is the sum
of the widths of the fields the block decoder of that type reads from a buffer holding the
block. -/
theorem get_block_type_size_table :
    get_block_type_size 2 = 152 ∧ get_block_type_size 3 = 136 ∧ get_block_type_size 4 = 168
      ∧ get_block_type_size 5 = 136 ∧ get_block_type_size 6 = 216
      ∧ (∀ block_type : Int, block_type ≠ 2 → block_type ≠ 3 → block_type ≠ 4 →
          block_type ≠ 5 → block_type ≠ 6 → get_block_type_size block_type = 0)
      ∧ (∀ (block_type : Int) (tvb : tvbuff_t) (offset : Nat) (e : dissect_env),
          is_block_type block_type → offset + get_block_type_size block_type ≤ tvb.length →
          tree_item_bytes ((dissect_nano_block block_type tvb offset).run e).2.tree
            = tree_item_bytes e.tree + get_block_type_size block_type) := by
  refine ⟨rfl, rfl, rfl, rfl, rfl, ?_, ?_⟩
  · intro block_type h2 h3 h4 h5 h6
    apply get_block_type_size_eq_zero
    unfold is_block_type NANO_BLOCK_TYPE_SEND NANO_BLOCK_TYPE_RECEIVE NANO_BLOCK_TYPE_OPEN
      NANO_BLOCK_TYPE_CHANGE NANO_BLOCK_TYPE_STATE
    omega
  · intro block_type tvb offset e hb h
    rcases hb with hb | hb | hb | hb | hb <;> subst hb
    · exact dissect_nano_send_block_item_bytes tvb offset e h
    · exact dissect_nano_receive_block_item_bytes tvb offset e h
    · exact dissect_nano_open_block_item_bytes tvb offset e h
    · exact dissect_nano_change_block_item_bytes tvb offset e h
    · exact dissect_nano_state_item_bytes tvb offset e h

set_option maxRecDepth 100000 in
/-- C9 at the block type 7, which has size 0, and at a Send block read from a 152-byte
buffer, whose fields are 152 bytes wide in total. -/
theorem get_block_type_size_table_witness :
    get_block_type_size 7 = 0
      ∧ tree_item_bytes ((dissect_nano_block 2 (List.replicate 152 0) 0).run
          (message_env (new_session_state 7075) 7075)).2.tree = 0 + 152 :=
  ⟨get_block_type_size_table.2.2.2.2.2.1 7 (by decide) (by decide) (by decide) (by decide)
      (by decide),
    get_block_type_size_table.2.2.2.2.2.2 2 (List.replicate 152 0) 0
      (message_env (new_session_state 7075) 7075) (by decide) (by decide)⟩

/-- C10. For a block type among Send, Receive, Open, Change, State and a buffer that holds
the block at `offset`, `dissect_nano_block` returns `offset` plus `get_block_type_size` of
the type. -/
theorem dissect_nano_block_consumes_block_size (block_type : Int) (tvb : tvbuff_t)
    (offset : Nat) (e : dissect_env) (hb : is_block_type block_type)
    (h : offset + get_block_type_size block_type ≤ tvb.length) :
    ((dissect_nano_block block_type tvb offset).run e).1
      = some (offset + get_block_type_size block_type) :=
  dissect_nano_block_returns block_type tvb offset e hb h

set_option maxRecDepth 100000 in
/-- C10 at a State block read at offset 9 of a 225-byte buffer. -/
theorem dissect_nano_block_consumes_block_size_witness :
    ((dissect_nano_block 6 (List.replicate 225 0) 9).run
        (message_env (new_session_state 7075) 7075)).1 = some (9 + 216) :=
  dissect_nano_block_consumes_block_size 6 (List.replicate 225 0) 9
    (message_env (new_session_state 7075) 7075) (by decide) (by decide)

/-- C11 (code defect). For every block type outside Send, Receive, Open, Change, State
`dissect_nano_block` returns the literal 0 at every start offset, so the cursor it returns
is the start offset only when that offset is 0. -/
theorem dissect_nano_block_unknown_type_returns_literal_zero (block_type : Int)
    (tvb : tvbuff_t) (offset : Nat) (e : dissect_env) (hb : ¬ is_block_type block_type) :
    ((dissect_nano_block block_type tvb offset).run e).1 = some 0
      ∧ (((dissect_nano_block block_type tvb offset).run e).1 = some offset ↔ offset = 0) := by
  have h0 : ((dissect_nano_block block_type tvb offset).run e).1 = some 0 :=
    dissect_nano_block_returns_zero block_type tvb offset e hb
  refine ⟨h0, ?_⟩
  rw [h0, Option.some_inj]
  exact eq_comm

/-- C11 at block type 7 and start offset 8, the body offset of a Publish: the decoder
returns 0, and `dissect_nano` returns 0 for the Publish header the framer sizes as 8. -/
theorem dissect_nano_block_unknown_type_returns_literal_zero_witness :
    ¬ is_block_type 7
      ∧ ((dissect_nano_block 7 [] 8).run (message_env (new_session_state 7075) 7075)).1
        = some 0
      ∧ ((dissect_nano_block 7 [] 8).run (message_env (new_session_state 7075) 7075)).1
        ≠ some 8
      ∧ get_nano_message_len (new_session_state 7075) (nano_header 3 0 7) 0 = some 8
      ∧ ((dissect_nano (nano_header 3 0 7)).run
          (message_env (new_session_state 7075) 7075)).1 = some 0 :=
  ⟨by decide,
    (dissect_nano_block_unknown_type_returns_literal_zero 7 [] 8
      (message_env (new_session_state 7075) 7075) (by decide)).1,
    fun h => absurd ((dissect_nano_block_unknown_type_returns_literal_zero 7 [] 8
      (message_env (new_session_state 7075) 7075) (by decide)).2.mp h) (by decide),
    by decide, by decide⟩

/-- C12. For each of the five block variants, when the buffer holds at the start offset the
fields of a block one after the other in the declared order, with arbitrary bytes in each
field (and arbitrary bytes before and after the block), `dissect_nano_block` consumes the
block and the field values it adds to the tree are exactly those fields, in that order. -/
theorem dissect_nano_block_round_trip (pre post : List guint8) (e : dissect_env) :
    (∀ previous destination balance signature work tvb : List guint8,
        previous.length = 32 → destination.length = 32 → balance.length = 16 →
        signature.length = 64 → work.length = 8 →
        tvb = pre ++ previous ++ destination ++ balance ++ signature ++ work ++ post →
        ((dissect_nano_block NANO_BLOCK_TYPE_SEND tvb pre.length).run e).1
            = some (pre.length + 152)
          ∧ tree_fields tvb
              ((dissect_nano_block NANO_BLOCK_TYPE_SEND tvb pre.length).run e).2.tree
            = tree_fields tvb e.tree
              ++ [(.block_hash_previous, previous), (.block_destination_account, destination),
                (.block_balance, balance), (.block_signature, signature),
                (.block_work, work)])
      ∧ (∀ previous source signature work tvb : List guint8,
        previous.length = 32 → source.length = 32 → signature.length = 64 →
        work.length = 8 →
        tvb = pre ++ previous ++ source ++ signature ++ work ++ post →
        ((dissect_nano_block NANO_BLOCK_TYPE_RECEIVE tvb pre.length).run e).1
            = some (pre.length + 136)
          ∧ tree_fields tvb
              ((dissect_nano_block NANO_BLOCK_TYPE_RECEIVE tvb pre.length).run e).2.tree
            = tree_fields tvb e.tree
              ++ [(.block_hash_previous, previous), (.block_hash_source, source),
                (.block_signature, signature), (.block_work, work)])
      ∧ (∀ source representative account signature work tvb : List guint8,
        source.length = 32 → representative.length = 32 → account.length = 32 →
        signature.length = 64 → work.length = 8 →
        tvb = pre ++ source ++ representative ++ account ++ signature ++ work ++ post →
        ((dissect_nano_block NANO_BLOCK_TYPE_OPEN tvb pre.length).run e).1
            = some (pre.length + 168)
          ∧ tree_fields tvb
              ((dissect_nano_block NANO_BLOCK_TYPE_OPEN tvb pre.length).run e).2.tree
            = tree_fields tvb e.tree
              ++ [(.block_hash_source, source), (.block_representative_account, representative),
                (.block_account, account), (.block_signature, signature),
                (.block_work, work)])
      ∧ (∀ previous representative signature work tvb : List guint8,
        previous.length = 32 → representative.length = 32 → signature.length = 64 →
        work.length = 8 →
        tvb = pre ++ previous ++ representative ++ signature ++ work ++ post →
        ((dissect_nano_block NANO_BLOCK_TYPE_CHANGE tvb pre.length).run e).1
            = some (pre.length + 136)
          ∧ tree_fields tvb
              ((dissect_nano_block NANO_BLOCK_TYPE_CHANGE tvb pre.length).run e).2.tree
            = tree_fields tvb e.tree
              ++ [(.block_hash_previous, previous),
                (.block_representative_account, representative),
                (.block_signature, signature), (.block_work, work)])
      ∧ (∀ account previous representative balance link signature work tvb : List guint8,
        account.length = 32 → previous.length = 32 → representative.length = 32 →
        balance.length = 16 → link.length = 32 → signature.length = 64 → work.length = 8 →
        tvb = pre ++ account ++ previous ++ representative ++ balance ++ link ++ signature
          ++ work ++ post →
        ((dissect_nano_block NANO_BLOCK_TYPE_STATE tvb pre.length).run e).1
            = some (pre.length + 216)
          ∧ tree_fields tvb
              ((dissect_nano_block NANO_BLOCK_TYPE_STATE tvb pre.length).run e).2.tree
            = tree_fields tvb e.tree
              ++ [(.block_account, account), (.block_hash_previous, previous),
                (.block_representative_account, representative), (.block_balance, balance),
                (.block_link, link), (.block_signature, signature), (.block_work, work)]) := by
  obtain ⟨hs, hr, ho, hc, hst⟩ := dissect_nano_block_eq_decoder
  rw [hs, hr, ho, hc, hst]
  refine ⟨?_, ?_, ?_, ?_, ?_⟩
  · intro previous destination balance signature work tvb h1 h2 h3 h4 h5 htvb
    exact dissect_nano_send_block_fields tvb pre previous destination balance signature work
      post e (by rw [htvb]; simp only [List.append_assoc]) h1 h2 h3 h4 h5
  · intro previous source signature work tvb h1 h2 h3 h4 htvb
    exact dissect_nano_receive_block_fields tvb pre previous source signature work
      post e (by rw [htvb]; simp only [List.append_assoc]) h1 h2 h3 h4
  · intro source representative account signature work tvb h1 h2 h3 h4 h5 htvb
    exact dissect_nano_open_block_fields tvb pre source representative account signature work
      post e (by rw [htvb]; simp only [List.append_assoc]) h1 h2 h3 h4 h5
  · intro previous representative signature work tvb h1 h2 h3 h4 htvb
    exact dissect_nano_change_block_fields tvb pre previous representative signature work
      post e (by rw [htvb]; simp only [List.append_assoc]) h1 h2 h3 h4
  · intro account previous representative balance link signature work tvb h1 h2 h3 h4 h5 h6
      h7 htvb
    exact dissect_nano_state_fields tvb pre account previous representative balance link
      signature work post e (by rw [htvb]; simp only [List.append_assoc]) h1 h2 h3 h4 h5 h6 h7

set_option maxRecDepth 100000 in
/-- C12 at one block of each variant, read at offset 1 behind its block-type byte. -/
theorem dissect_nano_block_round_trip_witness :
    tree_fields send_block_example
        ((dissect_nano_block NANO_BLOCK_TYPE_SEND send_block_example 1).run
          (message_env (pending_session 6) 50000)).2.tree
      = [(.block_hash_previous, List.replicate 32 1),
        (.block_destination_account, List.replicate 32 2),
        (.block_balance, List.replicate 16 3), (.block_signature, List.replicate 64 4),
        (.block_work, List.replicate 8 5)]
    ∧ tree_fields receive_block_example
        ((dissect_nano_block NANO_BLOCK_TYPE_RECEIVE receive_block_example 1).run
          (message_env (pending_session 6) 50000)).2.tree
      = [(.block_hash_previous, List.replicate 32 1),
        (.block_hash_source, List.replicate 32 2), (.block_signature, List.replicate 64 3),
        (.block_work, List.replicate 8 4)]
    ∧ tree_fields open_block_example
        ((dissect_nano_block NANO_BLOCK_TYPE_OPEN open_block_example 1).run
          (message_env (pending_session 6) 50000)).2.tree
      = [(.block_hash_source, List.replicate 32 1),
        (.block_representative_account, List.replicate 32 2),
        (.block_account, List.replicate 32 3), (.block_signature, List.replicate 64 4),
        (.block_work, List.replicate 8 5)]
    ∧ tree_fields change_block_example
        ((dissect_nano_block NANO_BLOCK_TYPE_CHANGE change_block_example 1).run
          (message_env (pending_session 6) 50000)).2.tree
      = [(.block_hash_previous, List.replicate 32 1),
        (.block_representative_account, List.replicate 32 2),
        (.block_signature, List.replicate 64 3), (.block_work, List.replicate 8 4)]
    ∧ tree_fields state_block_example
        ((dissect_nano_block NANO_BLOCK_TYPE_STATE state_block_example 1).run
          (message_env (pending_session 6) 50000)).2.tree
      = [(.block_account, List.replicate 32 1), (.block_hash_previous, List.replicate 32 2),
        (.block_representative_account, List.replicate 32 3),
        (.block_balance, List.replicate 16 4), (.block_link, List.replicate 32 5),
        (.block_signature, List.replicate 64 6), (.block_work, List.replicate 8 7)] :=
  ⟨((dissect_nano_block_round_trip [2] [] (message_env (pending_session 6) 50000)).1
      (List.replicate 32 1) (List.replicate 32 2) (List.replicate 16 3)
      (List.replicate 64 4) (List.replicate 8 5) send_block_example
      rfl rfl rfl rfl rfl (by decide)).2,
    ((dissect_nano_block_round_trip [3] [] (message_env (pending_session 6) 50000)).2.1
      (List.replicate 32 1) (List.replicate 32 2) (List.replicate 64 3)
      (List.replicate 8 4) receive_block_example rfl rfl rfl rfl (by decide)).2,
    ((dissect_nano_block_round_trip [4] [] (message_env (pending_session 6) 50000)).2.2.1
      (List.replicate 32 1) (List.replicate 32 2) (List.replicate 32 3)
      (List.replicate 64 4) (List.replicate 8 5) open_block_example
      rfl rfl rfl rfl rfl (by decide)).2,
    ((dissect_nano_block_round_trip [5] [] (message_env (pending_session 6) 50000)).2.2.2.1
      (List.replicate 32 1) (List.replicate 32 2) (List.replicate 64 3)
      (List.replicate 8 4) change_block_example rfl rfl rfl rfl (by decide)).2,
    ((dissect_nano_block_round_trip [6] [] (message_env (pending_session 6) 50000)).2.2.2.2
      (List.replicate 32 1) (List.replicate 32 2) (List.replicate 32 3)
      (List.replicate 16 4) (List.replicate 32 5) (List.replicate 64 6)
      (List.replicate 8 7) state_block_example rfl rfl rfl rfl rfl rfl rfl (by decide)).2⟩

/-- C13. For extensions whose block type (bits 8-11) is Not-A-Block and whose item count
(bits 12-15) is N, N is at most 15; on a buffer holding the N×64 body bytes
`dissect_nano_confirm_req` adds N first-hash and N second-hash entries to the tree and returns
the body offset advanced by N×64; on a buffer holding 104 + N×32 body bytes
`dissect_nano_confirm_ack` adds N hash entries and returns the body offset advanced by
104 + N×32. -/
theorem confirm_by_hash_items_and_length (tvb : tvbuff_t) (offset extensions : Nat)
    (e : dissect_env)
    (hb : (((extensions &&& 0x0f00) >>> 8 : Nat) : Int) = NANO_BLOCK_TYPE_NOT_A_BLOCK) :
    (extensions &&& 0xf000) >>> 12 ≤ 15
      ∧ (offset + ((extensions &&& 0xf000) >>> 12) * 64 ≤ tvb.length →
          ((dissect_nano_confirm_req tvb offset extensions).run e).1
              = some (offset + ((extensions &&& 0xf000) >>> 12) * 64)
            ∧ tree_item_count .hash_pair_first
                ((dissect_nano_confirm_req tvb offset extensions).run e).2.tree
              = tree_item_count .hash_pair_first e.tree + (extensions &&& 0xf000) >>> 12
            ∧ tree_item_count .hash_pair_second
                ((dissect_nano_confirm_req tvb offset extensions).run e).2.tree
              = tree_item_count .hash_pair_second e.tree + (extensions &&& 0xf000) >>> 12)
      ∧ (offset + 104 + ((extensions &&& 0xf000) >>> 12) * 32 ≤ tvb.length →
          ((dissect_nano_confirm_ack tvb offset extensions).run e).1
              = some (offset + 104 + ((extensions &&& 0xf000) >>> 12) * 32)
            ∧ tree_item_count .confirm_ack_hash
                ((dissect_nano_confirm_ack tvb offset extensions).run e).2.tree
              = tree_item_count .confirm_ack_hash e.tree + (extensions &&& 0xf000) >>> 12) :=
  ⟨item_count_le_fifteen extensions,
    dissect_nano_confirm_req_run_hashes tvb offset extensions e hb,
    dissect_nano_confirm_ack_run_hashes tvb offset extensions e hb⟩

set_option maxRecDepth 100000 in
/-- C13 at extensions 0x2100 (Not-A-Block, N = 2), body offset 8. -/
theorem confirm_by_hash_items_and_length_witness :
    (0x2100 &&& 0xf000) >>> 12 = 2
      ∧ ((dissect_nano_confirm_req confirm_req_two_pairs 8 0x2100).run
          (message_env (new_session_state 7075) 7075)).1 = some (8 + 2 * 64)
      ∧ tree_item_count .hash_pair_first
          ((dissect_nano_confirm_req confirm_req_two_pairs 8 0x2100).run
            (message_env (new_session_state 7075) 7075)).2.tree = 2
      ∧ ((dissect_nano_confirm_ack confirm_ack_two_hashes 8 0x2100).run
          (message_env (new_session_state 7075) 7075)).1 = some (8 + 104 + 2 * 32)
      ∧ tree_item_count .confirm_ack_hash
          ((dissect_nano_confirm_ack confirm_ack_two_hashes 8 0x2100).run
            (message_env (new_session_state 7075) 7075)).2.tree = 2 :=
  ⟨by decide,
    ((confirm_by_hash_items_and_length confirm_req_two_pairs 8 0x2100
      (message_env (new_session_state 7075) 7075) (by decide)).2.1 (by decide)).1,
    ((confirm_by_hash_items_and_length confirm_req_two_pairs 8 0x2100
      (message_env (new_session_state 7075) 7075) (by decide)).2.1 (by decide)).2.1,
    ((confirm_by_hash_items_and_length confirm_ack_two_hashes 8 0x2100
      (message_env (new_session_state 7075) 7075) (by decide)).2.2 (by decide)).1,
    ((confirm_by_hash_items_and_length confirm_ack_two_hashes 8 0x2100
      (message_env (new_session_state 7075) 7075) (by decide)).2.2 (by decide)).2⟩

/-- C14. For a Node ID Handshake header with any extensions value, the framer returns
8 + n and, on a buffer holding the body, `dissect_nano_node_id_handshake` returns the body
offset advanced by n, where n is 0 when bits 0 and 1 of the extensions are both clear, 32
when only bit 0 is set, 96 when only bit 1 is set and 128 when both are set; the other bits
play no part. -/
theorem node_id_handshake_body_length (st : nano_session_state) (tvb : tvbuff_t)
    (offset extensions : Nat) (e : dissect_env)
    (hp : does_prev_packet_expect_headerless_response st = 0)
    (hlen : offset + 8 ≤ tvb.length) (h32 : tvb.length < 2 ^ 32)
    (ht : tvb_get_guint8 tvb (offset + 5) = some 10)
    (hext : tvb_get_letohs tvb (offset + 6) = some extensions) :
    ∃ n, get_nano_message_len st tvb offset = some (8 + n)
      ∧ (offset + 8 + n ≤ tvb.length →
          ((dissect_nano_node_id_handshake tvb (offset + 8) extensions).run e).1
            = some (offset + 8 + n))
      ∧ (extensions.testBit 0 = false → extensions.testBit 1 = false → n = 0)
      ∧ (extensions.testBit 0 = true → extensions.testBit 1 = false → n = 32)
      ∧ (extensions.testBit 0 = false → extensions.testBit 1 = true → n = 96)
      ∧ (extensions.testBit 0 = true → extensions.testBit 1 = true → n = 128) := by
  have hq : extensions &&& 0x0001 ≠ 0 ↔ extensions.testBit 0 = true :=
    and_two_pow_ne_zero extensions 0
  have hr : extensions &&& 0x0002 ≠ 0 ↔ extensions.testBit 1 = true :=
    and_two_pow_ne_zero extensions 1
  refine ⟨(if extensions &&& 0x0001 ≠ 0 then 32 else 0)
    + (if extensions &&& 0x0002 ≠ 0 then 96 else 0), ?_, ?_, ?_, ?_, ?_, ?_⟩
  · rw [get_nano_message_len_headered st tvb offset 10 extensions hp hlen h32 ht hext]
    simp +decide only [reduceIte]
  · intro h
    exact dissect_nano_node_id_handshake_returns tvb (offset + 8) extensions e h
  · intro h0 h1
    rw [if_neg (by rw [hq, h0]; decide), if_neg (by rw [hr, h1]; decide)]
  · intro h0 h1
    rw [if_pos (hq.mpr h0), if_neg (by rw [hr, h1]; decide)]
  · intro h0 h1
    rw [if_neg (by rw [hq, h0]; decide), if_pos (hr.mpr h1)]
  · intro h0 h1
    rw [if_pos (hq.mpr h0), if_pos (hr.mpr h1)]

set_option maxRecDepth 100000 in
/-- C14 at a handshake carrying both a query and a response. -/
theorem node_id_handshake_body_length_witness :
    get_nano_message_len (new_session_state 7075) node_id_handshake_message 0 = some 136
      ∧ ((dissect_nano_node_id_handshake node_id_handshake_message 8 3).run
          (message_env (new_session_state 7075) 7075)).1 = some 136 := by
  obtain ⟨n, h1, h2, -, -, -, h3⟩ := node_id_handshake_body_length (new_session_state 7075)
    node_id_handshake_message 0 3 (message_env (new_session_state 7075) 7075)
    (by decide) (by decide) (by decide) (by decide) (by decide)
  have hn : n = 128 := h3 (by decide) (by decide)
  subst hn
  exact ⟨h1, h2 (by decide)⟩

/-- C15. While a Bulk Pull is pending, a message from the server whose leading byte is 1
(Not-A-Block) is framed as 1 byte by `get_nano_message_len`, `dissect_nano` returns 1 for it,
and afterwards `does_prev_packet_expect_headerless_response` is 0: no continuation is pending
and the next message is parsed with a header. -/
theorem bulk_pull_response_end_closes_continuation (e : dissect_env) (tvb : tvbuff_t)
    (hc : e.session_state.client_packet_type = NANO_PACKET_TYPE_BULK_PULL)
    (hd : e.pinfo.destport ≠ e.session_state.server_port)
    (hb : tvb_get_guint8 tvb 0 = some 1) :
    get_nano_message_len e.session_state tvb 0 = some 1
      ∧ ((dissect_nano tvb).run e).1 = some 1
      ∧ does_prev_packet_expect_headerless_response
          ((dissect_nano tvb).run e).2.session_state = 0 := by
  have hp : does_prev_packet_expect_headerless_response e.session_state ≠ 0 :=
    (does_prev_packet_expect_headerless_response_ne_zero _).mpr (Or.inl hc)
  obtain ⟨e1, -, -, hrun⟩ := dissect_nano_run_server tvb e hp hd
  rw [hc] at hrun
  simp +decide only [reduceIte] at hrun
  obtain ⟨hr, hs⟩ := dissect_nano_headerless_bulk_pull_response_run_end tvb e1 1 hb (by decide)
  refine ⟨?_, ?_, ?_⟩
  · rw [get_nano_message_len_bulk_pull _ _ _ hc, hb]
    rfl
  · rw [hrun, hr]
  · rw [hrun, hs]
    rfl

set_option maxRecDepth 100000 in
/-- C15 at the one-byte message 01 from the server while a Bulk Pull is pending (server port
7075); the Telemetry Req that follows is decoded with its header. -/
theorem bulk_pull_response_end_closes_continuation_witness :
    (get_nano_message_len (pending_session 6) [1] 0 = some 1
      ∧ ((dissect_nano [1]).run (message_env (pending_session 6) 50000)).1 = some 1
      ∧ does_prev_packet_expect_headerless_response
          ((dissect_nano [1]).run (message_env (pending_session 6) 50000)).2.session_state
        = 0)
      ∧ (dissect_nano_messages (pending_session 6)
          [⟨50000, [1]⟩, ⟨7075, nano_header 12 0 0⟩]).client_packet_type
        = NANO_PACKET_TYPE_TELEMETRY_REQ :=
  ⟨bulk_pull_response_end_closes_continuation (message_env (pending_session 6) 50000) [1]
    (by decide) (by decide) (by decide), by decide⟩

/-- C16. While a Frontier Req is pending, the Frontier Response of 64 zero bytes from the
server is framed as 64 bytes, `dissect_nano` returns 64 for it, and it sets
`client_packet_type` to Invalid. -/
theorem frontier_response_end_clears_continuation (e : dissect_env)
    (hc : e.session_state.client_packet_type = NANO_PACKET_TYPE_FRONTIER_REQ)
    (hd : e.pinfo.destport ≠ e.session_state.server_port) :
    get_nano_message_len e.session_state frontier_response_end 0 = some 64
      ∧ ((dissect_nano frontier_response_end).run e).1 = some 64
      ∧ ((dissect_nano frontier_response_end).run e).2.session_state.client_packet_type
        = NANO_PACKET_TYPE_INVALID := by
  have hp : does_prev_packet_expect_headerless_response e.session_state ≠ 0 :=
    (does_prev_packet_expect_headerless_response_ne_zero _).mpr (Or.inr (Or.inr (Or.inl hc)))
  obtain ⟨e1, -, -, hrun⟩ := dissect_nano_run_server frontier_response_end e hp hd
  rw [hc] at hrun
  simp +decide only [reduceIte] at hrun
  obtain ⟨hr, hs⟩ := dissect_nano_headerless_frontier_response_run frontier_response_end e1
    0 0 (by decide) (by decide) (by decide)
  refine ⟨get_nano_message_len_frontier_req _ _ _ hc, ?_, ?_⟩
  · rw [hrun, hr]
  · rw [hrun, hs]
    rfl

/-- C16 in the session with a pending Frontier Req and server port 7075. -/
theorem frontier_response_end_clears_continuation_witness :
    get_nano_message_len (pending_session 8) frontier_response_end 0 = some 64
      ∧ ((dissect_nano frontier_response_end).run
          (message_env (pending_session 8) 50000)).1 = some 64
      ∧ ((dissect_nano frontier_response_end).run
          (message_env (pending_session 8) 50000)).2.session_state.client_packet_type
        = NANO_PACKET_TYPE_INVALID :=
  frontier_response_end_clears_continuation (message_env (pending_session 8) 50000)
    (by decide) (by decide)

set_option maxRecDepth 100000 in
/-- C17 (code defect). The 64-byte Frontier Response whose account is 00 00 00 00 01
followed by zero bytes has a non-zero byte in the account, yet decoding it while a Frontier
Req is pending sets `client_packet_type` to Invalid: the decoder compares only the 32-bit
words at offsets 0 and 32 with zero. -/
theorem frontier_response_low_account_clears_continuation :
    frontier_response_low_account.length = 64
      ∧ tvb_get_guint8 frontier_response_low_account 4 = some 1
      ∧ tvb_get_ntohl frontier_response_low_account 0 = some 0
      ∧ ((dissect_nano frontier_response_low_account).run
          (message_env (pending_session 8) 50000)).1 = some 64
      ∧ ((dissect_nano frontier_response_low_account).run
          (message_env (pending_session 8) 50000)).2.session_state.client_packet_type
        = NANO_PACKET_TYPE_INVALID := by
  decide

/-- C18. While a Bulk Pull Account is pending, the length `get_nano_message_len` gives a
response and the offset `dissect_nano_headerless_bulk_pull_account_response` returns on a
buffer holding that many bytes are the same number, fixed by the captured flags byte alone:
80 for flags 0x01, 128 for flags 0x02, 96 for 0x00 and every other value. -/
theorem bulk_pull_account_response_length (e : dissect_env) (tvb buf : tvbuff_t)
    (offset : Nat)
    (hc : e.session_state.client_packet_type = NANO_PACKET_TYPE_BULK_PULL_ACCOUNT)
    (hfit : (if e.session_state.bulk_pull_account_request_flags = 0x01 then 80
          else if e.session_state.bulk_pull_account_request_flags = 0x02 then 128 else 96)
        ≤ tvb.length) :
    ∃ n, get_nano_message_len e.session_state buf offset = some n
      ∧ ((dissect_nano_headerless_bulk_pull_account_response tvb).run e).1 = some n
      ∧ (e.session_state.bulk_pull_account_request_flags = 0x00 → n = 96)
      ∧ (e.session_state.bulk_pull_account_request_flags = 0x01 → n = 80)
      ∧ (e.session_state.bulk_pull_account_request_flags = 0x02 → n = 128)
      ∧ (e.session_state.bulk_pull_account_request_flags ≠ 0x00
          → e.session_state.bulk_pull_account_request_flags ≠ 0x01
          → e.session_state.bulk_pull_account_request_flags ≠ 0x02 → n = 96) := by
  refine ⟨_, get_nano_message_len_bulk_pull_account _ buf offset hc,
    dissect_nano_headerless_bulk_pull_account_response_returns tvb e hfit, ?_, ?_, ?_, ?_⟩
  · intro h
    rw [h]
    rfl
  · intro h
    rw [h]
    rfl
  · intro h
    rw [h]
    rfl
  · intro _ h1 h2
    rw [if_neg h1, if_neg h2]

set_option maxRecDepth 100000 in
/-- C18 for the flags 0x02 and a response of 128 zero bytes. -/
theorem bulk_pull_account_response_length_witness :
    get_nano_message_len (pending_bulk_pull_account 2) [] 0 = some 128
      ∧ ((dissect_nano_headerless_bulk_pull_account_response (List.replicate 128 0)).run
          (message_env (pending_bulk_pull_account 2) 50000)).1 = some 128 := by
  obtain ⟨n, h1, h2, -, -, h3, -⟩ := bulk_pull_account_response_length
    (message_env (pending_bulk_pull_account 2) 50000) (List.replicate 128 0) [] 0
    (by decide) (by decide)
  have hn : n = 128 := h3 (by decide)
  subst hn
  exact ⟨h1, h2⟩

set_option maxRecDepth 100000 in
/-- C19 (code defect). With captured flags 0x00, the 96-byte Bulk Pull Account Response
whose pending-entry hash (bytes 48..79) is 00 00 00 00 01 followed by zero bytes has a
non-zero byte in the hash, yet decoding it sets `client_packet_type` to Invalid: the decoder
compares only the 32-bit word at offset 48 with zero. -/
theorem bulk_pull_account_response_low_hash_clears_continuation :
    bulk_pull_account_response_low_hash.length = 96
      ∧ tvb_get_guint8 bulk_pull_account_response_low_hash 52 = some 1
      ∧ tvb_get_ntohl bulk_pull_account_response_low_hash 48 = some 0
      ∧ ((dissect_nano bulk_pull_account_response_low_hash).run
          (message_env (pending_bulk_pull_account 0) 50000)).1 = some 96
      ∧ ((dissect_nano bulk_pull_account_response_low_hash).run
          (message_env (pending_bulk_pull_account 0) 50000)).2.session_state.client_packet_type
        = NANO_PACKET_TYPE_INVALID := by
  decide

/-- C20. When a Bulk Pull Account with flags 0x01 (address-only) is pending, no sequence of
messages from the server changes the session state, whatever their bytes: after decoding
them `client_packet_type` is still BulkPullAccount. -/
theorem bulk_pull_account_address_only_never_clears (st : nano_session_state)
    (msgs : List nano_message)
    (hc : st.client_packet_type = NANO_PACKET_TYPE_BULK_PULL_ACCOUNT)
    (h1 : st.bulk_pull_account_request_flags = 0x01)
    (hd : ∀ msg ∈ msgs, msg.destport ≠ st.server_port) :
    dissect_nano_messages st msgs = st
      ∧ (dissect_nano_messages st msgs).client_packet_type
        = NANO_PACKET_TYPE_BULK_PULL_ACCOUNT := by
  have h := dissect_nano_messages_address_only msgs st hc h1 hd
  rw [h]
  exact ⟨rfl, hc⟩

set_option maxRecDepth 100000 in
/-- C20 for two responses, 80 zero bytes and a two-byte fragment. -/
theorem bulk_pull_account_address_only_never_clears_witness :
    dissect_nano_messages (pending_bulk_pull_account 1)
        [⟨50000, List.replicate 80 0⟩, ⟨50000, [0, 0]⟩] = pending_bulk_pull_account 1
      ∧ (dissect_nano_messages (pending_bulk_pull_account 1)
          [⟨50000, List.replicate 80 0⟩, ⟨50000, [0, 0]⟩]).client_packet_type
        = NANO_PACKET_TYPE_BULK_PULL_ACCOUNT :=
  bulk_pull_account_address_only_never_clears (pending_bulk_pull_account 1)
    [⟨50000, List.replicate 80 0⟩, ⟨50000, [0, 0]⟩] (by decide) (by decide) (by decide)

/-- C21. With no continuation pending, decoding a message that starts with a header of
packet type Bulk Pull, Bulk Push, Frontier Req or Bulk Pull Account sets
`client_packet_type` to that type, so that a continuation is pending afterwards; for a Bulk
Pull Account request the byte at message offset 56 is stored in
`bulk_pull_account_request_flags`. -/
theorem dissect_nano_request_sets_pending (tvb : tvbuff_t) (e : dissect_env) (t : guint8)
    (hp : does_prev_packet_expect_headerless_response e.session_state = 0)
    (h8 : 8 ≤ tvb.length) (ht : tvb_get_guint8 tvb 5 = some t)
    (htype : t.val = NANO_PACKET_TYPE_BULK_PULL ∨ t.val = NANO_PACKET_TYPE_BULK_PUSH
      ∨ t.val = NANO_PACKET_TYPE_FRONTIER_REQ ∨ t.val = NANO_PACKET_TYPE_BULK_PULL_ACCOUNT) :
    ((dissect_nano tvb).run e).2.session_state.client_packet_type = (t.val : Nat)
      ∧ does_prev_packet_expect_headerless_response ((dissect_nano tvb).run e).2.session_state
        ≠ 0
      ∧ (t.val = NANO_PACKET_TYPE_BULK_PULL_ACCOUNT → ∀ flags : guint8,
          tvb_get_guint8 tvb 56 = some flags →
          ((dissect_nano tvb).run e).2.session_state.bulk_pull_account_request_flags
            = flags) := by
  have hc := dissect_nano_headered_records_type tvb e t hp h8 ht
  refine ⟨hc, ?_, ?_⟩
  · rw [does_prev_packet_expect_headerless_response_ne_zero, hc]
    rcases htype with h | h | h | h <;> rw [h] <;> decide
  · intro hk flags hf
    have h57 := tvb_get_guint8_lt tvb 56 flags hf
    rw [(dissect_nano_bulk_pull_account_request_state tvb e t flags hp (by omega) ht hk hf).2]

set_option maxRecDepth 100000 in
/-- C21 at a Bulk Pull Account request with flags 0x02 in a fresh session. -/
theorem dissect_nano_request_sets_pending_witness :
    ((dissect_nano bulk_pull_account_message).run
        (message_env (new_session_state 7075) 7075)).2.session_state.client_packet_type
        = NANO_PACKET_TYPE_BULK_PULL_ACCOUNT
      ∧ does_prev_packet_expect_headerless_response
          ((dissect_nano bulk_pull_account_message).run
            (message_env (new_session_state 7075) 7075)).2.session_state ≠ 0
      ∧ ((dissect_nano bulk_pull_account_message).run
          (message_env (new_session_state 7075)
            7075)).2.session_state.bulk_pull_account_request_flags = 2 :=
  ⟨(dissect_nano_request_sets_pending bulk_pull_account_message
      (message_env (new_session_state 7075) 7075) 11 (by decide) (by decide) (by decide)
      (by decide)).1,
    (dissect_nano_request_sets_pending bulk_pull_account_message
      (message_env (new_session_state 7075) 7075) 11 (by decide) (by decide) (by decide)
      (by decide)).2.1,
    (dissect_nano_request_sets_pending bulk_pull_account_message
      (message_env (new_session_state 7075) 7075) 11 (by decide) (by decide) (by decide)
      (by decide)).2.2 (by decide) 2 (by decide)⟩

set_option maxRecDepth 100000 in
/-- C22. In a fresh session the 72-byte Bulk Pull request (header with magic RC, packet type
6, extensions 0, then 64 zero bytes) makes `client_packet_type` BulkPull; the one-byte
message 01 that the server sends next is framed as 1 byte, decoded as the end of the Bulk
Pull Response with 1 byte consumed, and leaves no continuation pending. -/
theorem bulk_pull_scenario :
    bulk_pull_message.length = 72
      ∧ bulk_pull_message.take 2 = [0x52, 0x43]
      ∧ (dissect_nano_next_state (new_session_state 7075)
          ⟨7075, bulk_pull_message⟩).client_packet_type = NANO_PACKET_TYPE_BULK_PULL
      ∧ get_nano_message_len
          (dissect_nano_next_state (new_session_state 7075) ⟨7075, bulk_pull_message⟩) [1] 0
        = some 1
      ∧ (dissect_nano [1]).run (message_env
          (dissect_nano_next_state (new_session_state 7075) ⟨7075, bulk_pull_message⟩) 50000)
        = (some 1,
          { session_state :=
              { client_packet_type := NANO_PACKET_TYPE_NOT_A_TYPE
                bulk_pull_account_request_flags := 0
                server_port := 7075 }
            pinfo :=
              { destport := 50000
                cinfo := [.set_protocol "Nano", .append_sep "Bulk Pull Response",
                  .append " [BULK PULL RESPONSE END]"] }
            tree := [.item .proto_nano 0 1, .subtree "Bulk Pull Response" 0 1,
              .item .bulk_pull_response_block_type 0 1] })
      ∧ does_prev_packet_expect_headerless_response
          ((dissect_nano [1]).run (message_env
            (dissect_nano_next_state (new_session_state 7075) ⟨7075, bulk_pull_message⟩)
            50000)).2.session_state = 0 := by
  have h1 : dissect_nano_next_state (new_session_state 7075) ⟨7075, bulk_pull_message⟩
      = pending_session 6 := by
    decide
  rw [h1]
  decide

/-- C23. On a buffer that holds the 144 body bytes the Keepalive decoder returns the body
offset plus 8 × 18 and appends one text to each of 8 peer entries, the text of entry i being
that of the 16 address bytes at offset + 18·i and the little-endian port in the 2 bytes
behind them. A 16-byte address is classified as no peer when all its bytes are zero, as
IPv4 with the address bytes 12..15 when bytes 0..9 are zero and bytes 10..11 are ff ff, and
as IPv6 otherwise. -/
theorem keepalive_peer_entries (tvb : tvbuff_t) (offset : Nat) (e : dissect_env)
    (h : offset + 144 ≤ tvb.length) :
    ((dissect_nano_keepalive tvb offset).run e).1 = some (offset + 8 * 18)
      ∧ tree_appended_texts ((dissect_nano_keepalive tvb offset).run e).2.tree
        = tree_appended_texts e.tree
          ++ (List.range 8).map (fun i =>
            keepalive_peer_text ((tvb.drop (offset + 18 * i)).take 16)
              (letoh ((tvb.drop (offset + 18 * i + 16)).take 2)))
      ∧ ∀ (ip_addr : List guint8) (port : Nat), ip_addr.length = 16 →
          ((∀ b ∈ ip_addr, b = 0) → keepalive_peer_text ip_addr port = .none)
          ∧ ((∀ b ∈ ip_addr.take 10, b = 0) → (ip_addr.drop 10).take 2 = [0xff, 0xff] →
              keepalive_peer_text ip_addr port = .ipv4 (ip_addr.drop 12) port)
          ∧ (¬ (∀ b ∈ ip_addr, b = 0) →
              ¬ ((∀ b ∈ ip_addr.take 10, b = 0)
                ∧ (ip_addr.drop 10).take 2 = [0xff, 0xff]) →
              keepalive_peer_text ip_addr port = .ipv6 ip_addr port) :=
  ⟨(dissect_nano_keepalive_run tvb offset e h).1, (dissect_nano_keepalive_run tvb offset e h).2,
    fun ip_addr port h16 => keepalive_peer_text_cases ip_addr port h16⟩

set_option maxRecDepth 100000 in
/-- C23 at a Keepalive whose peer entries are: empty, 127.0.0.1 port 16923 (IPv4-mapped,
port bytes 1b 42), an IPv6 address with port 7075, and five empty entries. -/
theorem keepalive_peer_entries_witness :
    ((dissect_nano_keepalive keepalive_peers_message 8).run
        (message_env (new_session_state 7075) 7075)).1 = some (8 + 8 * 18)
      ∧ tree_appended_texts ((dissect_nano_keepalive keepalive_peers_message 8).run
          (message_env (new_session_state 7075) 7075)).2.tree
        = [.none, .ipv4 [127, 0, 0, 1] 16923,
          .ipv6 [0x20, 0x01, 0x0d, 0xb8, 0, 0, 0, 0, 0, 0, 0, 0, 0, 0, 0, 0x01] 7075,
          .none, .none, .none, .none, .none]
      ∧ keepalive_peer_text (List.replicate 16 0) 0 = .none
      ∧ keepalive_peer_text (keepalive_peer_localhost.take 16)
          (letoh (keepalive_peer_localhost.drop 16)) = .ipv4 [127, 0, 0, 1] 16923 :=
  ⟨(keepalive_peer_entries keepalive_peers_message 8
      (message_env (new_session_state 7075) 7075) (by decide)).1,
    (keepalive_peer_entries keepalive_peers_message 8
      (message_env (new_session_state 7075) 7075) (by decide)).2.1.trans (by decide),
    ((keepalive_peer_entries keepalive_peers_message 8
      (message_env (new_session_state 7075) 7075) (by decide)).2.2
      (List.replicate 16 0) 0 (by decide)).1 (by decide),
    ((keepalive_peer_entries keepalive_peers_message 8
      (message_env (new_session_state 7075) 7075) (by decide)).2.2
      (keepalive_peer_localhost.take 16) (letoh (keepalive_peer_localhost.drop 16))
      (by decide)).2.1 (by decide) (by decide)⟩

/-- C24. For every extensions value the Telemetry Ack decoder returns the body offset plus
202 on a buffer that holds the 202 body bytes, and the framer returns 8 + 202 for a
Telemetry Ack header: the payload size declared in bits 0-9 of the extensions plays no
part. -/
theorem telemetry_ack_consumes_202 (st : nano_session_state) (buf tvb : tvbuff_t)
    (start offset extensions : Nat) (e : dissect_env)
    (hp : does_prev_packet_expect_headerless_response st = 0)
    (hlen : start + 8 ≤ buf.length) (h32 : buf.length < 2 ^ 32)
    (ht : tvb_get_guint8 buf (start + 5) = some 13)
    (hext : tvb_get_letohs buf (start + 6) = some extensions)
    (hfit : offset + 202 ≤ tvb.length) :
    get_nano_message_len st buf start = some (8 + 202)
      ∧ ((dissect_nano_telemetry_ack tvb offset extensions).run e).1 = some (offset + 202) := by
  refine ⟨?_, dissect_nano_telemetry_ack_returns tvb offset extensions e hfit⟩
  rw [get_nano_message_len_headered st buf start 13 extensions hp hlen h32 ht hext]
  simp +decide only [reduceIte]

set_option maxRecDepth 100000 in
/-- C24 at a Telemetry Ack whose extensions declare 1023 payload bytes. -/
theorem telemetry_ack_consumes_202_witness :
    get_nano_message_len (new_session_state 7075) telemetry_ack_message 0 = some (8 + 202)
      ∧ ((dissect_nano_telemetry_ack telemetry_ack_message 8 0x03ff).run
          (message_env (new_session_state 7075) 7075)).1 = some (8 + 202) :=
  telemetry_ack_consumes_202 (new_session_state 7075) telemetry_ack_message
    telemetry_ack_message 0 8 0x03ff (message_env (new_session_state 7075) 7075)
    (by decide) (by decide) (by decide) (by decide) (by decide) (by decide)

/-- C25. With a continuation pending, `dissect_nano` hands the message to a headerless
decoder chosen by the direction and the pending request. To the server (destination port
equal to `server_port`): Bulk Push Data when `client_packet_type` is BulkPush, otherwise an
unknown client packet, 0 returned and the session state unchanged. From the server: Frontier
Response, Bulk Pull Response or Bulk Pull Account Response when `client_packet_type` is
FrontierReq, BulkPull or BulkPullAccount, otherwise (BulkPush) an unknown server packet, 0
returned and the session state unchanged. -/
theorem headerless_dispatch_by_direction (tvb : tvbuff_t) (e : dissect_env)
    (hp : does_prev_packet_expect_headerless_response e.session_state ≠ 0) :
    ∃ e1, e1.session_state = e.session_state ∧ e1.pinfo.destport = e.pinfo.destport
      ∧ (e.pinfo.destport = e.session_state.server_port →
          (e.session_state.client_packet_type = NANO_PACKET_TYPE_BULK_PUSH →
            (dissect_nano tvb).run e = (dissect_nano_headerless_bulk_push_body tvb).run e1)
          ∧ (e.session_state.client_packet_type ≠ NANO_PACKET_TYPE_BULK_PUSH →
            ((dissect_nano tvb).run e).1 = some 0
              ∧ ((dissect_nano tvb).run e).2.session_state = e.session_state))
      ∧ (e.pinfo.destport ≠ e.session_state.server_port →
          (e.session_state.client_packet_type = NANO_PACKET_TYPE_FRONTIER_REQ →
            (dissect_nano tvb).run e = (dissect_nano_headerless_frontier_response tvb).run e1)
          ∧ (e.session_state.client_packet_type = NANO_PACKET_TYPE_BULK_PULL →
            (dissect_nano tvb).run e = (dissect_nano_headerless_bulk_pull_response tvb).run e1)
          ∧ (e.session_state.client_packet_type = NANO_PACKET_TYPE_BULK_PULL_ACCOUNT →
            (dissect_nano tvb).run e
              = (dissect_nano_headerless_bulk_pull_account_response tvb).run e1)
          ∧ (e.session_state.client_packet_type = NANO_PACKET_TYPE_BULK_PUSH →
            ((dissect_nano tvb).run e).1 = some 0
              ∧ ((dissect_nano tvb).run e).2.session_state = e.session_state)) := by
  obtain ⟨e1, hs, hd, hrun⟩ := dissect_nano_run_headerless tvb e hp
  refine ⟨e1, hs, hd, ?_, ?_⟩
  · intro hport
    have hport1 : e1.pinfo.destport = e1.session_state.server_port := by rw [hs, hd, hport]
    refine ⟨?_, ?_⟩
    · intro h7
      rw [hrun, dissect_headerless_packet_run_client tvb e1 hport1 (by rw [hs, h7])]
    · intro h7
      rw [hrun, dissect_headerless_packet_run_client_unknown tvb e1 hport1 (by rw [hs]; exact h7)]
      exact ⟨rfl, hs⟩
  · intro hport
    have hport1 : e1.pinfo.destport ≠ e1.session_state.server_port := by rw [hs, hd]; exact hport
    rw [hrun, dissect_headerless_packet_run_server tvb e1 hport1, hs]
    refine ⟨?_, ?_, ?_, ?_⟩
    · intro h
      rw [h]
      simp +decide only [reduceIte]
    · intro h
      rw [h]
      simp +decide only [reduceIte]
    · intro h
      rw [h]
      simp +decide only [reduceIte]
    · intro h
      rw [h]
      simp +decide only [reduceIte, append_info_col, Dissect.run_bind_add_col,
        Dissect.run_pure]
      exact ⟨trivial, hs⟩

set_option maxRecDepth 100000 in
/-- C25 at a one-byte message 01 sent in either direction while a Bulk Push is pending: to
the server it is the end of the Bulk Push data, from the server it is an unknown packet. -/
theorem headerless_dispatch_by_direction_witness :
    ((dissect_nano [1]).run (message_env (pending_session 7) 7075)).1 = some 1
      ∧ ((dissect_nano [1]).run (message_env (pending_session 7) 50000)).1 = some 0
      ∧ ((dissect_nano [1]).run (message_env (pending_session 7) 50000)).2.session_state
        = pending_session 7 := by
  obtain ⟨e1, -, -, h1, -⟩ := headerless_dispatch_by_direction [1]
    (message_env (pending_session 7) 7075) (by decide)
  obtain ⟨e2, -, -, -, h2⟩ := headerless_dispatch_by_direction [1]
    (message_env (pending_session 7) 50000) (by decide)
  refine ⟨?_, ((h2 (by decide)).2.2.2 (by decide)).1, ((h2 (by decide)).2.2.2 (by decide)).2⟩
  rw [(h1 (by decide)).1 (by decide)]
  exact dissect_nano_headerless_bulk_push_body_returns_end [1] e1 1 (by decide) (by decide)

set_option maxRecDepth 100000 in
/-- C26 (code defect). A segment that holds an Asc Pull Req of pull-type 1 (header,
pull-type, id and 33 payload bytes, 50 bytes in all) and a Telemetry Req header behind it,
with no continuation pending: the framer and `dissect_nano` take all 58 bytes as one
message, and no Asc Pull field is added to the tree, since `dissect_nano` has no case that
calls the Asc Pull Req decoder. The decoder itself, run on the 42 body bytes, adds the
33-byte payload to the tree and returns 9, not 1 + 8 + 33. -/
theorem asc_pull_req_segment_taken_whole :
    asc_pull_req_segment.length = 8 + (1 + 8 + 33) + 8
      ∧ get_nano_message_len (new_session_state 7075) asc_pull_req_segment 0 = some 58
      ∧ ((dissect_nano asc_pull_req_segment).run
          (message_env (new_session_state 7075) 7075)).1 = some 58
      ∧ tree_item_count .asc_pull_type
          ((dissect_nano asc_pull_req_segment).run
            (message_env (new_session_state 7075) 7075)).2.tree = 0
      ∧ tree_item_count .asc_pull_req_blocks_payload
          ((dissect_nano asc_pull_req_segment).run
            (message_env (new_session_state 7075) 7075)).2.tree = 0
      ∧ ((dissect_nano_asc_pull_req asc_pull_req_blocks_body 0).run
          (message_env (new_session_state 7075) 7075)).1 = some 9
      ∧ ((dissect_nano_asc_pull_req asc_pull_req_blocks_body 0).run
          (message_env (new_session_state 7075) 7075)).2.tree
        = [.item .asc_pull_type 0 1, .item .asc_pull_req_ack_id 1 8,
          .item .asc_pull_req_blocks_payload 9 33] := by
  decide

/-- C28. On a buffer that holds 8 header bytes at `offset`, with b5, b6 and b7 the bytes at
offset + 5, + 6 and + 7: the header decoder returns offset + 8, the packet type b5 and the
extensions b6 + 256·b7; the framer reads the same two values and sizes the message from
them; the block type (extensions & 0x0f00) >> 8 is the low nibble of b7, the item count
(extensions & 0xf000) >> 12 is its high nibble, both at most 15; and the masks 0x0001 and
0x0002 test bits 0 and 1 of b6. -/
theorem header_packet_type_and_extensions (st : nano_session_state) (tvb : tvbuff_t)
    (offset : Nat) (e : dissect_env) (b5 b6 b7 : guint8)
    (h5 : tvb_get_guint8 tvb (offset + 5) = some b5)
    (h6 : tvb_get_guint8 tvb (offset + 6) = some b6)
    (h7 : tvb_get_guint8 tvb (offset + 7) = some b7) :
    ∃ extensions, extensions = b6.val + 256 * b7.val
      ∧ ((dissect_nano_header tvb offset).run e).1 = some (offset + 8, b5.val, extensions)
      ∧ tvb_get_letohs tvb (offset + 6) = some extensions
      ∧ (does_prev_packet_expect_headerless_response st = 0 → tvb.length < 2 ^ 32 →
        get_nano_message_len st tvb offset =
          if b5.val = NANO_PACKET_TYPE_TELEMETRY_ACK then some 210
          else if b5.val = NANO_PACKET_TYPE_TELEMETRY_REQ then some 8
          else if b5.val = NANO_PACKET_TYPE_NODE_ID_HANDSHAKE then
            some (8 + ((if extensions &&& 0x0001 ≠ 0 then 32 else 0)
              + (if extensions &&& 0x0002 ≠ 0 then 96 else 0)))
          else if b5.val = NANO_PACKET_TYPE_KEEPALIVE then some 152
          else if b5.val = NANO_PACKET_TYPE_CONFIRM_REQ then
            (if (((extensions &&& 0x0f00) >>> 8 : Nat) : Int) = NANO_BLOCK_TYPE_NOT_A_BLOCK then
              some (8 + ((extensions &&& 0xf000) >>> 12) * 64)
            else if is_block_type (((extensions &&& 0x0f00) >>> 8 : Nat) : Int) then
              some (8 + get_block_type_size (((extensions &&& 0x0f00) >>> 8 : Nat) : Int))
            else some 0)
          else if b5.val = NANO_PACKET_TYPE_CONFIRM_ACK then
            (if (((extensions &&& 0x0f00) >>> 8 : Nat) : Int) = NANO_BLOCK_TYPE_NOT_A_BLOCK then
              some (8 + (104 + ((extensions &&& 0xf000) >>> 12) * 32))
            else
              some (8 + (104
                + get_block_type_size (((extensions &&& 0x0f00) >>> 8 : Nat) : Int))))
          else if b5.val = NANO_PACKET_TYPE_PUBLISH then
            some (8 + get_block_type_size (((extensions &&& 0x0f00) >>> 8 : Nat) : Int))
          else if b5.val = NANO_PACKET_TYPE_BULK_PULL_ACCOUNT then some 57
          else some (tvb.length - offset))
      ∧ (extensions &&& 0x0f00) >>> 8 = b7.val % 16
      ∧ (extensions &&& 0xf000) >>> 12 = b7.val / 16
      ∧ (extensions &&& 0x0f00) >>> 8 ≤ 15
      ∧ (extensions &&& 0xf000) >>> 12 ≤ 15
      ∧ (extensions &&& 0x0001 ≠ 0 ↔ b6.val.testBit 0 = true)
      ∧ (extensions &&& 0x0002 ≠ 0 ↔ b6.val.testBit 1 = true) := by
  have hlen := tvb_get_guint8_lt tvb (offset + 7) b7 h7
  have hext := tvb_get_letohs_eq tvb (offset + 6) b6 b7 h6 h7
  obtain ⟨n1, n2, n3, n4⟩ := extensions_bits b6.val b7.val b6.isLt b7.isLt
  refine ⟨_, rfl, dissect_nano_header_returns_at tvb offset e b5 _ (by omega) h5 hext, hext,
    ?_, n1, n2, ?_, ?_, n3, n4⟩
  · intro hp h32
    exact get_nano_message_len_headered st tvb offset b5 _ hp (by omega) h32 h5 hext
  · rw [n1]
    omega
  · rw [n2]
    have := b7.isLt
    omega

set_option maxRecDepth 100000 in
/-- C28 at the Confirm Ack header 52 43 12 12 12 05 03 21: packet type 5, extensions 0x2103,
block type 1 (Not-A-Block), item count 2, framed as 8 + 104 + 2 × 32 bytes. -/
theorem header_packet_type_and_extensions_witness :
    ((dissect_nano_header (nano_header 5 0x03 0x21) 0).run
        (message_env (new_session_state 7075) 7075)).1 = some (8, 5, 0x2103)
      ∧ get_nano_message_len (new_session_state 7075) (nano_header 5 0x03 0x21) 0
        = some (8 + (104 + 2 * 32))
      ∧ (0x2103 &&& 0x0f00) >>> 8 = 1 ∧ (0x2103 &&& 0xf000) >>> 12 = 2 := by
  obtain ⟨extensions, hx, h1, -, h2, h3, h4, -⟩ := header_packet_type_and_extensions
    (new_session_state 7075) (nano_header 5 0x03 0x21) 0
    (message_env (new_session_state 7075) 7075) 5 0x03 0x21 (by decide) (by decide)
    (by decide)
  have hx2 : extensions = 0x2103 := hx
  subst hx2
  exact ⟨h1, (h2 (by decide) (by decide)).trans (by decide), h3, h4⟩

/-- C29. With no continuation pending, for a header whose packet type has no decoder in
`dissect_nano` (Invalid, NotAType, Bulk Push, Bulk Pull Blocks, Asc Pull Req, Asc Pull Ack
and every value from 16 on) the framer returns all bytes that remain in the buffer,
`dissect_nano` returns the captured length of its buffer and sets `client_packet_type` to
the packet-type byte, so that a continuation is pending afterwards only for Bulk Push. -/
theorem dissect_nano_packet_type_without_decoder (st : nano_session_state)
    (buf tvb : tvbuff_t) (offset : Nat) (e : dissect_env) (t : guint8)
    (hk : t.val = NANO_PACKET_TYPE_INVALID ∨ t.val = NANO_PACKET_TYPE_NOT_A_TYPE
      ∨ t.val = NANO_PACKET_TYPE_BULK_PUSH ∨ t.val = NANO_PACKET_TYPE_BULK_PULL_BLOCKS
      ∨ t.val = NANO_PACKET_TYPE_ASC_PULL_REQ ∨ t.val = NANO_PACKET_TYPE_ASC_PULL_ACK
      ∨ 16 ≤ t.val) :
    (does_prev_packet_expect_headerless_response st = 0 → offset + 8 ≤ buf.length →
        buf.length < 2 ^ 32 → tvb_get_guint8 buf (offset + 5) = some t →
        get_nano_message_len st buf offset = some (buf.length - offset))
      ∧ (does_prev_packet_expect_headerless_response e.session_state = 0 →
        8 ≤ tvb.length → tvb.length < 2 ^ 32 → tvb_get_guint8 tvb 5 = some t →
        ((dissect_nano tvb).run e).1 = some (tvb_captured_length tvb)
          ∧ ((dissect_nano tvb).run e).2.session_state.client_packet_type = (t.val : Nat)
          ∧ (does_prev_packet_expect_headerless_response
                ((dissect_nano tvb).run e).2.session_state ≠ 0
              ↔ t.val = NANO_PACKET_TYPE_BULK_PUSH)) := by
  have hk' : t.val ≠ NANO_PACKET_TYPE_TELEMETRY_ACK ∧ t.val ≠ NANO_PACKET_TYPE_TELEMETRY_REQ
      ∧ t.val ≠ NANO_PACKET_TYPE_NODE_ID_HANDSHAKE ∧ t.val ≠ NANO_PACKET_TYPE_KEEPALIVE
      ∧ t.val ≠ NANO_PACKET_TYPE_CONFIRM_REQ ∧ t.val ≠ NANO_PACKET_TYPE_CONFIRM_ACK
      ∧ t.val ≠ NANO_PACKET_TYPE_PUBLISH ∧ t.val ≠ NANO_PACKET_TYPE_BULK_PULL_ACCOUNT
      ∧ t.val ≠ NANO_PACKET_TYPE_FRONTIER_REQ ∧ t.val ≠ NANO_PACKET_TYPE_BULK_PULL := by
    unfold NANO_PACKET_TYPE_INVALID NANO_PACKET_TYPE_NOT_A_TYPE NANO_PACKET_TYPE_BULK_PUSH
      NANO_PACKET_TYPE_BULK_PULL_BLOCKS NANO_PACKET_TYPE_ASC_PULL_REQ
      NANO_PACKET_TYPE_ASC_PULL_ACK at hk
    unfold NANO_PACKET_TYPE_TELEMETRY_ACK NANO_PACKET_TYPE_TELEMETRY_REQ
      NANO_PACKET_TYPE_NODE_ID_HANDSHAKE NANO_PACKET_TYPE_KEEPALIVE
      NANO_PACKET_TYPE_CONFIRM_REQ NANO_PACKET_TYPE_CONFIRM_ACK NANO_PACKET_TYPE_PUBLISH
      NANO_PACKET_TYPE_BULK_PULL_ACCOUNT NANO_PACKET_TYPE_FRONTIER_REQ
      NANO_PACKET_TYPE_BULK_PULL
    omega
  refine ⟨?_, ?_⟩
  · intro hp hlen h32 ht
    obtain ⟨extensions, hext⟩ := tvb_get_letohs_isSome buf (offset + 6) (by omega)
    obtain ⟨k1, k2, k3, k4, k5, k6, k7, k8, -, -⟩ := hk'
    rw [get_nano_message_len_headered st buf offset t extensions hp hlen h32 ht hext]
    simp only [if_neg k1, if_neg k2, if_neg k3, if_neg k4, if_neg k5, if_neg k6, if_neg k7,
      if_neg k8]
  · intro hp h8 h32 ht
    obtain ⟨extensions, hext⟩ := tvb_get_letohs_isSome tvb 6 (by omega)
    have hc := dissect_nano_headered_records_type tvb e t hp h8 ht
    refine ⟨(dissect_nano_no_decoder e tvb t extensions hp h8 h32 ht hext hk').2, hc, ?_⟩
    rw [does_prev_packet_expect_headerless_response_ne_zero, hc]
    exact pending_of_type_without_decoder t.val hk

set_option maxRecDepth 100000 in
/-- C29 at a header of packet type 14 (Asc Pull Req) followed by 42 bytes, and at a bare
header of packet type 7 (Bulk Push). -/
theorem dissect_nano_packet_type_without_decoder_witness :
    get_nano_message_len (new_session_state 7075) asc_pull_req_message 0 = some (50 - 0)
      ∧ ((dissect_nano asc_pull_req_message).run
          (message_env (new_session_state 7075) 7075)).1 = some 50
      ∧ ((dissect_nano asc_pull_req_message).run
          (message_env (new_session_state 7075) 7075)).2.session_state.client_packet_type
        = 14
      ∧ ((dissect_nano (nano_header 7 0 0)).run
          (message_env (new_session_state 7075) 7075)).2.session_state.client_packet_type
        = 7 :=
  ⟨(dissect_nano_packet_type_without_decoder (new_session_state 7075) asc_pull_req_message
      asc_pull_req_message 0 (message_env (new_session_state 7075) 7075) 14
      (by decide)).1 (by decide) (by decide) (by decide) (by decide),
    ((dissect_nano_packet_type_without_decoder (new_session_state 7075) asc_pull_req_message
      asc_pull_req_message 0 (message_env (new_session_state 7075) 7075) 14
      (by decide)).2 (by decide) (by decide) (by decide) (by decide)).1,
    ((dissect_nano_packet_type_without_decoder (new_session_state 7075) asc_pull_req_message
      asc_pull_req_message 0 (message_env (new_session_state 7075) 7075) 14
      (by decide)).2 (by decide) (by decide) (by decide) (by decide)).2.1,
    ((dissect_nano_packet_type_without_decoder (new_session_state 7075) (nano_header 7 0 0)
      (nano_header 7 0 0) 0 (message_env (new_session_state 7075) 7075) 7
      (by decide)).2 (by decide) (by decide) (by decide) (by decide)).2.1⟩

/-- C30. With no continuation pending, the framer returns 0 when fewer than 8 bytes remain
from the start of the message, and `dissect_nano` on a buffer of fewer than 8 bytes returns
0 and leaves the session state as it was. -/
theorem short_header_returns_zero (buf tvb : tvbuff_t) (offset : Nat) (e : dissect_env)
    (hp : does_prev_packet_expect_headerless_response e.session_state = 0) :
    (offset ≤ buf.length → buf.length - offset < 8 → buf.length < 2 ^ 32 →
        get_nano_message_len e.session_state buf offset = some 0)
      ∧ (tvb.length < 8 →
        ((dissect_nano tvb).run e).1 = some 0
          ∧ ((dissect_nano tvb).run e).2.session_state = e.session_state) :=
  ⟨fun ho h8 h32 => get_nano_message_len_short_header e.session_state buf offset hp ho h8 h32,
    fun h8 => dissect_nano_run_short_header e tvb hp h8⟩

set_option maxRecDepth 100000 in
/-- C30 at the 7 bytes 52 43 12 12 12 02 00 that remain behind a Keepalive, and at the same
7 bytes as a message of their own, in a fresh session. -/
theorem short_header_returns_zero_witness :
    get_nano_message_len (new_session_state 7075)
        (keepalive_message ++ [0x52, 0x43, 0x12, 0x12, 0x12, 0x02, 0x00]) 152 = some 0
      ∧ ((dissect_nano [0x52, 0x43, 0x12, 0x12, 0x12, 0x02, 0x00]).run
          (message_env (new_session_state 7075) 7075)).1 = some 0
      ∧ ((dissect_nano [0x52, 0x43, 0x12, 0x12, 0x12, 0x02, 0x00]).run
          (message_env (new_session_state 7075) 7075)).2.session_state
        = new_session_state 7075 :=
  ⟨(short_header_returns_zero (keepalive_message ++ [0x52, 0x43, 0x12, 0x12, 0x12, 0x02, 0x00])
      [] 152 (message_env (new_session_state 7075) 7075) (by decide)).1
      (by decide) (by decide) (by decide),
    ((short_header_returns_zero [] [0x52, 0x43, 0x12, 0x12, 0x12, 0x02, 0x00] 0
      (message_env (new_session_state 7075) 7075) (by decide)).2 (by decide)).1,
    ((short_header_returns_zero [] [0x52, 0x43, 0x12, 0x12, 0x12, 0x02, 0x00] 0
      (message_env (new_session_state 7075) 7075) (by decide)).2 (by decide)).2⟩

set_option maxRecDepth 100000 in
/-- C31. The framer and the dispatcher agree on which messages are headerless. The test
`does_prev_packet_expect_headerless_response` of the dispatcher returns 1 exactly when
`client_packet_type` is Bulk Pull, Bulk Push, Frontier Req or Bulk Pull Account, and 0
otherwise. When it returns 1 the framer takes a continuation branch: the length comes from
the pending request, the Bulk Pull Account flags and the one byte at `offset`. When it
returns 0 the framer does what it does for a new conversation, the header branch. So the
test returns 1 if and only if the framer reads nothing of the buffer but its length and the
byte at `offset`. -/
theorem framer_and_dispatcher_agree_on_headerless (st : nano_session_state) :
    (does_prev_packet_expect_headerless_response st = 1 ↔
        (st.client_packet_type = NANO_PACKET_TYPE_BULK_PULL
          ∨ st.client_packet_type = NANO_PACKET_TYPE_BULK_PUSH
          ∨ st.client_packet_type = NANO_PACKET_TYPE_FRONTIER_REQ
          ∨ st.client_packet_type = NANO_PACKET_TYPE_BULK_PULL_ACCOUNT))
      ∧ (does_prev_packet_expect_headerless_response st ≠ 1 →
        does_prev_packet_expect_headerless_response st = 0)
      ∧ (does_prev_packet_expect_headerless_response st = 1 → ∀ tvb offset,
        get_nano_message_len st tvb offset =
          if st.client_packet_type = NANO_PACKET_TYPE_FRONTIER_REQ then some 64
          else if st.client_packet_type = NANO_PACKET_TYPE_BULK_PULL_ACCOUNT then
            some (if st.bulk_pull_account_request_flags = 0x01 then 80
              else if st.bulk_pull_account_request_flags = 0x02 then 128 else 96)
          else (tvb_get_guint8 tvb offset).map fun b =>
            if ((b.val : Nat) : Int) = NANO_BLOCK_TYPE_NOT_A_BLOCK then 1
            else if st.client_packet_type = NANO_PACKET_TYPE_BULK_PUSH
                ∧ get_block_type_size ((b.val : Nat) : Int) = 0 then
              guint_sub (tvb_captured_length tvb) offset
            else 1 + get_block_type_size ((b.val : Nat) : Int))
      ∧ (does_prev_packet_expect_headerless_response st = 0 → ∀ tvb offset,
        get_nano_message_len st tvb offset
          = get_nano_message_len (new_session_state st.server_port) tvb offset)
      ∧ (does_prev_packet_expect_headerless_response st = 1 ↔
        ∀ (tvb tvb2 : tvbuff_t) (offset : Nat), tvb.length = tvb2.length →
          tvb_get_guint8 tvb offset = tvb_get_guint8 tvb2 offset →
          get_nano_message_len st tvb offset = get_nano_message_len st tvb2 offset) := by
  have hcases := does_prev_packet_expect_headerless_response_cases st
  have hne : does_prev_packet_expect_headerless_response st = 1 →
      does_prev_packet_expect_headerless_response st ≠ 0 := by
    intro h
    rw [h]
    decide
  refine ⟨⟨fun h => (does_prev_packet_expect_headerless_response_ne_zero st).mp (hne h),
      fun h => hcases.resolve_left
        ((does_prev_packet_expect_headerless_response_ne_zero st).mpr h)⟩,
    fun h => hcases.resolve_right h,
    fun h tvb offset => get_nano_message_len_continuation st tvb offset (hne h),
    fun h tvb offset => get_nano_message_len_no_continuation st tvb offset h, ?_, ?_⟩
  · intro h tvb tvb2 offset hl hb
    rw [get_nano_message_len_continuation st tvb offset (hne h),
      get_nano_message_len_continuation st tvb2 offset (hne h), hb]
    unfold tvb_captured_length
    rw [hl]
  · intro h
    by_contra h1
    obtain ⟨ha, hb⟩ := get_nano_message_len_reads_header st (hcases.resolve_right h1)
    have h2 := h (nano_header 2 0 0 ++ List.replicate 144 0)
      (nano_header 12 0 0 ++ List.replicate 144 0) 0 rfl rfl
    rw [ha, hb] at h2
    exact absurd h2 (by decide)

set_option maxRecDepth 100000 in
/-- C31 at a pending Bulk Pull: the test returns 1 and the framer sizes a message that
starts with the byte 2 as a Send block behind its type byte, 153 bytes. -/
theorem framer_and_dispatcher_agree_on_headerless_witness :
    does_prev_packet_expect_headerless_response (pending_session 6) = 1
      ∧ get_nano_message_len (pending_session 6) send_block_message 0 = some 153 :=
  ⟨by decide,
    ((framer_and_dispatcher_agree_on_headerless (pending_session 6)).2.2.1 (by decide)
      send_block_message 0).trans (by decide)⟩

/-- C32. A continuation message that does not end the continuation leaves the session state
unchanged: the decoders of a Bulk Pull Response and of Bulk Push Data, run on a buffer whose
first byte is not 1, leave every field of the session state as it was, whether the byte is a
block type or not and whether the block is complete or not. So does `dissect_nano` when it
hands a message from the server to the Bulk Pull Response decoder, or a message to the
server to the Bulk Push Data decoder, and the continuation is still pending afterwards. -/
theorem continuation_block_leaves_session_state (tvb : tvbuff_t) (e : dissect_env)
    (b : guint8) (hb : tvb_get_guint8 tvb 0 = some b) (hne : b.val ≠ 1) :
    ((dissect_nano_headerless_bulk_pull_response tvb).run e).2.session_state
        = e.session_state
      ∧ ((dissect_nano_headerless_bulk_push_body tvb).run e).2.session_state
        = e.session_state
      ∧ (e.session_state.client_packet_type = NANO_PACKET_TYPE_BULK_PULL →
        e.pinfo.destport ≠ e.session_state.server_port →
        ((dissect_nano tvb).run e).2.session_state = e.session_state
          ∧ does_prev_packet_expect_headerless_response
            ((dissect_nano tvb).run e).2.session_state = 1)
      ∧ (e.session_state.client_packet_type = NANO_PACKET_TYPE_BULK_PUSH →
        e.pinfo.destport = e.session_state.server_port →
        ((dissect_nano tvb).run e).2.session_state = e.session_state
          ∧ does_prev_packet_expect_headerless_response
            ((dissect_nano tvb).run e).2.session_state = 1) := by
  have hne1 : ((b.val : Nat) : Int) ≠ NANO_BLOCK_TYPE_NOT_A_BLOCK := by
    unfold NANO_BLOCK_TYPE_NOT_A_BLOCK
    omega
  refine ⟨dissect_nano_headerless_bulk_pull_response_state tvb e b hb hne1,
    dissect_nano_headerless_bulk_push_body_state tvb e b hb hne1, ?_, ?_⟩
  · intro h6 hd
    have hp1 : does_prev_packet_expect_headerless_response e.session_state = 1 := by
      unfold does_prev_packet_expect_headerless_response
      rw [if_pos (Or.inl h6)]
    have hp : does_prev_packet_expect_headerless_response e.session_state ≠ 0 := by
      rw [hp1]
      decide
    obtain ⟨e1, hs, -, hrun⟩ := dissect_nano_run_server tvb e hp hd
    have hst : ((dissect_nano tvb).run e).2.session_state = e.session_state := by
      rw [hrun]
      simp +decide only [h6, reduceIte]
      rw [← hs]
      exact dissect_nano_headerless_bulk_pull_response_state tvb e1 b hb hne1
    rw [hst]
    exact ⟨rfl, hp1⟩
  · intro h7 hd
    have hp1 : does_prev_packet_expect_headerless_response e.session_state = 1 := by
      unfold does_prev_packet_expect_headerless_response
      rw [if_pos (Or.inr (Or.inl h7))]
    have hp : does_prev_packet_expect_headerless_response e.session_state ≠ 0 := by
      rw [hp1]
      decide
    obtain ⟨e1, hs, hdp, hrun⟩ := dissect_nano_run_headerless tvb e hp
    have hst : ((dissect_nano tvb).run e).2.session_state = e.session_state := by
      rw [hrun, dissect_headerless_packet_run_client tvb e1 (by rw [hs, hdp]; exact hd)
        (by rw [hs]; exact h7), ← hs]
      exact dissect_nano_headerless_bulk_push_body_state tvb e1 b hb hne1
    rw [hst]
    exact ⟨rfl, hp1⟩

set_option maxRecDepth 100000 in
/-- C32 at a Send block sent by the server while a Bulk Pull is pending. -/
theorem continuation_block_leaves_session_state_witness :
    ((dissect_nano send_block_message).run
        (message_env (pending_session 6) 50000)).2.session_state = pending_session 6
      ∧ does_prev_packet_expect_headerless_response
        ((dissect_nano send_block_message).run
          (message_env (pending_session 6) 50000)).2.session_state = 1 :=
  (continuation_block_leaves_session_state send_block_message
    (message_env (pending_session 6) 50000) 2 (by decide) (by decide)).2.2.1
    (by decide) (by decide)

/-- C33. The length the framer returns does not depend on the direction of the message or
on `server_port`: the framer is not given the packet, and for two session states that agree
on `client_packet_type` and on `bulk_pull_account_request_flags` it returns the same value
on the same buffer and offset. -/
theorem get_nano_message_len_ignores_direction_and_server_port
    (st1 st2 : nano_session_state) (tvb : tvbuff_t) (offset : Nat)
    (hc : st1.client_packet_type = st2.client_packet_type)
    (hf : st1.bulk_pull_account_request_flags = st2.bulk_pull_account_request_flags) :
    get_nano_message_len st1 tvb offset = get_nano_message_len st2 tvb offset :=
  get_nano_message_len_congr st1 st2 tvb offset hc hf

set_option maxRecDepth 100000 in
/-- C33 at a pending Bulk Pull and a message that starts with the byte 2. With server port
7075 and with server port 50000 the framer returns 153, the size of a response with a Send
block; for a message sent to port 7075 the first state makes it a message of the client,
which `dissect_nano` does not decode. -/
theorem get_nano_message_len_ignores_direction_and_server_port_witness :
    get_nano_message_len (pending_session 6) send_block_message 0
        = get_nano_message_len { pending_session 6 with server_port := 50000 }
          send_block_message 0
      ∧ get_nano_message_len (pending_session 6) send_block_message 0 = some 153
      ∧ ((dissect_nano send_block_message).run
          (message_env (pending_session 6) 7075)).1 = some 0 :=
  ⟨get_nano_message_len_ignores_direction_and_server_port (pending_session 6)
      { pending_session 6 with server_port := 50000 } send_block_message 0 rfl rfl,
    by decide, by decide⟩

/-- C34. No call of `dissect_nano` changes `server_port`; a call of `dissect_nano` that
changes `bulk_pull_account_request_flags` runs with no continuation pending on a buffer
whose header has the packet type Bulk Pull Account; and each headerless decoder, and the
dispatcher of the headerless decoders, leaves a session state that differs from the one it
started in at most in `client_packet_type`, whether or not it throws. -/
theorem dissect_nano_session_state_writes (tvb : tvbuff_t) (e : dissect_env) :
    ((dissect_nano tvb).run e).2.session_state.server_port = e.session_state.server_port
      ∧ (((dissect_nano tvb).run e).2.session_state.bulk_pull_account_request_flags
          ≠ e.session_state.bulk_pull_account_request_flags →
        does_prev_packet_expect_headerless_response e.session_state = 0
          ∧ ∃ t : guint8, tvb_get_guint8 tvb 5 = some t
            ∧ t.val = NANO_PACKET_TYPE_BULK_PULL_ACCOUNT)
      ∧ ∀ d ∈ [dissect_nano_headerless_frontier_response tvb,
          dissect_nano_headerless_bulk_pull_response tvb,
          dissect_nano_headerless_bulk_push_body tvb,
          dissect_nano_headerless_bulk_pull_account_response tvb,
          dissect_headerless_packet tvb],
        (d.run e).2.session_state
          = { e.session_state with
              client_packet_type := (d.run e).2.session_state.client_packet_type } := by
  refine ⟨dissect_nano_server_port tvb e, dissect_nano_flags_changed tvb e, ?_⟩
  intro d hd
  refine Dissect.preserves_eq_with d ?_ e
  intro I hc
  simp only [List.mem_cons, List.mem_singleton, List.not_mem_nil, or_false] at hd
  rcases hd with rfl | rfl | rfl | rfl | rfl
  · exact (dissect_headerless_packet_preserves tvb I hc).1
  · exact (dissect_headerless_packet_preserves tvb I hc).2.1
  · exact (dissect_headerless_packet_preserves tvb I hc).2.2.1
  · exact (dissect_headerless_packet_preserves tvb I hc).2.2.2.1
  · exact (dissect_headerless_packet_preserves tvb I hc).2.2.2.2

set_option maxRecDepth 100000 in
/-- C34 at a Bulk Pull Account request with flags byte 2 in a new conversation: the flags
change from 0 to 2, no continuation was pending and the packet type byte is 11. -/
theorem dissect_nano_session_state_writes_witness :
    ((dissect_nano bulk_pull_account_message).run
        (message_env (new_session_state 7075) 7075)).2.session_state
          = { client_packet_type := 11, bulk_pull_account_request_flags := 2,
              server_port := 7075 }
      ∧ does_prev_packet_expect_headerless_response (new_session_state 7075) = 0
      ∧ ∃ t : guint8, tvb_get_guint8 bulk_pull_account_message 5 = some t
        ∧ t.val = NANO_PACKET_TYPE_BULK_PULL_ACCOUNT :=
  ⟨by decide,
    (dissect_nano_session_state_writes bulk_pull_account_message
      (message_env (new_session_state 7075) 7075)).2.1 (by decide)⟩

/-- C35. While a continuation is pending and a byte is available at `offset`, the framer
returns a length of at least 1. For Bulk Push Data whose type byte is neither 1 nor a block
type the length is the number of bytes from `offset` to the end of the buffer; in every
other case it is at most 217, one more than the size of a State block. -/
theorem get_nano_message_len_pending_bounds (st : nano_session_state) (tvb : tvbuff_t)
    (offset : Nat) (hp : does_prev_packet_expect_headerless_response st ≠ 0)
    (ho : offset < tvb.length) (h32 : tvb.length < 2 ^ 32) :
    ∃ n b, tvb_get_guint8 tvb offset = some b
      ∧ get_nano_message_len st tvb offset = some n ∧ 1 ≤ n
      ∧ ((st.client_packet_type = NANO_PACKET_TYPE_BULK_PUSH
            ∧ ((b.val : Nat) : Int) ≠ NANO_BLOCK_TYPE_NOT_A_BLOCK
            ∧ ¬ is_block_type ((b.val : Nat) : Int)) → n = tvb.length - offset)
      ∧ (¬ (st.client_packet_type = NANO_PACKET_TYPE_BULK_PUSH
            ∧ ((b.val : Nat) : Int) ≠ NANO_BLOCK_TYPE_NOT_A_BLOCK
            ∧ ¬ is_block_type ((b.val : Nat) : Int)) → n ≤ 1 + NANO_BLOCK_SIZE_STATE) := by
  obtain ⟨b, hb⟩ := tvb_get_guint8_isSome tvb offset ho
  obtain ⟨n, hn⟩ := get_nano_message_len_continuation_bounds st tvb offset b hp hb h32
  exact ⟨n, b, hb, hn⟩

set_option maxRecDepth 100000 in
/-- C35 at a pending Bulk Push and three bytes that start with the unrecognised type 0, and
the value of the bound. -/
theorem get_nano_message_len_pending_bounds_witness :
    (∃ n b, tvb_get_guint8 [0, 0, 0] 0 = some b
      ∧ get_nano_message_len (pending_session 7) [0, 0, 0] 0 = some n ∧ 1 ≤ n
      ∧ (((pending_session 7).client_packet_type = NANO_PACKET_TYPE_BULK_PUSH
            ∧ ((b.val : Nat) : Int) ≠ NANO_BLOCK_TYPE_NOT_A_BLOCK
            ∧ ¬ is_block_type ((b.val : Nat) : Int)) → n = [(0 : guint8), 0, 0].length - 0)
      ∧ (¬ ((pending_session 7).client_packet_type = NANO_PACKET_TYPE_BULK_PUSH
            ∧ ((b.val : Nat) : Int) ≠ NANO_BLOCK_TYPE_NOT_A_BLOCK
            ∧ ¬ is_block_type ((b.val : Nat) : Int)) → n ≤ 1 + NANO_BLOCK_SIZE_STATE))
      ∧ get_nano_message_len (pending_session 7) [0, 0, 0] 0 = some 3
      ∧ 1 + NANO_BLOCK_SIZE_STATE = 217 :=
  ⟨get_nano_message_len_pending_bounds (pending_session 7) [0, 0, 0] 0 (by decide)
    (by decide) (by decide), by decide, by decide⟩

set_option maxRecDepth 100000 in
/-- C36. The block loop of an Asc Pull Ack terminates on every buffer. An iteration stops
the loop when the read at the cursor is past the end of the buffer (it throws), when the
byte there is the end marker 1 and when it is no block type; otherwise it runs the decoder
of that block type, which adds one interior node to the tree, and the loop goes on at a
cursor at least 136 bytes further. So an iteration allowed beyond one per 136 bytes left in
the buffer and one more is never run, and the loop decodes at most
(length - offset) / 136 + 1 blocks. -/
theorem dissect_nano_asc_pull_ack_blocks_loop_terminates (tvb : tvbuff_t) (offset : Nat)
    (e : dissect_env) :
    (∀ fuel, tvb_get_guint8 tvb offset = none →
        (dissect_nano_asc_pull_ack_blocks_payload_loop tvb (fuel + 1) offset).run e
          = (none, e))
      ∧ (∀ fuel b, tvb_get_guint8 tvb offset = some b →
        b.val = 1 ∨ ¬ is_block_type ((b.val : Nat) : Int) →
        (dissect_nano_asc_pull_ack_blocks_payload_loop tvb (fuel + 1) offset).run e
          = (some (), e))
      ∧ (∀ fuel b, tvb_get_guint8 tvb offset = some b →
        is_block_type ((b.val : Nat) : Int) →
        (dissect_nano_asc_pull_ack_blocks_payload_loop tvb (fuel + 1) offset).run e
            = (dissect_nano_block ((b.val : Nat) : Int) tvb offset >>= fun _ =>
                dissect_nano_asc_pull_ack_blocks_payload_loop tvb fuel
                  (offset + get_block_type_size ((b.val : Nat) : Int))).run e
          ∧ 136 ≤ get_block_type_size ((b.val : Nat) : Int)
          ∧ tree_subtree_count
              ((dissect_nano_block ((b.val : Nat) : Int) tvb offset).run e).2.tree
            = tree_subtree_count e.tree + 1)
      ∧ (∀ fuel, (tvb.length - offset) / 136 + 1 < fuel →
        dissect_nano_asc_pull_ack_blocks_payload_loop tvb fuel offset
          = dissect_nano_asc_pull_ack_blocks_payload tvb offset)
      ∧ tree_subtree_count
          ((dissect_nano_asc_pull_ack_blocks_payload tvb offset).run e).2.tree
        ≤ tree_subtree_count e.tree + ((tvb.length - offset) / 136 + 1) := by
  refine ⟨fun fuel => (dissect_nano_asc_pull_ack_blocks_payload_loop_stop tvb fuel offset e).1,
    fun fuel => (dissect_nano_asc_pull_ack_blocks_payload_loop_stop tvb fuel offset e).2,
    fun fuel b hb hbt =>
      ⟨dissect_nano_asc_pull_ack_blocks_payload_loop_block tvb fuel offset e b hb hbt,
        get_block_type_size_ge _ hbt,
        dissect_nano_block_subtree_of_block_type _ tvb offset e hbt⟩,
    fun fuel h => dissect_nano_asc_pull_ack_blocks_payload_loop_eq tvb fuel offset
      (by omega), ?_⟩
  have h := dissect_nano_asc_pull_ack_blocks_payload_loop_subtrees tvb (tvb.length + 1)
    offset e
  unfold dissect_nano_asc_pull_ack_blocks_payload
  omega

set_option maxRecDepth 100000 in
/-- C36 at a payload of 153 bytes, a Send block read from its type byte on and the end
marker: three iterations are as good as any number, and one block is decoded, within the
bound of two. -/
theorem dissect_nano_asc_pull_ack_blocks_loop_terminates_witness :
    dissect_nano_asc_pull_ack_blocks_payload_loop asc_pull_ack_blocks_example 3 0
        = dissect_nano_asc_pull_ack_blocks_payload asc_pull_ack_blocks_example 0
      ∧ tree_subtree_count
          ((dissect_nano_asc_pull_ack_blocks_payload asc_pull_ack_blocks_example 0).run
            (message_env (new_session_state 7075) 7075)).2.tree = 1
      ∧ (asc_pull_ack_blocks_example.length - 0) / 136 + 1 = 2 :=
  ⟨(dissect_nano_asc_pull_ack_blocks_loop_terminates asc_pull_ack_blocks_example 0
      (message_env (new_session_state 7075) 7075)).2.2.2.1 3 (by decide),
    by decide, by decide⟩

/-- C37. Re-dissecting a TCP segment starts from the same session state as its first
dissection. On the first visit of a frame `dissect_nano_tcp` attaches to it a copy of the
state the conversation holds at that moment, before `tcp_dissect_pdus` runs, and starts from
that state. Whatever segments are dissected afterwards, in any order and any number of
times, a later visit of the frame puts the copy back into the conversation before
`tcp_dissect_pdus` runs, so it starts from the state of the first visit. -/
theorem dissect_nano_tcp_redissection_starts_from_first_state
    (tcp_dissect_pdus : tcp_segment → nano_session_state → nano_session_state)
    (data : nano_tcp_data) (pinfo : tcp_segment) (later : List tcp_segment)
    (hfirst : data.packet pinfo.frame = none) :
    (dissect_nano_tcp tcp_dissect_pdus pinfo data).start_state
        = (match data.conversation with
          | some session_state => session_state
          | none => new_session_state pinfo.match_uint)
      ∧ (dissect_nano_tcp tcp_dissect_pdus pinfo data).data.packet pinfo.frame
        = some (dissect_nano_tcp tcp_dissect_pdus pinfo data).start_state
      ∧ (dissect_nano_tcp tcp_dissect_pdus pinfo
          (dissect_nano_tcp_segments tcp_dissect_pdus
            (dissect_nano_tcp tcp_dissect_pdus pinfo data).data later)).start_state
        = (dissect_nano_tcp tcp_dissect_pdus pinfo data).start_state
      ∧ (dissect_nano_tcp tcp_dissect_pdus pinfo
          (dissect_nano_tcp_segments tcp_dissect_pdus
            (dissect_nano_tcp tcp_dissect_pdus pinfo data).data later)).data.conversation
        = (dissect_nano_tcp tcp_dissect_pdus pinfo data).data.conversation := by
  obtain ⟨h1, h2⟩ := dissect_nano_tcp_first_visit tcp_dissect_pdus pinfo data hfirst
  have h3 := dissect_nano_tcp_segments_keeps_packet_data tcp_dissect_pdus later _ _ _ h2
  obtain ⟨h4, h5⟩ := dissect_nano_tcp_later_visit tcp_dissect_pdus pinfo _ _ h3
  refine ⟨h1, h2, h4, ?_⟩
  rw [h5]
  unfold dissect_nano_tcp
  simp only [hfirst]

set_option maxRecDepth 100000 in
/-- C37 at a capture of two frames, a Bulk Pull request and a Bulk Pull Response with a Send
block, each holding one message. After both frames the conversation has a Bulk Pull pending;
the first frame, dissected again, starts from the state of a new conversation as it did on
its first visit. -/
theorem dissect_nano_tcp_redissection_starts_from_first_state_witness :
    (dissect_nano_tcp tcp_dissect_pdus_one_message bulk_pull_segment
        (dissect_nano_tcp_segments tcp_dissect_pdus_one_message
          (dissect_nano_tcp tcp_dissect_pdus_one_message bulk_pull_segment
            new_nano_tcp_data).data [send_block_segment])).start_state
        = (dissect_nano_tcp tcp_dissect_pdus_one_message bulk_pull_segment
          new_nano_tcp_data).start_state
      ∧ (dissect_nano_tcp tcp_dissect_pdus_one_message bulk_pull_segment
          new_nano_tcp_data).start_state = new_session_state 7075
      ∧ (dissect_nano_tcp_segments tcp_dissect_pdus_one_message
          (dissect_nano_tcp tcp_dissect_pdus_one_message bulk_pull_segment
            new_nano_tcp_data).data [send_block_segment]).conversation
        = some (pending_session 6) :=
  ⟨(dissect_nano_tcp_redissection_starts_from_first_state tcp_dissect_pdus_one_message
      new_nano_tcp_data bulk_pull_segment [send_block_segment] rfl).2.2.1,
    by decide, by decide⟩

end Nano
